import Mathlib

/-!
Shallow embedding of the `policy` package of the deepflow repository
(`src/policy/policy_labeler.go`) together with the parts of its data model
that the verification of the specification claims requires.

Conventions of the embedding:
* Go machine integers are represented by `Nat` (unsigned) or `Int` (signed),
  with explicit `%` / masking where Go would truncate.
* Go maps are represented either as association lists (`List (Nat × α)`,
  reads default to the zero value) when the code iterates over them, or as
  total functions with an `Option`/`Bool`/zero default when it only reads
  and writes point-wise.
* The LRU cache (`github.com/golang/groupcache/lru`) is represented by a
  list of entries in recency order (head = most recently used) plus the
  `MaxEntries` bound; `MaxEntries = 0` means "no limit", as in groupcache.
* Stateful Go methods become functions that take and return the state.
* Types from `droplet-libs/datatype` and `droplet-libs/utils`
  (`PolicyData`, `AclAction`, `DirectionType`, `TapType`, `IpToUint32`, …)
  are not part of this repository's sources; they are modelled from the
  specification where the claims depend on them, and each such definition
  says so in its doc comment.
-/

set_option linter.unusedVariables false

namespace DeepflowPolicy

/-! ## Constants (policy_labeler.go lines 17-26) -/

/-- POLICY_TIMEOUT = 1 * time.Minute, in nanoseconds (`time.Duration`). -/
def POLICY_TIMEOUT : Int := 60000000000

def FAST_PATH_POLICY_MAP_SIZE_LIMIT : Nat := 1024

def FAST_PATH_EPC_MAP_SIZE_LIMIT : Nat := 128

def ANY_GROUP : Nat := 0
def ANY_PROTO : Nat := 0
def ANY_PORT : Nat := 0

/-- Modelled from the spec: `TapType` is an enum `(MIN..MAX, ANY)` from
`droplet-libs/datatype` (not in src); `ANY` expands to every concrete tap
at compile time.  We fix `TAP_ANY = 0` and the concrete taps `1, 2, 3`. -/
def TAP_ANY : Nat := 0

/-- Modelled from the spec: smallest concrete tap type. -/
def TAP_MIN : Nat := 1

/-- Modelled from the spec: one past the largest concrete tap type. -/
def TAP_MAX : Nat := 4

/-- Modelled from the spec: `CheckTapType` is treated as a validity gate
accepting a concrete tap in `[TAP_MIN, TAP_MAX)`. -/
def CheckTapType (t : Nat) : Bool := TAP_MIN ≤ t && t < TAP_MAX

/-- The list of concrete tap types `TAP_MIN, …, TAP_MAX-1`
(the Go loops `for i := TAP_MIN; i < TAP_MAX; i++`). -/
def tapRange : List Nat := List.range' TAP_MIN (TAP_MAX - TAP_MIN)

/-! ## Directions, actions and policies

`DirectionType`, `AclAction` and `PolicyData` live in `droplet-libs/datatype`
(not in src) and are modelled from the spec. -/

/-- Modelled from the spec: `DirectionType` with values `FORWARD`, `BACKWARD`. -/
inductive DirectionType where
  | FORWARD
  | BACKWARD
  deriving DecidableEq, Repr

export DirectionType (FORWARD BACKWARD)

/-- Modelled from the spec: an `AclAction` is an opaque action value tagged
with a direction; merging with a direction re-tags, `MergeAndSwapDirection`
flips the tag. -/
structure AclAction where
  action : Nat
  direction : DirectionType
  deriving DecidableEq, Repr

/-- Modelled from the spec: flip a direction. -/
def swapDir : DirectionType → DirectionType
  | FORWARD => BACKWARD
  | BACKWARD => FORWARD

/-- Modelled from the spec: tag an action with a direction. -/
def setDir (d : DirectionType) (a : AclAction) : AclAction :=
  { a with direction := d }

/-- Modelled from the spec: flip an action's direction tag. -/
def swapActionDir (a : AclAction) : AclAction :=
  { a with direction := swapDir a.direction }

/-- Modelled from the spec: `PolicyData` is an ACL id together with a
sequence of actions.  The sentinel `INVALID_POLICY_DATA` is represented at
the call sites by `Option.none`. -/
structure PolicyData where
  ACLID : Nat
  AclActions : List AclAction
  deriving DecidableEq, Repr

/-- The empty policy `&PolicyData{}`. -/
def emptyPolicy : PolicyData := ⟨0, []⟩

/-- Modelled from the spec: `Merge(actions, id)` unions (appends) the
actions, preserving their direction tags; the id is adopted when none is
set yet. -/
def PolicyData.Merge (p : PolicyData) (actions : List AclAction) (id : Nat) : PolicyData :=
  { ACLID := if p.ACLID = 0 then id else p.ACLID
    AclActions := p.AclActions ++ actions }

/-- Modelled from the spec: `Merge(actions, id, direction)` unions the
actions while tagging each incoming action with `direction`. -/
def PolicyData.MergeDir (p : PolicyData) (actions : List AclAction) (id : Nat)
    (d : DirectionType) : PolicyData :=
  { ACLID := if p.ACLID = 0 then id else p.ACLID
    AclActions := p.AclActions ++ actions.map (setDir d) }

/-- Modelled from the spec: `MergeAndSwapDirection` unions the actions with
all direction tags flipped. -/
def PolicyData.MergeAndSwapDirection (p : PolicyData) (actions : List AclAction)
    (id : Nat) : PolicyData :=
  { ACLID := if p.ACLID = 0 then id else p.ACLID
    AclActions := p.AclActions ++ actions.map swapActionDir }

/-! ## Endpoints and lookup keys -/

/-- Modelled from the spec: `EndpointInfo` (the classifier only reads
`GroupIds`, `L2EpcId`, `L3EpcId`). -/
structure EndpointInfo where
  L2EpcId : Int
  L3EpcId : Int
  GroupIds : List Nat
  deriving DecidableEq, Repr

/-- Modelled from the spec: `EndpointData` is a pair of endpoint infos. -/
structure EndpointData where
  SrcInfo : EndpointInfo
  DstInfo : EndpointInfo
  deriving DecidableEq, Repr

/-- Modelled from the spec: `LookupKey` query tuple; the slices
`SrcGroupIds`/`DstGroupIds` are filled in by `generateInterestKeys` and the
port/proto fields are rewritten in place by the interest filter. -/
structure LookupKey where
  Timestamp : Int
  SrcMac : Nat
  DstMac : Nat
  SrcIp : Nat
  DstIp : Nat
  SrcPort : Nat
  DstPort : Nat
  Vlan : Nat
  Proto : Nat
  Tap : Nat
  SrcGroupIds : List Nat
  DstGroupIds : List Nat
  FastIndex : Nat
  deriving DecidableEq, Repr

/-- `Acl` (policy_labeler.go lines 28-38).  The Go maps
`SrcGroups`/`DstGroups : map[uint32]uint32` and `DstPorts : map[uint16]uint16`
are represented as association lists; the code only iterates over their
values. -/
structure Acl where
  Id : Nat
  /-- The Go field is named `Type` (a Lean keyword). -/
  AclType : Nat
  TapId : Nat
  SrcGroups : List (Nat × Nat)
  DstGroups : List (Nat × Nat)
  DstPorts : List (Nat × Nat)
  Proto : Nat
  Vlan : Nat
  Action : List AclAction
  deriving DecidableEq, Repr

/-! ## The LRU cache (github.com/golang/groupcache/lru)

An external component; modelled from its documented behaviour: a bounded
map with recency order.  `entries` is in recency order, head = most
recently used.  `MaxEntries = 0` means unlimited. -/

structure Lru (α : Type) where
  MaxEntries : Nat
  entries : List (Nat × α)
  deriving Repr

namespace Lru

/-- A fresh cache, `lru.New(maxEntries)`. -/
def new (α : Type) (maxEntries : Nat) : Lru α := ⟨maxEntries, []⟩

/-- Pure lookup (no recency update); used to state properties. -/
def find? {α : Type} (c : Lru α) (k : Nat) : Option α :=
  (c.entries.find? (fun p => p.1 == k)).map (·.2)

/-- `Get`: on a hit, move the entry to the front and return its value. -/
def get {α : Type} (c : Lru α) (k : Nat) : Option α × Lru α :=
  match c.entries.find? (fun p => p.1 == k) with
  | some p => (some p.2, { c with entries := p :: c.entries.eraseP (fun q => q.1 == k) })
  | none => (none, c)

/-- `Add`: replace-and-move-to-front when the key is present, otherwise
push to the front and evict the oldest entry when the bound is exceeded. -/
def add {α : Type} (c : Lru α) (k : Nat) (v : α) : Lru α :=
  if (c.entries.find? (fun p => p.1 == k)).isSome then
    { c with entries := (k, v) :: c.entries.eraseP (fun q => q.1 == k) }
  else
    let es := (k, v) :: c.entries
    { c with entries := if c.MaxEntries ≠ 0 ∧ es.length > c.MaxEntries then es.dropLast else es }

/-- `Remove`: drop the entry with the given key. -/
def remove {α : Type} (c : Lru α) (k : Nat) : Lru α :=
  { c with entries := c.entries.eraseP (fun q => q.1 == k) }

/-- `Clear`: drop everything. -/
def clear {α : Type} (c : Lru α) : Lru α := { c with entries := [] }

/-- Get-or-create followed by in-place mutation of the entry through the
returned pointer, as the Go fast-path code does: on a hit the entry moves
to the front (lru `Get`) and is then mutated in place by `f`; on a miss
with `create` the freshly created value is added (lru `Add`, with its
eviction) and then mutated in place by `f`.  Returns `f`'s second result. -/
def adjust {α β : Type} (c : Lru α) (k : Nat) (fresh : α) (create : Bool)
    (f : α → α × β) : Option β × Lru α :=
  match c.entries.find? (fun p => p.1 == k) with
  | some p =>
      let fv := f p.2
      (some fv.2, { c with entries := (k, fv.1) :: c.entries.eraseP (fun q => q.1 == k) })
  | none =>
      if create then
        let fv := f fresh
        (some fv.2, (c.add k fv.1))
      else
        (none, c)

end Lru

/-! ## Fast-path structures (policy_labeler.go lines 40-57) -/

structure FastPathMapValue where
  endpoint : EndpointData
  policy : PolicyData
  timestamp : Int
  deriving Repr

structure VlanAndPortMap where
  macEpcMap : Lru Nat
  vlanPolicyMap : Lru FastPathMapValue
  portPolicyMap : Lru FastPathMapValue
  deriving Repr

/-- The fresh `VlanAndPortMap` built in `getVlanAndPortMap` (line 713). -/
def newVlanAndPortMap : VlanAndPortMap :=
  ⟨Lru.new Nat FAST_PATH_EPC_MAP_SIZE_LIMIT,
   Lru.new FastPathMapValue FAST_PATH_POLICY_MAP_SIZE_LIMIT,
   Lru.new FastPathMapValue FAST_PATH_POLICY_MAP_SIZE_LIMIT⟩

/-! ## PolicyLabel state (policy_labeler.go lines 59-77)

Per-tap arrays and Go maps that are only read/written point-wise are
represented as total functions; `FastPolicyMaps` is indexed by
`(queue index, tap)`. -/

structure PolicyLabel where
  RawAcls : List Acl
  InterestProtoMaps : Nat → Nat → Bool
  InterestPortMaps : Nat → Nat → Bool
  InterestGroupMaps : Nat → Nat → Bool
  IpNetmaskMap : List (Nat × Nat)
  FastPolicyMaps : Nat → Nat → Lru VlanAndPortMap
  FastPathDisable : Bool
  MapSize : Nat
  GroupPortPolicyMaps : Nat → Nat → Option PolicyData
  GroupVlanPolicyMaps : Nat → Nat → Option PolicyData
  FirstPathHit : Nat
  FastPathHit : Nat
  FirstPathHitTick : Nat
  FastPathHitTick : Nat
  AclHitMax : Nat

/-- `NewPolicyLabel` (lines 79-103).  The per-`(queue, tap)` fast-path
caches are a total function here; the Go code allocates them for
`queue < queueCount` and `tap ∈ [TAP_MIN, TAP_MAX)` and never indexes
outside that range. -/
def NewPolicyLabel (queueCount : Nat) (mapSize : Nat) (fastPathDisable : Bool) : PolicyLabel :=
  { RawAcls := []
    InterestProtoMaps := fun _ _ => false
    InterestPortMaps := fun _ _ => false
    InterestGroupMaps := fun _ _ => false
    IpNetmaskMap := []
    FastPolicyMaps := fun _ _ => Lru.new VlanAndPortMap mapSize
    FastPathDisable := fastPathDisable
    MapSize := mapSize
    GroupPortPolicyMaps := fun _ _ => none
    GroupVlanPolicyMaps := fun _ _ => none
    FirstPathHit := 0
    FastPathHit := 0
    FirstPathHitTick := 0
    FastPathHitTick := 0
    AclHitMax := 0 }

/-! ## Interest filter (policy_labeler.go lines 105-147, 603-613) -/

/-- `mapToSlice` (lines 105-113): collect the positive values of a
`map[uint32]uint32`. -/
def mapToSlice (m : List (Nat × Nat)) : List Nat :=
  m.foldl (fun out item => if item.2 > 0 then out ++ [item.2] else out) []

/-- `getFastInterestKeys` (lines 603-613): rewrite uninteresting ports and
proto to the wildcard 0. -/
def getFastInterestKeys (l : PolicyLabel) (packet : LookupKey) : LookupKey :=
  let packet := if l.InterestPortMaps packet.Tap packet.SrcPort then packet
                else { packet with SrcPort := ANY_PORT }
  let packet := if l.InterestPortMaps packet.Tap packet.DstPort then packet
                else { packet with DstPort := ANY_PORT }
  if l.InterestProtoMaps packet.Tap packet.Proto then packet
  else { packet with Proto := ANY_PROTO }

/-- `generateInterestKeys` (lines 115-147): retain only interesting group
ids, always append the wildcard group 0 unless it already passed the
filter, then normalise ports/proto. -/
def generateInterestKeys (l : PolicyLabel) (endpointData : EndpointData)
    (packet : LookupKey) : LookupKey :=
  let groupMap := l.InterestGroupMaps packet.Tap
  let srcPassed := endpointData.SrcInfo.GroupIds.filter groupMap
  let srcHasAny := endpointData.SrcInfo.GroupIds.any (fun id => groupMap id && id == ANY_GROUP)
  let src := packet.SrcGroupIds ++ srcPassed ++ (if srcHasAny then [] else [ANY_GROUP])
  let dstPassed := endpointData.DstInfo.GroupIds.filter groupMap
  let dstHasAny := endpointData.DstInfo.GroupIds.any (fun id => groupMap id && id == ANY_GROUP)
  let dst := packet.DstGroupIds ++ dstPassed ++ (if dstHasAny then [] else [ANY_GROUP])
  getFastInterestKeys l { packet with SrcGroupIds := src, DstGroupIds := dst }

/-! ## Key codec (policy_labeler.go lines 149-213, 319-346) -/

/-- `generateGroupPortKeys` (lines 149-176), with the `|=` / `&=` key
variable threaded through the double loop exactly as in the source. -/
def generateGroupPortKeys (srcGroups dstGroups : List Nat) (port proto : Nat) : List Nat :=
  let key := port <<< 40 ||| proto <<< 56
  let srcGroups := if srcGroups = [] then [ANY_GROUP] else srcGroups
  let dstGroups := if dstGroups = [] then [ANY_GROUP] else dstGroups
  (srcGroups.foldl (fun (acc : List Nat × Nat) src =>
      let srcId := src &&& 0xfffff
      dstGroups.foldl (fun acc dst =>
          let dstId := dst &&& 0xfffff
          let key := acc.2 ||| (srcId <<< 20 ||| dstId)
          (acc.1 ++ [key], key &&& 0xffffff0000000000))
        acc)
    ([], key)).1

/-- `generateSearchPortKeys` (lines 178-192). -/
def generateSearchPortKeys (srcGroups dstGroups : List Nat) (port proto : Nat) : List Nat :=
  let keys := generateGroupPortKeys srcGroups dstGroups port proto
  let keys := if port ≠ 0 then
      keys ++ generateGroupPortKeys srcGroups dstGroups ANY_PORT proto
    else keys
  let keys := if proto ≠ 0 then
      keys ++ generateGroupPortKeys srcGroups dstGroups ANY_PORT ANY_PROTO
    else keys
  if proto ≠ 0 ∧ port ≠ 0 then
    keys ++ generateGroupPortKeys srcGroups dstGroups port ANY_PROTO
  else keys

/-- `generateGroupPortsKeys` (lines 194-213). -/
def generateGroupPortsKeys (acl : Acl) (direction : DirectionType) : List Nat :=
  let src := acl.SrcGroups
  let dst := acl.DstGroups
  let (src, dst) := if direction = BACKWARD then (dst, src) else (src, dst)
  if acl.DstPorts.length ≥ 0xffff ∨ acl.DstPorts.length = 0 then
    generateGroupPortKeys (mapToSlice src) (mapToSlice dst) ANY_PORT acl.Proto
  else
    acl.DstPorts.foldl (fun keys port =>
      keys ++ generateGroupPortKeys (mapToSlice src) (mapToSlice dst) port.2 acl.Proto) []

/-- `generateGroupVlanKeys` (lines 319-346); same `|=` / `&=` threading as
`generateGroupPortKeys`, with the vlan in bits 48-63. -/
def generateGroupVlanKeys (srcGroups dstGroups : List Nat) (vlan : Nat) : List Nat :=
  let key := vlan <<< 48
  let srcGroups := if srcGroups = [] then [ANY_GROUP] else srcGroups
  let dstGroups := if dstGroups = [] then [ANY_GROUP] else dstGroups
  (srcGroups.foldl (fun (acc : List Nat × Nat) src =>
      let srcId := src &&& 0xfffff
      dstGroups.foldl (fun acc dst =>
          let dstId := dst &&& 0xfffff
          let key := acc.2 ||| (srcId <<< 20 ||| dstId)
          (acc.1 ++ [key], key &&& 0xffffff0000000000))
        acc)
    ([], key)).1

/-! ## Rule compiler (policy_labeler.go lines 215-239, 348-417) -/

/-- Point update of a per-tap policy table. -/
def updPolicyMap (m : Nat → Nat → Option PolicyData) (tap key : Nat) (v : PolicyData) :
    Nat → Nat → Option PolicyData :=
  fun t k => if t = tap ∧ k = key then some v else m t k

/-- `GenerateGroupPortMaps` (lines 215-239): compile every vlan-free ACL's
forward keys into a fresh per-tap port-policy table. -/
def GenerateGroupPortMaps (l : PolicyLabel) (acls : List Acl) : PolicyLabel :=
  let portMaps := acls.foldl (fun pm acl =>
    if CheckTapType acl.AclType ∧ acl.Vlan = 0 then
      (generateGroupPortsKeys acl FORWARD).foldl (fun pm key =>
        match pm acl.AclType key with
        | none => updPolicyMap pm acl.AclType key (emptyPolicy.Merge acl.Action acl.Id)
        | some policy => updPolicyMap pm acl.AclType key (policy.Merge acl.Action acl.Id)) pm
    else pm) (fun _ _ => none)
  { l with GroupPortPolicyMaps := portMaps }

/-- `GenerateGroupVlanMaps` (lines 348-382): compile every vlan ACL into
forward- and backward-tagged entries of a fresh per-tap vlan-policy table.
`uint16(acl.Vlan)` is the `% 2^16` truncation. -/
def GenerateGroupVlanMaps (l : PolicyLabel) (acls : List Acl) : PolicyLabel :=
  let vlanMaps := acls.foldl (fun vm acl =>
    if CheckTapType acl.AclType ∧ acl.Vlan > 0 then
      let keys := generateGroupVlanKeys (mapToSlice acl.SrcGroups) (mapToSlice acl.DstGroups)
        (acl.Vlan % 65536)
      let vm := keys.foldl (fun vm key =>
        match vm acl.AclType key with
        | none => updPolicyMap vm acl.AclType key (emptyPolicy.MergeDir acl.Action acl.Id FORWARD)
        | some policy => updPolicyMap vm acl.AclType key (policy.MergeDir acl.Action acl.Id FORWARD)) vm
      let keys := generateGroupVlanKeys (mapToSlice acl.DstGroups) (mapToSlice acl.SrcGroups)
        (acl.Vlan % 65536)
      keys.foldl (fun vm key =>
        match vm acl.AclType key with
        | none => updPolicyMap vm acl.AclType key (emptyPolicy.MergeDir acl.Action acl.Id BACKWARD)
        | some policy => updPolicyMap vm acl.AclType key (policy.MergeDir acl.Action acl.Id BACKWARD)) vm
    else vm) (fun _ _ => none)
  { l with GroupVlanPolicyMaps := vlanMaps }

/-- Point update of a per-tap boolean interest set. -/
def updBoolMap (m : Nat → Nat → Bool) (tap key : Nat) : Nat → Nat → Bool :=
  fun t k => if t = tap ∧ k = key then true else m t k

/-- `GenerateInterestMaps` (lines 384-417). -/
def GenerateInterestMaps (l : PolicyLabel) (acls : List Acl) : PolicyLabel :=
  let maps := acls.foldl
    (fun (maps : (Nat → Nat → Bool) × (Nat → Nat → Bool) × (Nat → Nat → Bool)) acl =>
      if CheckTapType acl.AclType then
        let protoMaps := updBoolMap maps.1 acl.AclType acl.Proto
        let portMaps := if acl.DstPorts.length < 0xffff then
            acl.DstPorts.foldl (fun pm port => updBoolMap pm acl.AclType port.2) maps.2.1
          else maps.2.1
        let groupMaps := acl.DstGroups.foldl (fun gm group => updBoolMap gm acl.AclType group.2)
          maps.2.2
        let groupMaps := acl.SrcGroups.foldl (fun gm group => updBoolMap gm acl.AclType group.2)
          groupMaps
        (protoMaps, portMaps, groupMaps)
      else maps)
    (fun _ _ => false, fun _ _ => false, fun _ _ => false)
  { l with InterestProtoMaps := maps.1, InterestPortMaps := maps.2.1,
           InterestGroupMaps := maps.2.2 }

/-! ## Coordinator (policy_labeler.go lines 419-475) -/

/-- `UpdateAcls` (lines 419-439): record the raw rules, expand `TAP_ANY`
rules to one clone per concrete tap, and regenerate the three compiled map
families.  It does not touch the fast-path caches. -/
def UpdateAcls (l : PolicyLabel) (acls : List Acl) : PolicyLabel :=
  let l := { l with RawAcls := acls }
  let generateAcls := acls.foldl (fun out acl =>
    if acl.AclType = TAP_ANY then
      out ++ tapRange.map (fun i => { acl with AclType := i })
    else out ++ [acl]) []
  let l := GenerateGroupPortMaps l generateAcls
  let l := GenerateGroupVlanMaps l generateAcls
  GenerateInterestMaps l generateAcls

/-- `FlushAcls` (lines 441-448): replace every per-`(queue, tap)` fast-path
cache by a fresh empty one of capacity `MapSize`. -/
def FlushAcls (l : PolicyLabel) : PolicyLabel :=
  { l with FastPolicyMaps := fun q t =>
      if TAP_MIN ≤ t ∧ t < TAP_MAX then Lru.new VlanAndPortMap l.MapSize
      else l.FastPolicyMaps q t }

/-- `AddAcl` (lines 450-456). -/
def AddAcl (l : PolicyLabel) (acl : Acl) : PolicyLabel :=
  FlushAcls (UpdateAcls l (l.RawAcls ++ [acl]))

/-- `DelAcl` (lines 458-475); `id` is 1-based (the non-positive Go inputs
are the `id = 0` case here). -/
def DelAcl (l : PolicyLabel) (id : Nat) : PolicyLabel :=
  let acls := l.RawAcls
  if id > acls.length ∨ id = 0 then l
  else
    let index := id - 1
    if id = acls.length then FlushAcls (UpdateAcls l (acls.take index))
    else FlushAcls (UpdateAcls l (acls.take index ++ acls.drop (index + 1)))

/-! ## Netmask learner (policy_labeler.go lines 241-317)

The `IpNetmaskMap : map[uint32]uint32` is an association list; reads of
missing keys yield 0 as in Go. -/

abbrev IpMap := List (Nat × Nat)

/-- Go map read, zero default. -/
def ipGet (m : IpMap) (k : Nat) : Nat :=
  match m.find? (fun p => p.1 == k) with
  | some p => p.2
  | none => 0

/-- Go map write. -/
def ipSet (m : IpMap) (k v : Nat) : IpMap :=
  (k, v) :: m.eraseP (fun p => p.1 == k)

/-- `makeIpNetmaskMap` (lines 241-251): copy the current table into a
fresh map, keeping the larger value per key. -/
def makeIpNetmaskMap (m : IpMap) : IpMap :=
  m.foldl (fun acc kv => if ipGet acc kv.1 < kv.2 then ipSet acc kv.1 kv.2 else acc) []

/-- `IpNet` from `droplet-libs/datatype`: the policy code reads the binary
ip (`network.Ip : uint32`) and the prefix length (`network.Netmask`). -/
structure IpNet where
  Ip : Nat
  Netmask : Nat
  SubnetId : Nat
  deriving DecidableEq, Repr

/-- `PlatformData` from `droplet-libs/datatype` (only `Ips` is read here). -/
structure PlatformData where
  Mac : Nat
  Ips : List IpNet
  EpcId : Int
  IfType : Nat
  deriving DecidableEq, Repr

/-- Modelled from the spec: `IpGroupData` carries textual `a.b.c.d/len`
prefixes in `Ips`. -/
structure IpGroupData where
  Ips : List String
  deriving DecidableEq, Repr

/-- `uint32(math.MaxUint32) << (32 - netmask)` in Go `uint32` arithmetic:
the shift count wraps modulo 2^32 and a count of 32 or more yields 0. -/
def maskOfNetmask (n : Nat) : Nat :=
  let s := (2 ^ 32 + 32 - n % 2 ^ 32) % 2 ^ 32
  if s < 32 then (0xffffffff <<< s) % 2 ^ 32 else 0

/-- `uint32(math.MaxUint32) << uint32(32 - maskSize)` for the `int`
`maskSize` produced by `strconv.Atoi`. -/
def maskOfMaskSizeInt (maskSize : Int) : Nat :=
  let s := ((32 - maskSize).emod (2 ^ 32)).toNat
  if s < 32 then (0xffffffff <<< s) % 2 ^ 32 else 0

/-- The seed-pass body shared by both learners (lines 257-263 and
296-300): record `mask` at the /16 bucket of `ip` when it is at least
/16-specific and larger than the current value. -/
def seedAt (mm : IpMap) (ip mask : Nat) : IpMap :=
  let netIp := ip &&& 0xffff0000
  if 0xffff0000 ≤ mask ∧ ipGet mm netIp < mask then ipSet mm netIp mask else mm

/-- The refine-pass body shared by both learners (lines 266-273 and
303-314): push the /16 bucket's mask down to `ip & mask`. -/
def refineAt (mm : IpMap) (ip : Nat) : IpMap :=
  let mask := ipGet mm (ip &&& 0xffff0000)
  let netIp := ip &&& mask
  if ipGet mm netIp < mask then ipSet mm netIp mask else mm

/-- `GenerateIpNetmaskMap` (lines 253-276) on the bare table: one global
seed pass over all platform prefixes, then one global refine pass. -/
def genIpNetmaskMap (m : IpMap) (platforms : List PlatformData) : IpMap :=
  let maskMap := makeIpNetmaskMap m
  let maskMap := platforms.foldl (fun mm platform =>
    platform.Ips.foldl (fun mm network =>
      seedAt mm network.Ip (maskOfNetmask network.Netmask)) mm) maskMap
  platforms.foldl (fun mm platform =>
    platform.Ips.foldl (fun mm network => refineAt mm network.Ip) mm) maskMap

/-- `GenerateIpNetmaskMap` as the `PolicyLabel` method. -/
def GenerateIpNetmaskMap (l : PolicyLabel) (platforms : List PlatformData) : PolicyLabel :=
  { l with IpNetmaskMap := genIpNetmaskMap l.IpNetmaskMap platforms }

/-- Model of Go `strings.Split` with a one-character separator, written
with structural recursion so that it evaluates by kernel reduction. -/
def splitOnCharAux (sep : Char) : List Char → List Char → List (List Char)
  | [], cur => [cur.reverse]
  | ch :: rest, cur =>
    if ch = sep then cur.reverse :: splitOnCharAux sep rest []
    else splitOnCharAux sep rest (ch :: cur)

/-- Split a character list on a separator character. -/
def splitOnChar (sep : Char) (s : List Char) : List (List Char) :=
  splitOnCharAux sep s []

/-- Model of Go `strconv.Atoi` restricted to the behaviour the learner
depends on: an optional sign followed by at least one digit parses to its
value, anything else is an error (64-bit overflow is not modelled; the
claims only involve small literals). -/
def parseAtoi (cs : List Char) : Option Int :=
  let signDigits : Int × List Char :=
    match cs with
    | '+' :: r => (1, r)
    | '-' :: r => (-1, r)
    | r => (1, r)
  if signDigits.2 = [] then none
  else if signDigits.2.all Char.isDigit then
    some (signDigits.1 * (signDigits.2.foldl (fun n c => n * 10 + (c.toNat - 48)) 0 : Nat))
  else none

/-- Model of Go `net.ParseIP` restricted to dotted-quad IPv4, returning
the big-endian `uint32` value; every other input is the `nil` result. -/
def parseIPv4 (s : List Char) : Option Nat :=
  let octet : List Char → Option Nat := fun cs =>
    if cs ≠ [] ∧ cs.length ≤ 3 ∧ cs.all Char.isDigit then
      let v := cs.foldl (fun n c => n * 10 + (c.toNat - 48)) 0
      if v ≤ 255 then some v else none
    else none
  match splitOnChar '.' s with
  | [a, b, c, d] =>
    match octet a, octet b, octet c, octet d with
    | some va, some vb, some vc, some vd =>
        some (va <<< 24 ||| vb <<< 16 ||| vc <<< 8 ||| vd)
    | _, _, _, _ => none
  | _ => none

/-- Modelled from the spec: `droplet-libs` `IpToUint32` maps a `nil`
`net.IP` to 0 and a parsed IPv4 address to its `uint32` value. -/
def IpToUint32 (ip : Option Nat) : Nat := ip.getD 0

/-- The seed-pass body of `GenerateIpNetmaskMapFromIpResource`
(lines 285-301): skip entries that do not split into two parts on `/` or
whose length part fails integer parsing; the ip part is parsed but not
checked for `nil`. -/
def seedIpResStep (mm : IpMap) (raw : String) : IpMap :=
  match splitOnChar '/' raw.data with
  | [ipStr, lenStr] =>
    let ip := parseIPv4 ipStr
    match parseAtoi lenStr with
    | none => mm
    | some maskSize => seedAt mm (IpToUint32 ip) (maskOfMaskSizeInt maskSize)
  | _ => mm

/-- The refine-pass body of `GenerateIpNetmaskMapFromIpResource`
(lines 303-314): only the split into two parts is re-checked. -/
def refineIpResStep (mm : IpMap) (raw : String) : IpMap :=
  match splitOnChar '/' raw.data with
  | [ipStr, lenStr] => refineAt mm (IpToUint32 (parseIPv4 ipStr))
  | _ => mm

/-- `GenerateIpNetmaskMapFromIpResource` (lines 278-317) on the bare
table: for each group, a seed pass over its strings followed by a refine
pass over its strings (the passes are interleaved per group). -/
def genIpNetmaskMapFromIpResource (m : IpMap) (datas : List IpGroupData) : IpMap :=
  let maskMap := makeIpNetmaskMap m
  datas.foldl (fun mm data =>
    let mm := data.Ips.foldl seedIpResStep mm
    data.Ips.foldl refineIpResStep mm) maskMap

/-- `GenerateIpNetmaskMapFromIpResource` as the `PolicyLabel` method. -/
def GenerateIpNetmaskMapFromIpResource (l : PolicyLabel) (datas : List IpGroupData) :
    PolicyLabel :=
  { l with IpNetmaskMap := genIpNetmaskMapFromIpResource l.IpNetmaskMap datas }

/-! ## Fast-path seeding and lookup (policy_labeler.go lines 477-762) -/

/-- Point update of the per-`(queue, tap)` fast-path cache family. -/
def updFastMaps (l : PolicyLabel) (q t : Nat) (c : Lru VlanAndPortMap) : PolicyLabel :=
  { l with FastPolicyMaps := fun q' t' =>
      if q' = q ∧ t' = t then c else l.FastPolicyMaps q' t' }

/-- The EPC id computed by `addEpcMap` (lines 541-551): `id` starts as
`ANY_GROUP` and is only changed when `L2EpcId > 0` or `L2EpcId == 0`. -/
def epcId (endpointInfo : EndpointInfo) : Nat :=
  if endpointInfo.L2EpcId > 0 then endpointInfo.L2EpcId.toNat
  else if endpointInfo.L2EpcId = 0 then
    (if endpointInfo.L3EpcId > 0 then endpointInfo.L3EpcId.toNat
     else if endpointInfo.L3EpcId = -1 then 0xffffffff
     else ANY_GROUP)
  else ANY_GROUP

/-- `addEpcMap` (lines 541-554): insert the EPC id under `mac` and return
it. -/
def addEpcMap (maps : VlanAndPortMap) (endpointInfo : EndpointInfo) (mac : Nat) :
    Nat × VlanAndPortMap :=
  let id := epcId endpointInfo
  (id, { maps with macEpcMap := maps.macEpcMap.add mac id })

/-- The subnet-pair key of `getVlanAndPortMap` (lines 694-708). -/
def getVlanAndPortMapKey (l : PolicyLabel) (packet : LookupKey) (direction : DirectionType) :
    Nat :=
  let maskSrc := ipGet l.IpNetmaskMap (packet.SrcIp &&& 0xffff0000)
  let maskSrc := if maskSrc < 0xffff0000 then 0xffff0000 else maskSrc
  let maskDst := ipGet l.IpNetmaskMap (packet.DstIp &&& 0xffff0000)
  let maskDst := if maskDst < 0xffff0000 then 0xffff0000 else maskDst
  let maskedSrcIp := packet.SrcIp &&& maskSrc
  let maskedDstIp := packet.DstIp &&& maskDst
  let (maskedSrcIp, maskedDstIp) :=
    if direction = BACKWARD then (maskedDstIp, maskedSrcIp) else (maskedSrcIp, maskedDstIp)
  maskedDstIp <<< 32 ||| maskedSrcIp

/-- The fast-path vlan key (lines 564 and 675). -/
def fastVlanKey (vlan srcEpc dstEpc : Nat) : Nat :=
  vlan ||| srcEpc <<< 32 ||| dstEpc <<< 12

/-- The fast-path port key (lines 594 and 636); `srcEpc << 44` is a Go
`uint64` shift and truncates. -/
def fastPortKey (srcEpc dstEpc proto port : Nat) : Nat :=
  ((srcEpc <<< 44) % 2 ^ 64) ||| dstEpc <<< 24 ||| proto <<< 16 ||| port

/-- The forward half of `addVlanFastPolicy` (lines 560-567), as the
mutation applied to the forward `VlanAndPortMap`. -/
def vlanSeedForward (endpointData : EndpointData) (packet : LookupKey) (policy : PolicyData)
    (maps : VlanAndPortMap) : VlanAndPortMap × Unit :=
  let (srcEpc, maps) := addEpcMap maps endpointData.SrcInfo packet.SrcMac
  let (dstEpc, maps) := addEpcMap maps endpointData.DstInfo packet.DstMac
  let key := fastVlanKey packet.Vlan srcEpc dstEpc
  let forward := emptyPolicy.Merge policy.AclActions policy.ACLID
  let valueForward : FastPathMapValue := ⟨endpointData, forward, packet.Timestamp⟩
  ({ maps with vlanPolicyMap := maps.vlanPolicyMap.add key valueForward }, ())

/-- The backward half of `addVlanFastPolicy` (lines 569-577): swapped key,
swapped directions, swapped endpoint. -/
def vlanSeedBackward (endpointData : EndpointData) (packet : LookupKey) (policy : PolicyData)
    (maps : VlanAndPortMap) : VlanAndPortMap × Unit :=
  let (srcEpc, maps) := addEpcMap maps endpointData.SrcInfo packet.SrcMac
  let (dstEpc, maps) := addEpcMap maps endpointData.DstInfo packet.DstMac
  let key := fastVlanKey packet.Vlan dstEpc srcEpc
  let backward := emptyPolicy.MergeAndSwapDirection policy.AclActions policy.ACLID
  let valueBackward : FastPathMapValue :=
    ⟨⟨endpointData.DstInfo, endpointData.SrcInfo⟩, backward, packet.Timestamp⟩
  ({ maps with vlanPolicyMap := maps.vlanPolicyMap.add key valueBackward }, ())

/-- `addVlanFastPolicy` (lines 556-578). -/
def addVlanFastPolicy (l : PolicyLabel) (endpointData : EndpointData) (packet : LookupKey)
    (policy : PolicyData) : PolicyLabel :=
  let kF := getVlanAndPortMapKey l packet FORWARD
  let c := l.FastPolicyMaps packet.FastIndex packet.Tap
  let c := (c.adjust kF newVlanAndPortMap true (vlanSeedForward endpointData packet policy)).2
  let l := updFastMaps l packet.FastIndex packet.Tap c
  let kB := getVlanAndPortMapKey l packet BACKWARD
  let c := l.FastPolicyMaps packet.FastIndex packet.Tap
  let c := (c.adjust kB newVlanAndPortMap true (vlanSeedBackward endpointData packet policy)).2
  updFastMaps l packet.FastIndex packet.Tap c

/-- The mutation applied by `addPortFastPolicy` (lines 580-601) to the
direction's `VlanAndPortMap`. -/
def portSeed (endpointData : EndpointData) (packet : LookupKey) (policy : PolicyData)
    (direction : DirectionType) (maps : VlanAndPortMap) : VlanAndPortMap × Unit :=
  let (srcEpc, maps) := addEpcMap maps endpointData.SrcInfo packet.SrcMac
  let (dstEpc, maps) := addEpcMap maps endpointData.DstInfo packet.DstMac
  let (srcEpc, dstEpc, port) :=
    if direction = BACKWARD then (dstEpc, srcEpc, packet.SrcPort)
    else (srcEpc, dstEpc, packet.DstPort)
  let key := fastPortKey srcEpc dstEpc packet.Proto port
  let forward := emptyPolicy.Merge policy.AclActions policy.ACLID
  let value : FastPathMapValue :=
    ⟨if direction = BACKWARD then ⟨endpointData.DstInfo, endpointData.SrcInfo⟩ else endpointData,
     forward, packet.Timestamp⟩
  ({ maps with portPolicyMap := maps.portPolicyMap.add key value }, ())

/-- `addPortFastPolicy` (lines 580-601). -/
def addPortFastPolicy (l : PolicyLabel) (endpointData : EndpointData) (packet : LookupKey)
    (policy : PolicyData) (direction : DirectionType) : PolicyLabel :=
  let k := getVlanAndPortMapKey l packet direction
  let c := l.FastPolicyMaps packet.FastIndex packet.Tap
  let c := (c.adjust k newVlanAndPortMap true (portSeed endpointData packet policy direction)).2
  updFastMaps l packet.FastIndex packet.Tap c

/-- `getFastPortPolicy` (lines 615-653): resolve both MACs, look the port
key up, evict stale entries, refresh the timestamp, merge the stored
policy with the direction tag.  Returns the endpoint (direction-swapped on
BACKWARD), the updated accumulator policy and the mutated maps. -/
def getFastPortPolicy (maps : VlanAndPortMap) (packet : LookupKey) (direction : DirectionType)
    (policy : PolicyData) : Option EndpointData × PolicyData × VlanAndPortMap :=
  match maps.macEpcMap.get packet.SrcMac with
  | (none, mac1) => (none, policy, { maps with macEpcMap := mac1 })
  | (some srcEpc, mac1) =>
    match mac1.get packet.DstMac with
    | (none, mac2) => (none, policy, { maps with macEpcMap := mac2 })
    | (some dstEpc, mac2) =>
      let maps := { maps with macEpcMap := mac2 }
      let (srcEpc, dstEpc, port) :=
        if direction = BACKWARD then (dstEpc, srcEpc, packet.SrcPort)
        else (srcEpc, dstEpc, packet.DstPort)
      let key := fastPortKey srcEpc dstEpc packet.Proto port
      match maps.portPolicyMap.get key with
      | (none, pp) => (none, policy, { maps with portPolicyMap := pp })
      | (some value, pp) =>
        if value.timestamp < packet.Timestamp ∧
            packet.Timestamp - value.timestamp > POLICY_TIMEOUT then
          (none, policy, { maps with portPolicyMap := pp.remove key })
        else
          let pp := pp.add key { value with timestamp := packet.Timestamp }
          let policy := policy.MergeDir value.policy.AclActions value.policy.ACLID direction
          let endpoint := if direction = BACKWARD then
              (⟨value.endpoint.DstInfo, value.endpoint.SrcInfo⟩ : EndpointData)
            else value.endpoint
          (some endpoint, policy, { maps with portPolicyMap := pp })

/-- `getFastVlanPolicy` (lines 655-692): as `getFastPortPolicy` but on the
vlan sub-LRU, merging without re-tagging (the stored policy already
carries its direction). -/
def getFastVlanPolicy (maps : VlanAndPortMap) (packet : LookupKey) (direction : DirectionType)
    (policy : PolicyData) : Option EndpointData × PolicyData × VlanAndPortMap :=
  match maps.macEpcMap.get packet.SrcMac with
  | (none, mac1) => (none, policy, { maps with macEpcMap := mac1 })
  | (some srcEpc, mac1) =>
    match mac1.get packet.DstMac with
    | (none, mac2) => (none, policy, { maps with macEpcMap := mac2 })
    | (some dstEpc, mac2) =>
      let maps := { maps with macEpcMap := mac2 }
      let (srcEpc, dstEpc) :=
        if direction = BACKWARD then (dstEpc, srcEpc) else (srcEpc, dstEpc)
      let key := fastVlanKey packet.Vlan srcEpc dstEpc
      match maps.vlanPolicyMap.get key with
      | (none, vp) => (none, policy, { maps with vlanPolicyMap := vp })
      | (some value, vp) =>
        if value.timestamp < packet.Timestamp ∧
            packet.Timestamp - value.timestamp > POLICY_TIMEOUT then
          (none, policy, { maps with vlanPolicyMap := vp.remove key })
        else
          let vp := vp.add key { value with timestamp := packet.Timestamp }
          let policy := policy.Merge value.policy.AclActions value.policy.ACLID
          let endpoint := if direction = BACKWARD then
              (⟨value.endpoint.DstInfo, value.endpoint.SrcInfo⟩ : EndpointData)
            else value.endpoint
          (some endpoint, policy, { maps with vlanPolicyMap := vp })

/-- The vlan-map search loop of `GetPolicyByFirstPath` (lines 491-497):
merge every hit (direction-preserving), record whether any key hit. -/
def vlanSearch (vlanGroup : Nat → Option PolicyData) (keys : List Nat) : PolicyData × Bool :=
  keys.foldl (fun (acc : PolicyData × Bool) key =>
    match vlanGroup key with
    | some policy => (acc.1.Merge policy.AclActions policy.ACLID, true)
    | none => acc) (emptyPolicy, false)

/-- A port-map search loop of `GetPolicyByFirstPath` (lines 503-509 and
518-525): merge every hit tagged with the direction, record whether any
key hit. -/
def portSearch (portGroup : Nat → Option PolicyData) (keys : List Nat)
    (d : DirectionType) : PolicyData × Bool :=
  keys.foldl (fun (acc : PolicyData × Bool) key =>
    match portGroup key with
    | some policy => (acc.1.MergeDir policy.AclActions policy.ACLID d, true)
    | none => acc) (emptyPolicy, false)

/-- `GetPolicyByFirstPath` (lines 477-539).  `Option.none` is the
`INVALID_POLICY_DATA` sentinel.  Returns the policy, the mutated lookup
key and the new state. -/
def GetPolicyByFirstPath (l : PolicyLabel) (endpointData : EndpointData)
    (packet : LookupKey) : Option PolicyData × LookupKey × PolicyLabel :=
  let packet := generateInterestKeys l endpointData packet
  let portGroup := l.GroupPortPolicyMaps packet.Tap
  let vlanGroup := l.GroupVlanPolicyMaps packet.Tap
  let vstep :=
    if packet.Vlan > 0 then
      let fp := vlanSearch vlanGroup
        (generateGroupVlanKeys packet.SrcGroupIds packet.DstGroupIds packet.Vlan)
      (fp.1, fp.2, addVlanFastPolicy l endpointData packet fp.1)
    else (emptyPolicy, false, l)
  let findPolicy := vstep.1
  let vlanFound := vstep.2.1
  let l := vstep.2.2
  let fwd := portSearch portGroup
    (generateSearchPortKeys packet.SrcGroupIds packet.DstGroupIds packet.DstPort packet.Proto)
    FORWARD
  let forward := fwd.1
  let portFound := fwd.2
  let findPolicy := if forward.AclActions.length > 0 then
      findPolicy.MergeDir forward.AclActions forward.ACLID FORWARD
    else findPolicy
  let l := addPortFastPolicy l endpointData packet forward FORWARD
  let bwd := portSearch portGroup
    (generateSearchPortKeys packet.DstGroupIds packet.SrcGroupIds packet.SrcPort packet.Proto)
    BACKWARD
  let backward := bwd.1
  let portFound := portFound || bwd.2
  let findPolicy := if backward.AclActions.length > 0 then
      findPolicy.MergeDir backward.AclActions backward.ACLID BACKWARD
    else findPolicy
  let l := addPortFastPolicy l endpointData packet backward BACKWARD
  let result := if !portFound && !vlanFound then none else some findPolicy
  let l := { l with FirstPathHit := l.FirstPathHit + 1,
                    FirstPathHitTick := l.FirstPathHitTick + 1 }
  (result, packet, l)

/-- The per-direction body of the `GetPolicyByFastPath` loop (lines
733-750), applied to the direction's `VlanAndPortMap` when it exists.
State: (policy, endpoint, portForwardFound, portBackwardFound, vlanFound). -/
def fastPathDirStep (packet : LookupKey) (d : DirectionType)
    (st : PolicyData × Option EndpointData × Bool × Bool × Bool)
    (maps : VlanAndPortMap) :
    VlanAndPortMap × (PolicyData × Option EndpointData × Bool × Bool × Bool) :=
  let (policy, endpoint, pff, pbf, vf) := st
  let vstep :=
    if packet.Vlan > 0 ∧ d = FORWARD then
      let r := getFastVlanPolicy maps packet d policy
      (r.2.1, r.1, r.1.isSome, r.2.2)
    else (policy, endpoint, vf, maps)
  let policy := vstep.1
  let vf := vstep.2.2.1
  let maps := vstep.2.2.2
  let r := getFastPortPolicy maps packet d policy
  let endpoint := r.1
  let pff := if r.1.isSome ∧ d = FORWARD then true else pff
  let pbf := if r.1.isSome ∧ d = BACKWARD then true else pbf
  (r.2.2, (r.2.1, endpoint, pff, pbf, vf))

/-- One iteration of the direction loop of `GetPolicyByFastPath` (lines
730-751): look the direction's `VlanAndPortMap` up (without creating one)
and run `fastPathDirStep` on it in place. -/
def fastPathStep (packet : LookupKey)
    (acc : (PolicyData × Option EndpointData × Bool × Bool × Bool) × PolicyLabel)
    (d : DirectionType) :
    (PolicyData × Option EndpointData × Bool × Bool × Bool) × PolicyLabel :=
  let st := acc.1
  let l := acc.2
  let key := getVlanAndPortMapKey l packet d
  let c := l.FastPolicyMaps packet.FastIndex packet.Tap
  let rc := c.adjust key newVlanAndPortMap false (fun maps => fastPathDirStep packet d st maps)
  let l := updFastMaps l packet.FastIndex packet.Tap rc.2
  match rc.1 with
  | some st' => (st', l)
  | none => (st, l)

/-- `GetPolicyByFastPath` (lines 720-762).  The pair
`(Option.none, Option.none)` is the `(nil, INVALID_POLICY_DATA)` return;
returns the mutated lookup key and the new state as well. -/
def GetPolicyByFastPath (l : PolicyLabel) (packet : LookupKey) :
    (Option EndpointData × Option PolicyData) × LookupKey × PolicyLabel :=
  if l.FastPathDisable then ((none, none), packet, l)
  else
    let packet := getFastInterestKeys l packet
    let st0 : PolicyData × Option EndpointData × Bool × Bool × Bool :=
      (emptyPolicy, none, false, false, true)
    let stl := [FORWARD, BACKWARD].foldl (fastPathStep packet) (st0, l)
    let (policy, endpoint, pff, pbf, vf) := stl.1
    let l := stl.2
    let found := pff && pbf && vf
    if found then
      let l := { l with FastPathHit := l.FastPathHit + 1,
                        FastPathHitTick := l.FastPathHitTick + 1,
                        AclHitMax := if l.AclHitMax < policy.AclActions.length then
                            policy.AclActions.length
                          else l.AclHitMax }
      ((endpoint, some policy), packet, l)
    else ((none, none), packet, l)


/-! ## Auxiliary definitions used by the verification -/

/-- The port key the fast-path lookup uses for a direction. -/
def fastPortLookupKey (packet : LookupKey) (direction : DirectionType)
    (srcEpc dstEpc : Nat) : Nat :=
  if direction = BACKWARD then fastPortKey dstEpc srcEpc packet.Proto packet.SrcPort
  else fastPortKey srcEpc dstEpc packet.Proto packet.DstPort

/-- The vlan key the fast-path lookup uses for a direction. -/
def fastVlanLookupKey (packet : LookupKey) (direction : DirectionType)
    (srcEpc dstEpc : Nat) : Nat :=
  if direction = BACKWARD then fastVlanKey packet.Vlan dstEpc srcEpc
  else fastVlanKey packet.Vlan srcEpc dstEpc

/-- A concrete `VlanAndPortMap` used by the C4 witness: both MACs known,
one stale port entry and one stale vlan entry at timestamp 0. -/
def c4WitnessMaps : VlanAndPortMap :=
  { macEpcMap := ⟨128, [(0xa1, 3), (0xb2, 4)]⟩
    vlanPolicyMap := ⟨1024, [(fastVlanKey 0 3 4, ⟨⟨⟨3, 0, []⟩, ⟨4, 0, []⟩⟩, emptyPolicy, 0⟩)]⟩
    portPolicyMap := ⟨1024, [(fastPortKey 3 4 6 80, ⟨⟨⟨3, 0, []⟩, ⟨4, 0, []⟩⟩, emptyPolicy, 0⟩)]⟩ }

/-- The C4 witness packet: 120 s, so the entries at 0 are stale. -/
def c4WitnessPacket : LookupKey :=
  { Timestamp := 120000000000
    SrcMac := 0xa1
    DstMac := 0xb2
    SrcIp := 0
    DstIp := 0
    SrcPort := 0
    DstPort := 80
    Vlan := 0
    Proto := 6
    Tap := 1
    SrcGroupIds := []
    DstGroupIds := []
    FastIndex := 0 }

/-- The EPC preference order exactly as claim C5 words it: `l2_epc_id` if
positive, else `l3_epc_id` if positive, else `0xFFFFFFFF` if
`l3_epc_id = -1`, else 0. -/
def claimedEpcId (e : EndpointInfo) : Nat :=
  if e.L2EpcId > 0 then e.L2EpcId.toNat
  else if e.L3EpcId > 0 then e.L3EpcId.toNat
  else if e.L3EpcId = -1 then 0xffffffff
  else 0

/-- A state whose (0, 1) fast-path cache holds one entry. -/
def c2State : PolicyLabel :=
  { NewPolicyLabel 1 4 false with
    FastPolicyMaps := fun _ _ => ⟨4, [(0, newVlanAndPortMap)]⟩ }

/-- The invariant of the `ip_netmask` table: distinct keys and every
stored value a mask in `[0xFFFF0000, 2^32)`. -/
def InvIpMap (m : IpMap) : Prop :=
  (m.map Prod.fst).Nodup ∧ ∀ kv ∈ m, 0xffff0000 ≤ kv.2 ∧ kv.2 < 2 ^ 32

/-- The seed pass of `GenerateIpNetmaskMap` over a flat list of prefixes. -/
def seedPass (mm : IpMap) (l : List IpNet) : IpMap :=
  l.foldl (fun mm network => seedAt mm network.Ip (maskOfNetmask network.Netmask)) mm

/-- The refine pass of `GenerateIpNetmaskMap` over a flat list of prefixes. -/
def refinePass (mm : IpMap) (l : List IpNet) : IpMap :=
  l.foldl (fun mm network => refineAt mm network.Ip) mm

/-- The `ip_netmask` tables reachable from the fresh empty table by the
two learner entry points. -/
inductive ReachableIpMap : IpMap → Prop where
  | empty : ReachableIpMap []
  | stepPlatform (m : IpMap) (platforms : List PlatformData) :
      ReachableIpMap m → ReachableIpMap (genIpNetmaskMap m platforms)
  | stepIpRes (m : IpMap) (datas : List IpGroupData) :
      ReachableIpMap m → ReachableIpMap (genIpNetmaskMapFromIpResource m datas)

/-- The MAC→EPC sub-LRU of a `VlanAndPortMap` can hold at least two
entries (the real code always allocates capacity 128). -/
def GoodMap (v : VlanAndPortMap) : Prop :=
  v.macEpcMap.MaxEntries = 0 ∨ 2 ≤ v.macEpcMap.MaxEntries

/-- All stored `VlanAndPortMap`s of a fast-path cache are good. -/
def GoodCache (c : Lru VlanAndPortMap) : Prop := ∀ kv ∈ c.entries, GoodMap kv.2

/-- A one-rule policy used by the concrete C1/C3 scenarios. -/
def c1Pol : PolicyData := ⟨7, [⟨5, FORWARD⟩]⟩

/-- A state whose port ACL tables match every key, fast path DISABLED. -/
def c1L : PolicyLabel :=
  { NewPolicyLabel 1 1024 true with GroupPortPolicyMaps := fun _ _ => some c1Pol }

/-- The same state with the fast path enabled. -/
def c1Lw : PolicyLabel :=
  { NewPolicyLabel 1 1024 false with GroupPortPolicyMaps := fun _ _ => some c1Pol }

def c1E : EndpointData := ⟨⟨0, 0, []⟩, ⟨0, 0, []⟩⟩

def c1P : LookupKey := ⟨1000, 1, 2, 0x01020304, 0x05060708, 10, 20, 0, 6, 1, [], [], 0⟩

end DeepflowPolicy

namespace DeepflowPolicy

lemma testBit_highMask (i : Nat) :
    (0xffffff0000000000 : Nat).testBit i = (decide (40 ≤ i) && decide (i < 64)) := by
  have h : (0xffffff0000000000 : Nat) = (2 ^ 24 - 1) <<< 40 := rfl
  rw [h, Nat.testBit_shiftLeft, Nat.testBit_two_pow_sub_one]
  by_cases h40 : 40 ≤ i
  · by_cases h64 : i < 64 <;> simp [h40, h64] <;> omega
  · simp [show ¬(i ≥ 40) from h40]

lemma or_low_and_highMask (base x : Nat) (hb : base &&& 0xffffff0000000000 = base)
    (hx : x < 2 ^ 40) : (base ||| x) &&& 0xffffff0000000000 = base := by
  apply Nat.eq_of_testBit_eq
  intro i
  have hbit : (base &&& 0xffffff0000000000).testBit i = base.testBit i := by rw [hb]
  rw [Nat.testBit_land] at hbit
  rw [Nat.testBit_land, Nat.testBit_lor]
  by_cases h40 : 40 ≤ i
  · have hxb : x.testBit i = false :=
      Nat.testBit_lt_two_pow (lt_of_lt_of_le hx (Nat.pow_le_pow_right (by norm_num) h40))
    rw [hxb, Bool.or_false, hbit]
  · rw [testBit_highMask] at hbit ⊢
    simp [h40] at hbit ⊢
    exact hbit

lemma base_and_highMask (port proto : Nat) (hp : port < 2 ^ 16) (hq : proto < 2 ^ 8) :
    (port <<< 40 ||| proto <<< 56) &&& 0xffffff0000000000 = port <<< 40 ||| proto <<< 56 := by
  apply Nat.eq_of_testBit_eq
  intro i
  rw [Nat.testBit_land, Nat.testBit_lor, testBit_highMask, Nat.testBit_shiftLeft,
    Nat.testBit_shiftLeft]
  by_cases h40 : 40 ≤ i
  · by_cases h64 : i < 64
    · simp [h40, h64]
    · have h1 : port.testBit (i - 40) = false :=
        Nat.testBit_lt_two_pow (lt_of_lt_of_le hp (Nat.pow_le_pow_right (by norm_num) (by omega)))
      have h2 : proto.testBit (i - 56) = false :=
        Nat.testBit_lt_two_pow (lt_of_lt_of_le hq (Nat.pow_le_pow_right (by norm_num) (by omega)))
      simp [h1, h2, h64]
  · simp [h40, show ¬(i ≥ 40) from h40, show ¬(i ≥ 56) by omega]

lemma vlanBase_and_highMask (vlan : Nat) (hv : vlan < 2 ^ 16) :
    (vlan <<< 48) &&& 0xffffff0000000000 = vlan <<< 48 := by
  apply Nat.eq_of_testBit_eq
  intro i
  rw [Nat.testBit_land, testBit_highMask, Nat.testBit_shiftLeft]
  by_cases h48 : 48 ≤ i
  · by_cases h64 : i < 64
    · simp [h48, h64, show 40 ≤ i by omega]
    · have h1 : vlan.testBit (i - 48) = false :=
        Nat.testBit_lt_two_pow (lt_of_lt_of_le hv (Nat.pow_le_pow_right (by norm_num) (by omega)))
      simp [h1, h64]
  · simp [show ¬(i ≥ 48) from h48]

lemma groupPair_lt (srcId d : Nat) (hs : srcId ≤ 0xfffff) :
    srcId <<< 20 ||| (d &&& 0xfffff) < 2 ^ 40 := by
  apply Nat.or_lt_two_pow
  · rw [Nat.shiftLeft_eq]
    calc srcId * 2 ^ 20 ≤ 0xfffff * 2 ^ 20 := Nat.mul_le_mul_right _ hs
      _ < 2 ^ 40 := by norm_num
  · have : d &&& 0xfffff ≤ 0xfffff := Nat.and_le_right
    omega

lemma inner_fold_eq (dstGroups : List Nat) (srcId : Nat) (hs : srcId ≤ 0xfffff)
    (acc : List Nat) (base : Nat) (hb : base &&& 0xffffff0000000000 = base) :
    dstGroups.foldl (fun (acc : List Nat × Nat) dst =>
        (acc.1 ++ [acc.2 ||| (srcId <<< 20 ||| (dst &&& 0xfffff))],
         (acc.2 ||| (srcId <<< 20 ||| (dst &&& 0xfffff))) &&& 0xffffff0000000000)) (acc, base)
      = (acc ++ dstGroups.map (fun d => base ||| (srcId <<< 20 ||| (d &&& 0xfffff))), base) := by
  induction dstGroups generalizing acc with
  | nil => simp
  | cons d rest ih =>
    have hmask : (base ||| (srcId <<< 20 ||| (d &&& 0xfffff))) &&& 0xffffff0000000000 = base :=
      or_low_and_highMask base _ hb (groupPair_lt srcId d hs)
    simp only [List.foldl_cons, hmask]
    rw [ih]
    simp

lemma outer_fold_eq (srcGroups dstGroups : List Nat) (acc : List Nat) (base : Nat)
    (hb : base &&& 0xffffff0000000000 = base) :
    srcGroups.foldl (fun (acc : List Nat × Nat) src =>
        dstGroups.foldl (fun (acc : List Nat × Nat) dst =>
            (acc.1 ++ [acc.2 ||| ((src &&& 0xfffff) <<< 20 ||| (dst &&& 0xfffff))],
             (acc.2 ||| ((src &&& 0xfffff) <<< 20 ||| (dst &&& 0xfffff))) &&& 0xffffff0000000000))
          acc) (acc, base)
      = (acc ++ srcGroups.flatMap (fun s =>
          dstGroups.map (fun d => base ||| ((s &&& 0xfffff) <<< 20 ||| (d &&& 0xfffff)))), base) := by
  induction srcGroups generalizing acc with
  | nil => simp
  | cons s rest ih =>
    simp only [List.foldl_cons]
    rw [inner_fold_eq dstGroups (s &&& 0xfffff) Nat.and_le_right acc base hb, ih]
    simp

lemma generateGroupPortKeys_eq (src dst : List Nat) (port proto : Nat)
    (hp : port < 2 ^ 16) (hq : proto < 2 ^ 8) :
    generateGroupPortKeys src dst port proto
      = (if src = [] then [ANY_GROUP] else src).flatMap (fun s =>
          (if dst = [] then [ANY_GROUP] else dst).map (fun d =>
            (port <<< 40 ||| proto <<< 56) ||| ((s &&& 0xfffff) <<< 20 ||| (d &&& 0xfffff)))) := by
  show ((if src = [] then [ANY_GROUP] else src).foldl (fun (acc : List Nat × Nat) s =>
      (if dst = [] then [ANY_GROUP] else dst).foldl (fun (acc : List Nat × Nat) d =>
          (acc.1 ++ [acc.2 ||| ((s &&& 0xfffff) <<< 20 ||| (d &&& 0xfffff))],
           (acc.2 ||| ((s &&& 0xfffff) <<< 20 ||| (d &&& 0xfffff))) &&& 0xffffff0000000000))
        acc) ([], port <<< 40 ||| proto <<< 56)).1 = _
  rw [outer_fold_eq _ _ _ _ (base_and_highMask port proto hp hq)]
  simp

lemma generateGroupVlanKeys_eq (src dst : List Nat) (vlan : Nat) (hv : vlan < 2 ^ 16) :
    generateGroupVlanKeys src dst vlan
      = (if src = [] then [ANY_GROUP] else src).flatMap (fun s =>
          (if dst = [] then [ANY_GROUP] else dst).map (fun d =>
            vlan <<< 48 ||| ((s &&& 0xfffff) <<< 20 ||| (d &&& 0xfffff)))) := by
  show ((if src = [] then [ANY_GROUP] else src).foldl (fun (acc : List Nat × Nat) s =>
      (if dst = [] then [ANY_GROUP] else dst).foldl (fun (acc : List Nat × Nat) d =>
          (acc.1 ++ [acc.2 ||| ((s &&& 0xfffff) <<< 20 ||| (d &&& 0xfffff))],
           (acc.2 ||| ((s &&& 0xfffff) <<< 20 ||| (d &&& 0xfffff))) &&& 0xffffff0000000000))
        acc) ([], vlan <<< 48)).1 = _
  rw [outer_fold_eq _ _ _ _ (vlanBase_and_highMask vlan hv)]
  simp


/-- Claim C8: for every src/dst group list, port and proto, the search key
list contains the fully wildcarded `(proto=0, port=0)` key for every
(wildcard-substituted) group pair; and the list is exactly the base keys
plus the wildcarded variants `(port=0, proto)`, `(0,0)`, `(port,0)`, each
variant omitted when its field is already zero. -/
theorem c8_generateSearchPortKeys_wildcards (src dst : List Nat) (port proto : Nat)
    (hp : port < 2 ^ 16) (hq : proto < 2 ^ 8) :
    (∀ s ∈ (if src = [] then [ANY_GROUP] else src),
     ∀ d ∈ (if dst = [] then [ANY_GROUP] else dst),
        ((ANY_PORT <<< 40 ||| ANY_PROTO <<< 56) ||| ((s &&& 0xfffff) <<< 20 ||| (d &&& 0xfffff)))
          ∈ generateSearchPortKeys src dst port proto)
    ∧ (port ≠ 0 → proto ≠ 0 → generateSearchPortKeys src dst port proto =
        generateGroupPortKeys src dst port proto
          ++ generateGroupPortKeys src dst ANY_PORT proto
          ++ generateGroupPortKeys src dst ANY_PORT ANY_PROTO
          ++ generateGroupPortKeys src dst port ANY_PROTO)
    ∧ (port = 0 → proto ≠ 0 → generateSearchPortKeys src dst port proto =
        generateGroupPortKeys src dst ANY_PORT proto
          ++ generateGroupPortKeys src dst ANY_PORT ANY_PROTO)
    ∧ (port ≠ 0 → proto = 0 → generateSearchPortKeys src dst port proto =
        generateGroupPortKeys src dst port ANY_PROTO
          ++ generateGroupPortKeys src dst ANY_PORT ANY_PROTO)
    ∧ (port = 0 → proto = 0 → generateSearchPortKeys src dst port proto =
        generateGroupPortKeys src dst ANY_PORT ANY_PROTO) := by
  refine ⟨?_, ?_, ?_, ?_, ?_⟩
  · intro s hs d hd
    have hmem : ((ANY_PORT <<< 40 ||| ANY_PROTO <<< 56)
          ||| ((s &&& 0xfffff) <<< 20 ||| (d &&& 0xfffff)))
        ∈ generateGroupPortKeys src dst ANY_PORT ANY_PROTO := by
      rw [generateGroupPortKeys_eq src dst ANY_PORT ANY_PROTO (by decide) (by decide)]
      exact List.mem_flatMap.mpr ⟨s, hs, List.mem_map.mpr ⟨d, hd, rfl⟩⟩
    unfold generateSearchPortKeys
    by_cases hp0 : port = 0 <;> by_cases hq0 : proto = 0 <;>
      simp only [hp0, hq0, ANY_PORT, ANY_PROTO, if_pos, if_neg, ne_eq,
        not_true_eq_false, not_false_eq_true, if_true, if_false, ite_true, ite_false,
        List.mem_append] <;> simp_all [ANY_PORT, ANY_PROTO]
  · intro hp0 hq0
    unfold generateSearchPortKeys
    simp [hp0, hq0]
  · intro hp0 hq0
    unfold generateSearchPortKeys
    simp [hp0, hq0, ANY_PORT]
  · intro hp0 hq0
    unfold generateSearchPortKeys
    simp [hp0, hq0, ANY_PROTO]
  · intro hp0 hq0
    unfold generateSearchPortKeys
    simp [hp0, hq0, ANY_PORT, ANY_PROTO]

/-- Witness for C8 at a concrete input. -/
theorem c8_generateSearchPortKeys_wildcards_witness :
    (80 : Nat) < 2 ^ 16 ∧ (6 : Nat) < 2 ^ 8 ∧
    ((ANY_PORT <<< 40 ||| ANY_PROTO <<< 56) ||| ((10 &&& 0xfffff) <<< 20 ||| (20 &&& 0xfffff)))
      ∈ generateSearchPortKeys [10] [20] 80 6 := by
  refine ⟨by norm_num, by norm_num, ?_⟩
  have h := (c8_generateSearchPortKeys_wildcards [10] [20] 80 6 (by norm_num) (by norm_num)).1
  exact h 10 (by decide) 20 (by decide)

/-- Claim C10: `GenerateGroupVlanMaps` truncates `acl.Vlan` to its low 16
bits when building vlan keys (`uint16(acl.Vlan)`, i.e. `% 65536`): two
ACLs with congruent vlans and the same groups produce identical forward
and backward key lists, and a vlan that is a multiple of 2^16 produces
keys whose vlan bit-field (bits 48-63) is zero. -/
theorem c10_vlan_key_truncation (acl1 acl2 : Acl)
    (hv : acl1.Vlan % 65536 = acl2.Vlan % 65536)
    (hsrc : acl1.SrcGroups = acl2.SrcGroups) (hdst : acl1.DstGroups = acl2.DstGroups) :
    (generateGroupVlanKeys (mapToSlice acl1.SrcGroups) (mapToSlice acl1.DstGroups)
        (acl1.Vlan % 65536)
      = generateGroupVlanKeys (mapToSlice acl2.SrcGroups) (mapToSlice acl2.DstGroups)
        (acl2.Vlan % 65536)
    ∧ generateGroupVlanKeys (mapToSlice acl1.DstGroups) (mapToSlice acl1.SrcGroups)
        (acl1.Vlan % 65536)
      = generateGroupVlanKeys (mapToSlice acl2.DstGroups) (mapToSlice acl2.SrcGroups)
        (acl2.Vlan % 65536))
    ∧ (acl1.Vlan % 65536 = 0 →
       ∀ k ∈ generateGroupVlanKeys (mapToSlice acl1.SrcGroups) (mapToSlice acl1.DstGroups)
              (acl1.Vlan % 65536)
            ++ generateGroupVlanKeys (mapToSlice acl1.DstGroups) (mapToSlice acl1.SrcGroups)
              (acl1.Vlan % 65536),
         k >>> 48 = 0) := by
  constructor
  · rw [hv, hsrc, hdst]
    exact ⟨rfl, rfl⟩
  · intro hv0 k hk
    rw [hv0] at hk
    rw [generateGroupVlanKeys_eq _ _ 0 (by norm_num),
        generateGroupVlanKeys_eq _ _ 0 (by norm_num)] at hk
    rcases List.mem_append.mp hk with h | h <;>
    · obtain ⟨s, hs, hmap⟩ := List.mem_flatMap.mp h
      obtain ⟨d, hd, hkey⟩ := List.mem_map.mp hmap
      subst hkey
      have hlt : (s &&& 0xfffff) <<< 20 ||| (d &&& 0xfffff) < 2 ^ 40 :=
        groupPair_lt _ _ Nat.and_le_right
      rw [Nat.zero_shiftLeft, Nat.zero_or, Nat.shiftRight_eq_div_pow]
      exact Nat.div_eq_of_lt (lt_of_lt_of_le hlt (by norm_num))

/-- Witness for C10 at concrete inputs. -/
theorem c10_vlan_key_truncation_witness :
    ((⟨1, 1, 0, [(1, 1)], [(2, 2)], [], 0, 100, []⟩ : Acl).Vlan % 65536
        = (⟨2, 1, 0, [(1, 1)], [(2, 2)], [], 0, 65636, []⟩ : Acl).Vlan % 65536)
    ∧ (generateGroupVlanKeys
        (mapToSlice (⟨1, 1, 0, [(1, 1)], [(2, 2)], [], 0, 100, []⟩ : Acl).SrcGroups)
        (mapToSlice (⟨1, 1, 0, [(1, 1)], [(2, 2)], [], 0, 100, []⟩ : Acl).DstGroups)
        ((⟨1, 1, 0, [(1, 1)], [(2, 2)], [], 0, 100, []⟩ : Acl).Vlan % 65536)
      = generateGroupVlanKeys
        (mapToSlice (⟨2, 1, 0, [(1, 1)], [(2, 2)], [], 0, 65636, []⟩ : Acl).SrcGroups)
        (mapToSlice (⟨2, 1, 0, [(1, 1)], [(2, 2)], [], 0, 65636, []⟩ : Acl).DstGroups)
        ((⟨2, 1, 0, [(1, 1)], [(2, 2)], [], 0, 65636, []⟩ : Acl).Vlan % 65536)) := by
  refine ⟨by norm_num, ?_⟩
  exact ((c10_vlan_key_truncation _ _ (by norm_num) rfl rfl).1).1


/-! ## Association-list and LRU lemmas -/

lemma find?_eq_none_of_not_mem_keys {α : Type} (l : List (Nat × α)) (k : Nat)
    (h : k ∉ l.map Prod.fst) : l.find? (fun q => q.1 == k) = none := by
  induction l with
  | nil => rfl
  | cons p t ih =>
    simp only [List.map_cons, List.mem_cons] at h
    push_neg at h
    rw [List.find?_cons_of_neg _ (by simp [Ne.symm h.1])]
    exact ih h.2

lemma find?_eraseP_key_ne {α : Type} (l : List (Nat × α)) (k k' : Nat) (h : k' ≠ k) :
    (l.eraseP (fun q => q.1 == k)).find? (fun q => q.1 == k') =
      l.find? (fun q => q.1 == k') := by
  induction l with
  | nil => rfl
  | cons p t ih =>
    by_cases hp : p.1 = k
    · rw [List.eraseP_cons_of_pos (by simp [hp]), List.find?_cons_of_neg _ (by simp [hp, Ne.symm h])]
    · rw [List.eraseP_cons_of_neg (by simp [hp])]
      by_cases hp' : p.1 = k'
      · rw [List.find?_cons_of_pos _ (by simp [hp']), List.find?_cons_of_pos _ (by simp [hp'])]
      · rw [List.find?_cons_of_neg _ (by simp [hp']), List.find?_cons_of_neg _ (by simp [hp'])]
        exact ih

lemma find?_eraseP_self_of_nodup {α : Type} (l : List (Nat × α)) (k : Nat)
    (h : (l.map Prod.fst).Nodup) :
    (l.eraseP (fun q => q.1 == k)).find? (fun q => q.1 == k) = none := by
  induction l with
  | nil => rfl
  | cons p t ih =>
    simp only [List.map_cons, List.nodup_cons] at h
    by_cases hp : p.1 = k
    · rw [List.eraseP_cons_of_pos (by simp [hp])]
      exact find?_eq_none_of_not_mem_keys t k (hp ▸ h.1)
    · rw [List.eraseP_cons_of_neg (by simp [hp]), List.find?_cons_of_neg _ (by simp [hp])]
      exact ih h.2

namespace Lru

variable {α β : Type}

lemma entries_add_head (c : Lru α) (k : Nat) (v : α) :
    ∃ rest, (c.add k v).entries = (k, v) :: rest := by
  unfold add
  split
  · exact ⟨_, rfl⟩
  · show ∃ rest, (if _ ∧ _ then ((k, v) :: c.entries).dropLast else (k, v) :: c.entries)
        = (k, v) :: rest
    split
    · rename_i hev
      cases hce : c.entries with
      | nil =>
        rw [hce] at hev
        simp at hev
      | cons p t => exact ⟨(p :: t).dropLast, rfl⟩
    · exact ⟨c.entries, rfl⟩

lemma find?_add_self (c : Lru α) (k : Nat) (v : α) : (c.add k v).find? k = some v := by
  obtain ⟨rest, hr⟩ := entries_add_head c k v
  unfold find?
  rw [hr, List.find?_cons_of_pos _ (by simp)]
  rfl

lemma entries_add_head_two (c : Lru α) (k1 k2 : Nat) (v1 : α) (v2 : α) (t : List (Nat × α))
    (hc : c.entries = (k1, v1) :: t) (hne : k1 ≠ k2)
    (hmax : c.MaxEntries = 0 ∨ 2 ≤ c.MaxEntries) :
    ∃ rest, (c.add k2 v2).entries = (k2, v2) :: (k1, v1) :: rest := by
  unfold add
  rw [hc, List.find?_cons_of_neg _ (by simp [hne])]
  split
  · refine ⟨t.eraseP (fun q => q.1 == k2), ?_⟩
    show (k2, v2) :: ((k1, v1) :: t).eraseP (fun q => q.1 == k2) = _
    rw [List.eraseP_cons_of_neg (by simp [hne])]
  · show ∃ rest, (if _ ∧ _ then ((k2, v2) :: (k1, v1) :: t).dropLast
        else (k2, v2) :: (k1, v1) :: t) = (k2, v2) :: (k1, v1) :: rest
    split
    · rename_i hev
      cases t with
      | nil =>
        rcases hev with ⟨h1, h2⟩
        simp only [List.length_cons, List.length_nil] at h2
        omega
      | cons p t' => exact ⟨(p :: t').dropLast, rfl⟩
    · exact ⟨t, rfl⟩

lemma find?_of_entries_head_two (c : Lru α) (k1 k2 : Nat) (v1 v2 : α) (rest : List (Nat × α))
    (hc : c.entries = (k2, v2) :: (k1, v1) :: rest) (hne : k1 ≠ k2) :
    c.find? k1 = some v1 ∧ c.find? k2 = some v2 := by
  constructor
  · unfold find?
    rw [hc, List.find?_cons_of_neg _ (by simp [Ne.symm hne]), List.find?_cons_of_pos _ (by simp)]
    rfl
  · unfold find?
    rw [hc, List.find?_cons_of_pos _ (by simp)]
    rfl

lemma adjust_eq_of_find? (c : Lru α) (k : Nat) (fresh : α) (cr : Bool) (f : α → α × β) (v : α)
    (h : c.find? k = some v) :
    c.adjust k fresh cr f =
      (some (f v).2,
       { c with entries := (k, (f v).1) :: c.entries.eraseP (fun q => q.1 == k) }) := by
  unfold find? at h
  cases hfind : c.entries.find? (fun p => p.1 == k) with
  | none => rw [hfind] at h; simp at h
  | some p =>
    rw [hfind] at h
    obtain rfl : p.2 = v := by simpa using h
    unfold adjust
    rw [hfind]

lemma adjust_miss_create (c : Lru α) (k : Nat) (fresh : α) (f : α → α × β)
    (h : c.find? k = none) :
    c.adjust k fresh true f = (some (f fresh).2, c.add k (f fresh).1) := by
  unfold find? at h
  cases hfind : c.entries.find? (fun p => p.1 == k) with
  | none => unfold adjust; rw [hfind]; rfl
  | some p => rw [hfind] at h; simp at h

lemma adjust_miss_nocreate (c : Lru α) (k : Nat) (fresh : α) (f : α → α × β)
    (h : c.find? k = none) :
    c.adjust k fresh false f = (none, c) := by
  unfold find? at h
  cases hfind : c.entries.find? (fun p => p.1 == k) with
  | none => unfold adjust; rw [hfind]; rfl
  | some p => rw [hfind] at h; simp at h

lemma find?_ne_of_erase_cons (c c' : Lru α) (k k' : Nat) (v : α)
    (hc' : c'.entries = (k, v) :: c.entries.eraseP (fun q => q.1 == k)) (h : k' ≠ k) :
    c'.find? k' = c.find? k' := by
  unfold find?
  rw [hc', List.find?_cons_of_neg _ (by simp; exact Ne.symm h), find?_eraseP_key_ne _ _ _ h]

lemma get_eq_of_find? (c : Lru α) (k : Nat) (v : α) (h : c.find? k = some v) :
    c.get k = (some v, { c with entries := (k, v) :: c.entries.eraseP (fun q => q.1 == k) }) := by
  unfold find? at h
  cases hfind : c.entries.find? (fun p => p.1 == k) with
  | none => rw [hfind] at h; simp at h
  | some p =>
    rw [hfind] at h
    have hp1 : p.1 = k := by
      have := List.find?_some hfind
      simpa using this
    obtain rfl : p.2 = v := by simpa using h
    unfold get
    rw [hfind]
    have hpk : p = (k, p.2) := by
      cases p
      simp at hp1
      simp [hp1]
    rw [hpk]

lemma get_miss (c : Lru α) (k : Nat) (h : c.find? k = none) : c.get k = (none, c) := by
  unfold find? at h
  cases hfind : c.entries.find? (fun p => p.1 == k) with
  | none => unfold get; rw [hfind]
  | some p => rw [hfind] at h; simp at h

lemma find?_add_ne_of_head (c : Lru α) (k1 k2 : Nat) (v1 : α) (v2 : α) (t : List (Nat × α))
    (hc : c.entries = (k1, v1) :: t) (hne : k1 ≠ k2)
    (hmax : c.MaxEntries = 0 ∨ 2 ≤ c.MaxEntries) :
    (c.add k2 v2).find? k1 = some v1 := by
  obtain ⟨rest, hr⟩ := entries_add_head_two c k1 k2 v1 v2 t hc hne hmax
  exact (find?_of_entries_head_two _ k1 k2 v1 v2 rest hr hne).1

lemma find?_remove_self_of_nodup (c : Lru α) (k : Nat)
    (h : (c.entries.map Prod.fst).Nodup) : (c.remove k).find? k = none := by
  unfold remove find?
  rw [find?_eraseP_self_of_nodup _ _ h]
  rfl

end Lru


/-! ## Characterizations of the fast-path sub-lookups -/



lemma getFastPortPolicy_stale (maps : VlanAndPortMap) (packet : LookupKey)
    (direction : DirectionType) (policy : PolicyData) (srcEpc dstEpc : Nat) (m1 m2 : Lru Nat)
    (value : FastPathMapValue) (pp : Lru FastPathMapValue)
    (hsrc : maps.macEpcMap.get packet.SrcMac = (some srcEpc, m1))
    (hdst : m1.get packet.DstMac = (some dstEpc, m2))
    (hkey : maps.portPolicyMap.get (fastPortLookupKey packet direction srcEpc dstEpc)
      = (some value, pp))
    (hstale : value.timestamp < packet.Timestamp ∧
      packet.Timestamp - value.timestamp > POLICY_TIMEOUT) :
    getFastPortPolicy maps packet direction policy =
      (none, policy,
       { maps with
         macEpcMap := m2
         portPolicyMap := pp.remove (fastPortLookupKey packet direction srcEpc dstEpc) }) := by
  cases direction <;>
    simp_all [getFastPortPolicy, fastPortLookupKey]

lemma getFastPortPolicy_hit (maps : VlanAndPortMap) (packet : LookupKey)
    (direction : DirectionType) (policy : PolicyData) (srcEpc dstEpc : Nat) (m1 m2 : Lru Nat)
    (value : FastPathMapValue) (pp : Lru FastPathMapValue)
    (hsrc : maps.macEpcMap.get packet.SrcMac = (some srcEpc, m1))
    (hdst : m1.get packet.DstMac = (some dstEpc, m2))
    (hkey : maps.portPolicyMap.get (fastPortLookupKey packet direction srcEpc dstEpc)
      = (some value, pp))
    (hfresh : ¬(value.timestamp < packet.Timestamp ∧
      packet.Timestamp - value.timestamp > POLICY_TIMEOUT)) :
    getFastPortPolicy maps packet direction policy =
      (some (if direction = BACKWARD then
          (⟨value.endpoint.DstInfo, value.endpoint.SrcInfo⟩ : EndpointData)
        else value.endpoint),
       policy.MergeDir value.policy.AclActions value.policy.ACLID direction,
       { maps with
         macEpcMap := m2
         portPolicyMap := pp.add (fastPortLookupKey packet direction srcEpc dstEpc)
           { value with timestamp := packet.Timestamp } }) := by
  cases direction <;>
    simp_all [getFastPortPolicy, fastPortLookupKey]

lemma getFastVlanPolicy_stale (maps : VlanAndPortMap) (packet : LookupKey)
    (direction : DirectionType) (policy : PolicyData) (srcEpc dstEpc : Nat) (m1 m2 : Lru Nat)
    (value : FastPathMapValue) (vp : Lru FastPathMapValue)
    (hsrc : maps.macEpcMap.get packet.SrcMac = (some srcEpc, m1))
    (hdst : m1.get packet.DstMac = (some dstEpc, m2))
    (hkey : maps.vlanPolicyMap.get (fastVlanLookupKey packet direction srcEpc dstEpc)
      = (some value, vp))
    (hstale : value.timestamp < packet.Timestamp ∧
      packet.Timestamp - value.timestamp > POLICY_TIMEOUT) :
    getFastVlanPolicy maps packet direction policy =
      (none, policy,
       { maps with
         macEpcMap := m2
         vlanPolicyMap := vp.remove (fastVlanLookupKey packet direction srcEpc dstEpc) }) := by
  cases direction <;>
    simp_all [getFastVlanPolicy, fastVlanLookupKey]

lemma getFastVlanPolicy_hit (maps : VlanAndPortMap) (packet : LookupKey)
    (direction : DirectionType) (policy : PolicyData) (srcEpc dstEpc : Nat) (m1 m2 : Lru Nat)
    (value : FastPathMapValue) (vp : Lru FastPathMapValue)
    (hsrc : maps.macEpcMap.get packet.SrcMac = (some srcEpc, m1))
    (hdst : m1.get packet.DstMac = (some dstEpc, m2))
    (hkey : maps.vlanPolicyMap.get (fastVlanLookupKey packet direction srcEpc dstEpc)
      = (some value, vp))
    (hfresh : ¬(value.timestamp < packet.Timestamp ∧
      packet.Timestamp - value.timestamp > POLICY_TIMEOUT)) :
    getFastVlanPolicy maps packet direction policy =
      (some (if direction = BACKWARD then
          (⟨value.endpoint.DstInfo, value.endpoint.SrcInfo⟩ : EndpointData)
        else value.endpoint),
       policy.Merge value.policy.AclActions value.policy.ACLID,
       { maps with
         macEpcMap := m2
         vlanPolicyMap := vp.add (fastVlanLookupKey packet direction srcEpc dstEpc)
           { value with timestamp := packet.Timestamp } }) := by
  cases direction <;>
    simp_all [getFastVlanPolicy, fastVlanLookupKey]


/-! ## Claim C4: fast-path freshness -/

/-- Claim C4: in every fast-path sub-lookup (port and vlan) that finds an
entry: a stale entry (`value.timestamp < key.timestamp` and
`key.timestamp - value.timestamp > POLICY_TIMEOUT`) is removed from its
LRU and the lookup misses; an entry with `key.timestamp ≤ value.timestamp`
is never evicted by this check; and every non-stale hit rewrites the
entry's timestamp to the query timestamp. -/
theorem c4_fast_path_freshness (maps : VlanAndPortMap) (packet : LookupKey)
    (direction : DirectionType) (policy : PolicyData) :
    (∀ srcEpc dstEpc m1 m2 value pp,
      maps.macEpcMap.get packet.SrcMac = (some srcEpc, m1) →
      m1.get packet.DstMac = (some dstEpc, m2) →
      maps.portPolicyMap.get (fastPortLookupKey packet direction srcEpc dstEpc)
        = (some value, pp) →
      ((value.timestamp < packet.Timestamp ∧
          packet.Timestamp - value.timestamp > POLICY_TIMEOUT →
          (getFastPortPolicy maps packet direction policy).1 = none ∧
          (getFastPortPolicy maps packet direction policy).2.2.portPolicyMap
            = pp.remove (fastPortLookupKey packet direction srcEpc dstEpc) ∧
          ((pp.entries.map Prod.fst).Nodup →
            ((getFastPortPolicy maps packet direction policy).2.2.portPolicyMap.find?
              (fastPortLookupKey packet direction srcEpc dstEpc)) = none))
        ∧ (packet.Timestamp ≤ value.timestamp →
            ((getFastPortPolicy maps packet direction policy).1).isSome ∧
            ((getFastPortPolicy maps packet direction policy).2.2.portPolicyMap.find?
              (fastPortLookupKey packet direction srcEpc dstEpc))
              = some { value with timestamp := packet.Timestamp })
        ∧ (¬(value.timestamp < packet.Timestamp ∧
              packet.Timestamp - value.timestamp > POLICY_TIMEOUT) →
            ((getFastPortPolicy maps packet direction policy).1).isSome ∧
            ((getFastPortPolicy maps packet direction policy).2.2.portPolicyMap.find?
              (fastPortLookupKey packet direction srcEpc dstEpc))
              = some { value with timestamp := packet.Timestamp })))
    ∧ (∀ srcEpc dstEpc m1 m2 value vp,
      maps.macEpcMap.get packet.SrcMac = (some srcEpc, m1) →
      m1.get packet.DstMac = (some dstEpc, m2) →
      maps.vlanPolicyMap.get (fastVlanLookupKey packet direction srcEpc dstEpc)
        = (some value, vp) →
      ((value.timestamp < packet.Timestamp ∧
          packet.Timestamp - value.timestamp > POLICY_TIMEOUT →
          (getFastVlanPolicy maps packet direction policy).1 = none ∧
          (getFastVlanPolicy maps packet direction policy).2.2.vlanPolicyMap
            = vp.remove (fastVlanLookupKey packet direction srcEpc dstEpc) ∧
          ((vp.entries.map Prod.fst).Nodup →
            ((getFastVlanPolicy maps packet direction policy).2.2.vlanPolicyMap.find?
              (fastVlanLookupKey packet direction srcEpc dstEpc)) = none))
        ∧ (packet.Timestamp ≤ value.timestamp →
            ((getFastVlanPolicy maps packet direction policy).1).isSome ∧
            ((getFastVlanPolicy maps packet direction policy).2.2.vlanPolicyMap.find?
              (fastVlanLookupKey packet direction srcEpc dstEpc))
              = some { value with timestamp := packet.Timestamp })
        ∧ (¬(value.timestamp < packet.Timestamp ∧
              packet.Timestamp - value.timestamp > POLICY_TIMEOUT) →
            ((getFastVlanPolicy maps packet direction policy).1).isSome ∧
            ((getFastVlanPolicy maps packet direction policy).2.2.vlanPolicyMap.find?
              (fastVlanLookupKey packet direction srcEpc dstEpc))
              = some { value with timestamp := packet.Timestamp }))) := by
  constructor
  · intro srcEpc dstEpc m1 m2 value pp hsrc hdst hkey
    refine ⟨?_, ?_, ?_⟩
    · intro hstale
      rw [getFastPortPolicy_stale maps packet direction policy srcEpc dstEpc m1 m2 value pp
        hsrc hdst hkey hstale]
      refine ⟨rfl, rfl, ?_⟩
      intro hnodup
      exact Lru.find?_remove_self_of_nodup pp _ hnodup
    · intro hle
      have hfresh : ¬(value.timestamp < packet.Timestamp ∧
          packet.Timestamp - value.timestamp > POLICY_TIMEOUT) := by
        intro hh
        exact absurd hh.1 (not_lt.mpr hle)
      rw [getFastPortPolicy_hit maps packet direction policy srcEpc dstEpc m1 m2 value pp
        hsrc hdst hkey hfresh]
      exact ⟨rfl, Lru.find?_add_self _ _ _⟩
    · intro hfresh
      rw [getFastPortPolicy_hit maps packet direction policy srcEpc dstEpc m1 m2 value pp
        hsrc hdst hkey hfresh]
      exact ⟨rfl, Lru.find?_add_self _ _ _⟩
  · intro srcEpc dstEpc m1 m2 value vp hsrc hdst hkey
    refine ⟨?_, ?_, ?_⟩
    · intro hstale
      rw [getFastVlanPolicy_stale maps packet direction policy srcEpc dstEpc m1 m2 value vp
        hsrc hdst hkey hstale]
      refine ⟨rfl, rfl, ?_⟩
      intro hnodup
      exact Lru.find?_remove_self_of_nodup vp _ hnodup
    · intro hle
      have hfresh : ¬(value.timestamp < packet.Timestamp ∧
          packet.Timestamp - value.timestamp > POLICY_TIMEOUT) := by
        intro hh
        exact absurd hh.1 (not_lt.mpr hle)
      rw [getFastVlanPolicy_hit maps packet direction policy srcEpc dstEpc m1 m2 value vp
        hsrc hdst hkey hfresh]
      exact ⟨rfl, Lru.find?_add_self _ _ _⟩
    · intro hfresh
      rw [getFastVlanPolicy_hit maps packet direction policy srcEpc dstEpc m1 m2 value vp
        hsrc hdst hkey hfresh]
      exact ⟨rfl, Lru.find?_add_self _ _ _⟩



/-- Witness for C4: the stale port entry at timestamp 0 is evicted by a
lookup at 120 s. -/
theorem c4_fast_path_freshness_witness :
    (getFastPortPolicy c4WitnessMaps c4WitnessPacket FORWARD emptyPolicy).1 = none ∧
    ((getFastPortPolicy c4WitnessMaps c4WitnessPacket FORWARD
      emptyPolicy).2.2.portPolicyMap.find? (fastPortLookupKey c4WitnessPacket FORWARD 3 4))
      = none := by
  have h := ((c4_fast_path_freshness c4WitnessMaps c4WitnessPacket FORWARD emptyPolicy).1
    3 4 ⟨128, [(0xa1, 3), (0xb2, 4)]⟩ ⟨128, [(0xb2, 4), (0xa1, 3)]⟩
    ⟨⟨⟨3, 0, []⟩, ⟨4, 0, []⟩⟩, emptyPolicy, 0⟩
    ⟨1024, [(fastPortKey 3 4 6 80, ⟨⟨⟨3, 0, []⟩, ⟨4, 0, []⟩⟩, emptyPolicy, 0⟩)]⟩
    rfl rfl rfl).1 (by decide)
  exact ⟨h.1, h.2.2 (by decide)⟩

/-! ## Claim C5: addEpcMap preference order -/


/-- Counterexample to claim C5: for `L2EpcId = -1`, `L3EpcId = 5` the code
returns the wildcard 0 (it only consults `l3_epc_id` when `l2_epc_id = 0`),
while the claimed preference order returns 5. -/
theorem c5_addEpcMap_counterexample :
    (addEpcMap newVlanAndPortMap ⟨-1, 5, []⟩ 0xa).1 = 0
    ∧ claimedEpcId ⟨-1, 5, []⟩ = 5
    ∧ (addEpcMap newVlanAndPortMap ⟨-1, 5, []⟩ 0xa).1 ≠ claimedEpcId ⟨-1, 5, []⟩ := by
  exact ⟨rfl, rfl, by decide⟩

/-- Amended claim C5: `addEpcMap` inserts the id under `mac` into
`mac_epc` and returns it, where the id is `l2_epc_id` when positive;
otherwise, only when `l2_epc_id = 0`, it is `l3_epc_id` if positive,
`0xFFFFFFFF` if `l3_epc_id = -1`, else 0; and it is 0 (wildcard) whenever
`l2_epc_id < 0`.  The other two sub-maps are untouched. -/
theorem c5_addEpcMap_amended (maps : VlanAndPortMap) (e : EndpointInfo) (mac : Nat) :
    (addEpcMap maps e mac).1
      = (if e.L2EpcId > 0 then e.L2EpcId.toNat
         else if e.L2EpcId = 0 then
           (if e.L3EpcId > 0 then e.L3EpcId.toNat
            else if e.L3EpcId = -1 then 0xffffffff else 0)
         else 0)
    ∧ ((addEpcMap maps e mac).2.macEpcMap.find? mac = some (addEpcMap maps e mac).1)
    ∧ (addEpcMap maps e mac).2.vlanPolicyMap = maps.vlanPolicyMap
    ∧ (addEpcMap maps e mac).2.portPolicyMap = maps.portPolicyMap := by
  refine ⟨rfl, ?_, rfl, rfl⟩
  exact Lru.find?_add_self _ _ _

/-! ## Claim C2: UpdateAcls and the fast-path caches -/


/-- Counterexample to claim C2: `UpdateAcls` alone does not clear the
fast-path caches — the pre-existing entry survives the call. -/
theorem c2_updateAcls_counterexample :
    ((UpdateAcls c2State []).FastPolicyMaps 0 1).entries.length = 1 ∧
    ¬(((UpdateAcls c2State []).FastPolicyMaps 0 1).entries = []) := by
  refine ⟨rfl, ?_⟩
  intro h
  have h1 : ((UpdateAcls c2State []).FastPolicyMaps 0 1).entries.length = 1 := rfl
  rw [h] at h1
  simp at h1

/-- Amended claim C2: `UpdateAcls` leaves the fast-path caches untouched;
the flush happens in `FlushAcls`, which `AddAcl` (and `DelAcl` on a valid
id) runs after `UpdateAcls` — after `AddAcl` every per-`(queue, tap)`
fast-path cache is empty. -/
theorem c2_flush_clears_fast_path (l : PolicyLabel) (acl : Acl) (q t : Nat)
    (h1 : TAP_MIN ≤ t) (h2 : t < TAP_MAX) :
    ((AddAcl l acl).FastPolicyMaps q t).entries = [] ∧
    (∀ acls, (UpdateAcls l acls).FastPolicyMaps = l.FastPolicyMaps) := by
  constructor
  · show ((FlushAcls (UpdateAcls l (l.RawAcls ++ [acl]))).FastPolicyMaps q t).entries = []
    unfold FlushAcls
    simp only
    rw [if_pos ⟨h1, h2⟩]
    rfl
  · intro acls
    rfl

/-- Witness for C2's amended claim at a concrete state and tap. -/
theorem c2_flush_clears_fast_path_witness :
    TAP_MIN ≤ 1 ∧ 1 < TAP_MAX ∧
    ((AddAcl c2State ⟨1, 1, 0, [], [], [], 0, 0, []⟩).FastPolicyMaps 0 1).entries = [] := by
  refine ⟨by decide, by decide, ?_⟩
  exact (c2_flush_clears_fast_path c2State ⟨1, 1, 0, [], [], [], 0, 0, []⟩ 0 1
    (by decide) (by decide)).1


/-! ## Claim C9: malformed CIDR text -/

/-- Counterexample to claim C9: the entry `"1.2.99.7/zz"` is malformed
(its length part fails integer parsing), yet it is not skipped by the
refine pass, which only re-checks the split: next to the well-formed entry
`"1.2.3.0/24"` it contributes the key `0x01026300` to `ip_netmask`. -/
theorem c9_malformed_counterexample :
    ipGet (genIpNetmaskMapFromIpResource []
        [⟨["1.2.3.0/24", "1.2.99.7/zz"]⟩]) 0x01026300 = 0xffffff00
    ∧ ipGet (genIpNetmaskMapFromIpResource [] [⟨["1.2.3.0/24"]⟩]) 0x01026300 = 0 := by
  exact ⟨rfl, rfl⟩

/-- Amended claim C9: an `Ips` entry that does not split into exactly two
parts on `/` is skipped by both passes and contributes nothing; an entry
whose length part fails integer parsing is skipped by the seed pass only —
the refine pass re-checks nothing but the split, so such an entry can
still contribute a refined key (and an unparseable IP is processed as the
address 0 rather than skipped).  The call always completes normally. -/
theorem c9_malformed_skip_amended (mm : IpMap) (raw : String) :
    ((splitOnChar '/' raw.data).length ≠ 2 →
      seedIpResStep mm raw = mm ∧ refineIpResStep mm raw = mm)
    ∧ (∀ ipStr lenStr, splitOnChar '/' raw.data = [ipStr, lenStr] → parseAtoi lenStr = none →
        seedIpResStep mm raw = mm) := by
  constructor
  · intro h
    constructor
    · unfold seedIpResStep
      cases hs : splitOnChar '/' raw.data with
      | nil => rfl
      | cons a t =>
        cases t with
        | nil => rfl
        | cons b t2 =>
          cases t2 with
          | nil => rw [hs] at h; simp at h
          | cons x t3 => rfl
    · unfold refineIpResStep
      cases hs : splitOnChar '/' raw.data with
      | nil => rfl
      | cons a t =>
        cases t with
        | nil => rfl
        | cons b t2 =>
          cases t2 with
          | nil => rw [hs] at h; simp at h
          | cons x t3 => rfl
  · intro ipStr lenStr hs hatoi
    unfold seedIpResStep
    rw [hs]
    simp [hatoi]

/-- Witness for C9's amended claim on concrete malformed entries. -/
theorem c9_malformed_skip_amended_witness :
    (splitOnChar '/' "abc".data).length ≠ 2 ∧ seedIpResStep [] "abc" = [] ∧
    refineIpResStep [] "abc" = [] ∧
    splitOnChar '/' "1.2.3.4/zz".data = ["1.2.3.4".data, "zz".data] ∧
    parseAtoi "zz".data = none ∧
    seedIpResStep [] "1.2.3.4/zz" = [] := by
  refine ⟨by decide, ?_, ?_, by decide, by decide, ?_⟩
  · exact ((c9_malformed_skip_amended [] "abc").1 (by decide)).1
  · exact ((c9_malformed_skip_amended [] "abc").1 (by decide)).2
  · exact (c9_malformed_skip_amended [] "1.2.3.4/zz").2 "1.2.3.4".data "zz".data
      (by decide) (by decide)


/-! ## Netmask learner: basic map lemmas -/

lemma ipGet_ipSet_self (m : IpMap) (k v : Nat) : ipGet (ipSet m k v) k = v := by
  unfold ipGet ipSet
  rw [List.find?_cons_of_pos _ (by simp)]

lemma ipGet_ipSet_ne (m : IpMap) (k k' v : Nat) (h : k' ≠ k) :
    ipGet (ipSet m k v) k' = ipGet m k' := by
  unfold ipGet ipSet
  rw [List.find?_cons_of_neg _ (by simp; exact Ne.symm h), find?_eraseP_key_ne _ _ _ h]

lemma ipGet_cases (m : IpMap) (k : Nat) : ipGet m k = 0 ∨ (k, ipGet m k) ∈ m := by
  cases hfind : m.find? (fun p => p.1 == k) with
  | none =>
    left
    unfold ipGet
    rw [hfind]
  | some p =>
    right
    have hp1 : p.1 = k := by simpa using List.find?_some hfind
    have hval : ipGet m k = p.2 := by unfold ipGet; rw [hfind]
    rw [hval]
    have hpk : (k, p.2) = p := by
      cases p
      simp only at hp1 ⊢
      rw [hp1]
    rw [hpk]
    exact List.mem_of_find?_eq_some hfind

lemma ipGet_eq_of_mem_nodup (m : IpMap) (k v : Nat) (h : (k, v) ∈ m)
    (hn : (m.map Prod.fst).Nodup) : ipGet m k = v := by
  induction m with
  | nil => simp at h
  | cons p t ih =>
    simp only [List.map_cons, List.nodup_cons] at hn
    rcases List.mem_cons.mp h with rfl | hmem
    · unfold ipGet
      rw [List.find?_cons_of_pos _ (by simp)]
    · have hp : p.1 ≠ k := by
        intro hk
        exact hn.1 (hk ▸ (List.mem_map.mpr ⟨(k, v), hmem, rfl⟩))
      unfold ipGet
      rw [List.find?_cons_of_neg _ (by simp [hp])]
      exact ih hmem hn.2

lemma keys_not_mem_eraseP (m : IpMap) (k : Nat) (hn : (m.map Prod.fst).Nodup) :
    k ∉ (m.eraseP (fun p => p.1 == k)).map Prod.fst := by
  induction m with
  | nil => simp
  | cons p t ih =>
    simp only [List.map_cons, List.nodup_cons] at hn
    by_cases hp : p.1 = k
    · rw [List.eraseP_cons_of_pos (by simp [hp])]
      exact hp ▸ hn.1
    · rw [List.eraseP_cons_of_neg (by simp [hp])]
      simp only [List.map_cons, List.mem_cons]
      push_neg
      exact ⟨Ne.symm hp, ih hn.2⟩

lemma keys_nodup_ipSet (m : IpMap) (k v : Nat) (hn : (m.map Prod.fst).Nodup) :
    ((ipSet m k v).map Prod.fst).Nodup := by
  unfold ipSet
  simp only [List.map_cons, List.nodup_cons]
  refine ⟨keys_not_mem_eraseP m k hn, ?_⟩
  exact (((List.eraseP_sublist m).map Prod.fst).nodup) hn


lemma invIpMap_nil : InvIpMap [] := ⟨List.nodup_nil, by simp⟩

lemma invIpMap_ipSet (m : IpMap) (k v : Nat) (h : InvIpMap m) (h1 : 0xffff0000 ≤ v)
    (h2 : v < 2 ^ 32) : InvIpMap (ipSet m k v) := by
  refine ⟨keys_nodup_ipSet m k v h.1, ?_⟩
  intro kv hkv
  rcases List.mem_cons.mp hkv with rfl | hmem
  · exact ⟨h1, h2⟩
  · exact h.2 kv (List.mem_of_mem_eraseP hmem)

/-! ## Netmask learner: step lemmas -/

lemma maskOfNetmask_lt (n : Nat) : maskOfNetmask n < 2 ^ 32 := by
  unfold maskOfNetmask
  dsimp only
  split
  · exact Nat.mod_lt _ (by norm_num)
  · norm_num

lemma maskOfMaskSizeInt_lt (z : Int) : maskOfMaskSizeInt z < 2 ^ 32 := by
  unfold maskOfMaskSizeInt
  dsimp only
  split
  · exact Nat.mod_lt _ (by norm_num)
  · norm_num

lemma seedAt_mono (mm : IpMap) (ip mask k : Nat) : ipGet mm k ≤ ipGet (seedAt mm ip mask) k := by
  unfold seedAt
  dsimp only
  split
  · rename_i h
    by_cases hk : k = ip &&& 0xffff0000
    · subst hk
      rw [ipGet_ipSet_self]
      exact le_of_lt h.2
    · rw [ipGet_ipSet_ne _ _ _ _ hk]
  · exact le_refl _

lemma refineAt_mono (mm : IpMap) (ip k : Nat) : ipGet mm k ≤ ipGet (refineAt mm ip) k := by
  unfold refineAt
  dsimp only
  split
  · rename_i h
    by_cases hk : k = ip &&& ipGet mm (ip &&& 0xffff0000)
    · subst hk
      rw [ipGet_ipSet_self]
      exact le_of_lt h
    · rw [ipGet_ipSet_ne _ _ _ _ hk]
  · exact le_refl _

lemma seedAt_inv (mm : IpMap) (ip mask : Nat) (h : InvIpMap mm) (hm : mask < 2 ^ 32) :
    InvIpMap (seedAt mm ip mask) := by
  unfold seedAt
  dsimp only
  split
  · rename_i hg
    exact invIpMap_ipSet mm _ mask h hg.1 hm
  · exact h

lemma refineAt_inv (mm : IpMap) (ip : Nat) (h : InvIpMap mm) : InvIpMap (refineAt mm ip) := by
  unfold refineAt
  dsimp only
  split
  · rename_i hg
    have hmask : 0xffff0000 ≤ ipGet mm (ip &&& 0xffff0000) ∧
        ipGet mm (ip &&& 0xffff0000) < 2 ^ 32 := by
      rcases ipGet_cases mm (ip &&& 0xffff0000) with h0 | hmem
      · rw [h0] at hg
        omega
      · exact h.2 _ hmem
    exact invIpMap_ipSet mm _ _ h hmask.1 hmask.2
  · exact h


/-! ## Netmask learner: fold helpers -/

lemma foldl_pred {α : Type} (P : IpMap → Prop) (step : IpMap → α → IpMap) (l : List α)
    (hstep : ∀ acc x, x ∈ l → P acc → P (step acc x)) :
    ∀ m, P m → P (l.foldl step m) := by
  induction l with
  | nil => intro m hm; exact hm
  | cons x rest ih =>
    intro m hm
    exact ih (fun acc y hy => hstep acc y (List.mem_cons_of_mem x hy))
      (step m x) (hstep m x (List.mem_cons_self x rest) hm)

lemma foldl_ipGet_mono {α : Type} (step : IpMap → α → IpMap) (l : List α)
    (hstep : ∀ acc x k, ipGet acc k ≤ ipGet (step acc x) k) :
    ∀ m k, ipGet m k ≤ ipGet (l.foldl step m) k := by
  induction l with
  | nil => intro m k; exact le_refl _
  | cons x rest ih =>
    intro m k
    exact le_trans (hstep m x k) (ih (step m x) k)

/-! ## makeIpNetmaskMap lemmas -/

lemma makeIp_fold_get (l : List (Nat × Nat)) :
    ∀ acc : IpMap, (∀ kv ∈ l, ipGet acc kv.1 = 0) → ((l.map Prod.fst).Nodup) → ∀ k,
    ipGet (l.foldl (fun acc kv => if ipGet acc kv.1 < kv.2 then ipSet acc kv.1 kv.2 else acc)
      acc) k
      = if ipGet l k ≠ 0 then ipGet l k else ipGet acc k := by
  induction l with
  | nil =>
    intro acc hdisj hn k
    simp [ipGet]
  | cons kv rest ih =>
    intro acc hdisj hn k
    simp only [List.map_cons, List.nodup_cons] at hn
    have hacc0 : ipGet acc kv.1 = 0 := hdisj kv (List.mem_cons_self kv rest)
    have hdisj' : ∀ kv' ∈ rest, ipGet (if ipGet acc kv.1 < kv.2 then ipSet acc kv.1 kv.2
        else acc) kv'.1 = 0 := by
      intro kv' hkv'
      have hne : kv'.1 ≠ kv.1 := by
        intro he
        exact hn.1 (he ▸ List.mem_map.mpr ⟨kv', hkv', rfl⟩)
      split
      · rw [ipGet_ipSet_ne _ _ _ _ hne]
        exact hdisj kv' (List.mem_cons_of_mem kv hkv')
      · exact hdisj kv' (List.mem_cons_of_mem kv hkv')
    rw [List.foldl_cons, ih _ hdisj' hn.2]
    have hrest0 : kv.1 ∉ rest.map Prod.fst → ipGet rest kv.1 = 0 := by
      intro hmem
      unfold ipGet
      rw [find?_eq_none_of_not_mem_keys rest kv.1 hmem]
    by_cases hk : k = kv.1
    · subst hk
      have h1 : ipGet rest kv.1 = 0 := hrest0 hn.1
      have h2 : ipGet (kv :: rest) kv.1 = kv.2 := by
        unfold ipGet
        rw [List.find?_cons_of_pos _ (by simp)]
      by_cases hv : kv.2 = 0
      · simp [h1, h2, hacc0, hv]
      · have hpos : 0 < kv.2 := Nat.pos_of_ne_zero hv
        simp [h1, h2, hacc0, hv, hpos, ipGet_ipSet_self]
    · have h2 : ipGet (kv :: rest) k = ipGet rest k := by
        unfold ipGet
        rw [List.find?_cons_of_neg _ (by simp [Ne.symm hk])]
      rw [h2]
      split
      · rfl
      · split
        · rw [ipGet_ipSet_ne _ _ _ _ hk]
        · rfl


lemma makeIp_get (m : IpMap) (hn : (m.map Prod.fst).Nodup) (k : Nat) :
    ipGet (makeIpNetmaskMap m) k = ipGet m k := by
  unfold makeIpNetmaskMap
  rw [makeIp_fold_get m [] (fun kv _ => rfl) hn k]
  by_cases h : ipGet m k = 0
  · rw [h]
    simp [ipGet]
  · simp [h]

lemma makeIp_inv (m : IpMap) (h : InvIpMap m) : InvIpMap (makeIpNetmaskMap m) := by
  unfold makeIpNetmaskMap
  refine foldl_pred InvIpMap _ m ?_ [] invIpMap_nil
  intro acc kv hkv hacc
  split
  · exact invIpMap_ipSet acc kv.1 kv.2 hacc (h.2 kv hkv).1 (h.2 kv hkv).2
  · exact hacc

/-! ## The two passes over a flat prefix list -/



lemma foldl_flatMap {α β : Type} (f : IpMap → β → IpMap) (g : α → List β) (l : List α) :
    ∀ m, l.foldl (fun mm a => (g a).foldl f mm) m = (l.flatMap g).foldl f m := by
  induction l with
  | nil => intro m; rfl
  | cons a rest ih =>
    intro m
    rw [List.foldl_cons, List.flatMap_cons, List.foldl_append, ih]

lemma genIpNetmaskMap_eq_passes (m : IpMap) (ps : List PlatformData) :
    genIpNetmaskMap m ps =
      refinePass (seedPass (makeIpNetmaskMap m) (ps.flatMap (·.Ips)))
        (ps.flatMap (·.Ips)) := by
  unfold genIpNetmaskMap seedPass refinePass
  rw [← foldl_flatMap, ← foldl_flatMap]

/-! ## Bit lemmas for the bucket projection -/

lemma testBit_bucketMask (i : Nat) :
    (0xffff0000 : Nat).testBit i = (decide (16 ≤ i) && decide (i < 32)) := by
  have h : (0xffff0000 : Nat) = (2 ^ 16 - 1) <<< 16 := rfl
  rw [h, Nat.testBit_shiftLeft, Nat.testBit_two_pow_sub_one]
  by_cases h16 : 16 ≤ i
  · by_cases h32 : i < 32 <;> simp [h16, h32] <;> omega
  · simp [show ¬(i ≥ 16) from h16]

lemma mask_testBit_true (mask i : Nat) (h1 : 0xffff0000 ≤ mask) (h2 : mask < 2 ^ 32)
    (hi : 16 ≤ i) (hi2 : i < 32) : mask.testBit i = true := by
  have hdiv : mask >>> 16 = 0xffff := by
    rw [Nat.shiftRight_eq_div_pow]
    have a : 0xffff ≤ mask / 2 ^ 16 := (Nat.le_div_iff_mul_le (by norm_num)).mpr (by norm_num; omega)
    have b : mask / 2 ^ 16 < 2 ^ 16 := (Nat.div_lt_iff_lt_mul (by norm_num)).mpr (by norm_num; omega)
    omega
  have hb : mask.testBit i = (mask >>> 16).testBit (i - 16) := by
    rw [Nat.testBit_shiftRight]
    congr 1
    omega
  rw [hb, hdiv]
  have h16 : (0xffff : Nat) = 2 ^ 16 - 1 := rfl
  rw [h16, Nat.testBit_two_pow_sub_one]
  simp
  omega

lemma and_mask_bucket (ip mask : Nat) (h1 : 0xffff0000 ≤ mask) (h2 : mask < 2 ^ 32) :
    (ip &&& mask) &&& 0xffff0000 = ip &&& 0xffff0000 := by
  apply Nat.eq_of_testBit_eq
  intro i
  rw [Nat.testBit_land, Nat.testBit_land, Nat.testBit_land]
  by_cases hlo : 16 ≤ i
  · by_cases hhi : i < 32
    · rw [mask_testBit_true mask i h1 h2 hlo hhi]
      simp
    · rw [testBit_bucketMask]
      simp [hhi]
  · rw [testBit_bucketMask]
    simp [hlo]

lemma bucket_idem (x : Nat) : (x &&& 0xffff0000) &&& 0xffff0000 = x &&& 0xffff0000 := by
  rw [Nat.land_assoc, Nat.and_self]

/-! ## Bucket constancy of the refine pass -/

lemma refineAt_get_bucket (mm : IpMap) (ip k : Nat) (hInv : InvIpMap mm)
    (hk : k &&& 0xffff0000 = k) : ipGet (refineAt mm ip) k = ipGet mm k := by
  unfold refineAt
  dsimp only
  split
  · rename_i hg
    have hmask : 0xffff0000 ≤ ipGet mm (ip &&& 0xffff0000) ∧
        ipGet mm (ip &&& 0xffff0000) < 2 ^ 32 := by
      rcases ipGet_cases mm (ip &&& 0xffff0000) with h0 | hmem
      · rw [h0] at hg
        omega
      · exact hInv.2 _ hmem
    by_cases hk2 : k = ip &&& ipGet mm (ip &&& 0xffff0000)
    · exfalso
      have hb : k = ip &&& 0xffff0000 := by
        calc k = k &&& 0xffff0000 := hk.symm
          _ = (ip &&& ipGet mm (ip &&& 0xffff0000)) &&& 0xffff0000 := by rw [hk2]
          _ = ip &&& 0xffff0000 := and_mask_bucket ip _ hmask.1 hmask.2
      rw [← hk2] at hg
      rw [← hb] at hg
      omega
    · rw [ipGet_ipSet_ne _ _ _ _ hk2]
  · rfl

lemma foldl_bucket_const {α : Type} (step : IpMap → α → IpMap) (l : List α)
    (hstep : ∀ acc x, InvIpMap acc → InvIpMap (step acc x))
    (hbucket : ∀ acc x k, InvIpMap acc → k &&& 0xffff0000 = k →
      ipGet (step acc x) k = ipGet acc k) :
    ∀ m k, InvIpMap m → k &&& 0xffff0000 = k → ipGet (l.foldl step m) k = ipGet m k := by
  induction l with
  | nil => intro m k _ _; rfl
  | cons x rest ih =>
    intro m k hm hk
    rw [List.foldl_cons, ih (step m x) k (hstep m x hm) hk, hbucket m x k hm hk]

/-! ## Saturation of the two passes -/

lemma seedAt_sat (acc : IpMap) (ip mask : Nat) (h : 0xffff0000 ≤ mask) :
    mask ≤ ipGet (seedAt acc ip mask) (ip &&& 0xffff0000) := by
  unfold seedAt
  dsimp only
  split
  · rw [ipGet_ipSet_self]
  · rename_i hg
    push_neg at hg
    exact hg h

lemma refineAt_sat (acc : IpMap) (ip : Nat) :
    ipGet acc (ip &&& 0xffff0000) ≤
      ipGet (refineAt acc ip) (ip &&& ipGet acc (ip &&& 0xffff0000)) := by
  unfold refineAt
  dsimp only
  split
  · rw [ipGet_ipSet_self]
  · rename_i hg
    omega

lemma seedPass_mono (l : List IpNet) (m : IpMap) (k : Nat) :
    ipGet m k ≤ ipGet (seedPass m l) k :=
  foldl_ipGet_mono _ l (fun acc x k => seedAt_mono acc x.Ip (maskOfNetmask x.Netmask) k) m k

lemma refinePass_mono (l : List IpNet) (m : IpMap) (k : Nat) :
    ipGet m k ≤ ipGet (refinePass m l) k :=
  foldl_ipGet_mono _ l (fun acc x k => refineAt_mono acc x.Ip k) m k

lemma seedPass_inv (l : List IpNet) (m : IpMap) (h : InvIpMap m) : InvIpMap (seedPass m l) :=
  foldl_pred InvIpMap _ l
    (fun acc x _ hacc => seedAt_inv acc x.Ip _ hacc (maskOfNetmask_lt x.Netmask)) m h

lemma refinePass_inv (l : List IpNet) (m : IpMap) (h : InvIpMap m) : InvIpMap (refinePass m l) :=
  foldl_pred InvIpMap _ l (fun acc x _ hacc => refineAt_inv acc x.Ip hacc) m h

lemma refinePass_bucket_const (l : List IpNet) (m : IpMap) (k : Nat) (hm : InvIpMap m)
    (hk : k &&& 0xffff0000 = k) : ipGet (refinePass m l) k = ipGet m k :=
  foldl_bucket_const _ l (fun acc x hacc => refineAt_inv acc x.Ip hacc)
    (fun acc x k hacc hk => refineAt_get_bucket acc x.Ip k hacc hk) m k hm hk

lemma seedPass_sat (l : List IpNet) :
    ∀ acc, ∀ x ∈ l, 0xffff0000 ≤ maskOfNetmask x.Netmask →
      maskOfNetmask x.Netmask ≤ ipGet (seedPass acc l) (x.Ip &&& 0xffff0000) := by
  induction l with
  | nil => intro acc x hx; simp at hx
  | cons y rest ih =>
    intro acc x hx hmask
    rcases List.mem_cons.mp hx with rfl | hmem
    · calc maskOfNetmask x.Netmask
          ≤ ipGet (seedAt acc x.Ip (maskOfNetmask x.Netmask)) (x.Ip &&& 0xffff0000) :=
            seedAt_sat acc x.Ip _ hmask
        _ ≤ ipGet (seedPass (seedAt acc x.Ip (maskOfNetmask x.Netmask)) rest)
              (x.Ip &&& 0xffff0000) := seedPass_mono rest _ _
    · exact ih _ x hmem hmask

lemma refinePass_sat (l : List IpNet) :
    ∀ acc, InvIpMap acc → ∀ x ∈ l,
      ipGet (refinePass acc l) (x.Ip &&& 0xffff0000) ≤
        ipGet (refinePass acc l) (x.Ip &&& ipGet (refinePass acc l) (x.Ip &&& 0xffff0000)) := by
  induction l with
  | nil => intro acc _ x hx; simp at hx
  | cons y rest ih =>
    intro acc hInv x hx
    rcases List.mem_cons.mp hx with rfl | hmem
    · have hInv' : InvIpMap (refineAt acc x.Ip) := refineAt_inv acc x.Ip hInv
      have hBfix : (x.Ip &&& 0xffff0000) &&& 0xffff0000 = x.Ip &&& 0xffff0000 :=
        bucket_idem x.Ip
      have hBconst : ipGet (refinePass (refineAt acc x.Ip) rest) (x.Ip &&& 0xffff0000)
          = ipGet (refineAt acc x.Ip) (x.Ip &&& 0xffff0000) :=
        refinePass_bucket_const rest _ _ hInv' hBfix
      have hBstep : ipGet (refineAt acc x.Ip) (x.Ip &&& 0xffff0000)
          = ipGet acc (x.Ip &&& 0xffff0000) :=
        refineAt_get_bucket acc x.Ip _ hInv hBfix
      have hred : refinePass acc (x :: rest) = refinePass (refineAt acc x.Ip) rest := rfl
      rw [hred, hBconst, hBstep]
      calc ipGet acc (x.Ip &&& 0xffff0000)
          ≤ ipGet (refineAt acc x.Ip) (x.Ip &&& ipGet acc (x.Ip &&& 0xffff0000)) :=
            refineAt_sat acc x.Ip
        _ ≤ ipGet (refinePass (refineAt acc x.Ip) rest)
              (x.Ip &&& ipGet acc (x.Ip &&& 0xffff0000)) := refinePass_mono rest _ _
    · exact ih _ (refineAt_inv acc y.Ip hInv) x hmem

/-! ## No-op runs of the two passes -/

lemma seedPass_noop (l : List IpNet) (acc : IpMap)
    (h : ∀ x ∈ l, ¬(0xffff0000 ≤ maskOfNetmask x.Netmask ∧
      ipGet acc (x.Ip &&& 0xffff0000) < maskOfNetmask x.Netmask)) :
    seedPass acc l = acc := by
  induction l with
  | nil => rfl
  | cons y rest ih =>
    have hstep : seedAt acc y.Ip (maskOfNetmask y.Netmask) = acc := by
      unfold seedAt
      dsimp only
      rw [if_neg (h y (List.mem_cons_self y rest))]
    show seedPass (seedAt acc y.Ip (maskOfNetmask y.Netmask)) rest = acc
    rw [hstep]
    exact ih (fun x hx => h x (List.mem_cons_of_mem y hx))

lemma refinePass_noop (l : List IpNet) (acc : IpMap)
    (h : ∀ x ∈ l, ¬(ipGet acc (x.Ip &&& ipGet acc (x.Ip &&& 0xffff0000)) <
      ipGet acc (x.Ip &&& 0xffff0000))) :
    refinePass acc l = acc := by
  induction l with
  | nil => rfl
  | cons y rest ih =>
    have hstep : refineAt acc y.Ip = acc := by
      unfold refineAt
      dsimp only
      rw [if_neg (h y (List.mem_cons_self y rest))]
    show refinePass (refineAt acc y.Ip) rest = acc
    rw [hstep]
    exact ih (fun x hx => h x (List.mem_cons_of_mem y hx))


/-! ## Step lemmas for the textual learner -/

lemma seedIpResStep_mono (mm : IpMap) (raw : String) (k : Nat) :
    ipGet mm k ≤ ipGet (seedIpResStep mm raw) k := by
  unfold seedIpResStep
  cases splitOnChar '/' raw.data with
  | nil => exact le_refl _
  | cons a t =>
    cases t with
    | nil => exact le_refl _
    | cons b t2 =>
      cases t2 with
      | nil =>
        dsimp only
        cases parseAtoi b with
        | none => exact le_refl _
        | some z => exact seedAt_mono mm _ _ k
      | cons x t3 => exact le_refl _

lemma seedIpResStep_inv (mm : IpMap) (raw : String) (h : InvIpMap mm) :
    InvIpMap (seedIpResStep mm raw) := by
  unfold seedIpResStep
  cases splitOnChar '/' raw.data with
  | nil => exact h
  | cons a t =>
    cases t with
    | nil => exact h
    | cons b t2 =>
      cases t2 with
      | nil =>
        dsimp only
        cases parseAtoi b with
        | none => exact h
        | some z => exact seedAt_inv mm _ _ h (maskOfMaskSizeInt_lt z)
      | cons x t3 => exact h

lemma refineIpResStep_mono (mm : IpMap) (raw : String) (k : Nat) :
    ipGet mm k ≤ ipGet (refineIpResStep mm raw) k := by
  unfold refineIpResStep
  cases splitOnChar '/' raw.data with
  | nil => exact le_refl _
  | cons a t =>
    cases t with
    | nil => exact le_refl _
    | cons b t2 =>
      cases t2 with
      | nil => exact refineAt_mono mm _ k
      | cons x t3 => exact le_refl _

lemma refineIpResStep_inv (mm : IpMap) (raw : String) (h : InvIpMap mm) :
    InvIpMap (refineIpResStep mm raw) := by
  unfold refineIpResStep
  cases splitOnChar '/' raw.data with
  | nil => exact h
  | cons a t =>
    cases t with
    | nil => exact h
    | cons b t2 =>
      cases t2 with
      | nil => exact refineAt_inv mm _ h
      | cons x t3 => exact h

/-! ## Invariance and monotonicity of the two learners -/

lemma genIpNetmaskMap_inv (m : IpMap) (ps : List PlatformData) (h : InvIpMap m) :
    InvIpMap (genIpNetmaskMap m ps) := by
  rw [genIpNetmaskMap_eq_passes]
  exact refinePass_inv _ _ (seedPass_inv _ _ (makeIp_inv m h))

lemma genIpNetmaskMap_mono (m : IpMap) (ps : List PlatformData) (k : Nat)
    (hn : (m.map Prod.fst).Nodup) : ipGet m k ≤ ipGet (genIpNetmaskMap m ps) k := by
  rw [genIpNetmaskMap_eq_passes, ← makeIp_get m hn k]
  exact le_trans (seedPass_mono _ _ _) (refinePass_mono _ _ _)

lemma genIpRes_inv (m : IpMap) (datas : List IpGroupData) (h : InvIpMap m) :
    InvIpMap (genIpNetmaskMapFromIpResource m datas) := by
  unfold genIpNetmaskMapFromIpResource
  refine foldl_pred InvIpMap _ datas ?_ _ (makeIp_inv m h)
  intro acc data hdata hacc
  dsimp only
  refine foldl_pred InvIpMap _ data.Ips ?_ _ ?_
  · intro acc2 raw hraw hacc2
    exact refineIpResStep_inv acc2 raw hacc2
  · refine foldl_pred InvIpMap _ data.Ips ?_ _ hacc
    intro acc2 raw hraw hacc2
    exact seedIpResStep_inv acc2 raw hacc2

lemma genIpRes_mono (m : IpMap) (datas : List IpGroupData) (k : Nat)
    (hn : (m.map Prod.fst).Nodup) : ipGet m k ≤ ipGet (genIpNetmaskMapFromIpResource m datas) k := by
  unfold genIpNetmaskMapFromIpResource
  rw [← makeIp_get m hn k]
  refine foldl_ipGet_mono _ datas ?_ _ k
  intro acc data k2
  dsimp only
  calc ipGet acc k2 ≤ ipGet (data.Ips.foldl seedIpResStep acc) k2 :=
        foldl_ipGet_mono _ data.Ips (fun a r kk => seedIpResStep_mono a r kk) acc k2
    _ ≤ _ := foldl_ipGet_mono _ data.Ips (fun a r kk => refineIpResStep_mono a r kk) _ k2


lemma reachable_inv (m : IpMap) (h : ReachableIpMap m) : InvIpMap m := by
  induction h with
  | empty => exact invIpMap_nil
  | stepPlatform m ps hr ih => exact genIpNetmaskMap_inv m ps ih
  | stepIpRes m ds hr ih => exact genIpRes_inv m ds ih


/-! ## Claim C6: ip_netmask range and monotonicity -/

/-- Claim C6: on every table reachable by a sequence of
`GenerateIpNetmaskMap` / `GenerateIpNetmaskMapFromIpResource` calls,
every stored mask lies in `[0xFFFF0000, 0xFFFFFFFF]`, and neither call
ever replaces a stored mask by a strictly smaller one. -/
theorem c6_ip_netmask_invariant (m : IpMap) (h : ReachableIpMap m) :
    (∀ kv ∈ m, 0xffff0000 ≤ kv.2 ∧ kv.2 ≤ 0xffffffff)
    ∧ (∀ platforms k, ipGet m k ≤ ipGet (genIpNetmaskMap m platforms) k)
    ∧ (∀ datas k, ipGet m k ≤ ipGet (genIpNetmaskMapFromIpResource m datas) k) := by
  have hInv : InvIpMap m := reachable_inv m h
  refine ⟨?_, ?_, ?_⟩
  · intro kv hkv
    have := hInv.2 kv hkv
    omega
  · intro platforms k
    exact genIpNetmaskMap_mono m platforms k hInv.1
  · intro datas k
    exact genIpRes_mono m datas k hInv.1

/-- Witness for C6 on a concrete reachable table. -/
theorem c6_ip_netmask_invariant_witness :
    (0xffff0000 : Nat) ≤ 0xffffff00 ∧
    ipGet (genIpNetmaskMap [] [⟨0, [⟨0x0a000001, 24, 0⟩], 0, 0⟩])
        0x0a000000 ≤
      ipGet (genIpNetmaskMap (genIpNetmaskMap [] [⟨0, [⟨0x0a000001, 24, 0⟩], 0, 0⟩])
        [⟨0, [⟨0x0a000001, 24, 0⟩], 0, 0⟩]) 0x0a000000 := by
  refine ⟨by norm_num, ?_⟩
  exact (c6_ip_netmask_invariant (genIpNetmaskMap [] [⟨0, [⟨0x0a000001, 24, 0⟩], 0, 0⟩])
    (ReachableIpMap.stepPlatform [] _ ReachableIpMap.empty)).2.1
    [⟨0, [⟨0x0a000001, 24, 0⟩], 0, 0⟩] 0x0a000000

/-! ## Claim C7: idempotence of the learners -/

/-- Counterexample to claim C7: `GenerateIpNetmaskMapFromIpResource` is
not idempotent.  With the two groups `["1.2.3.4/16"]` and `["1.2.0.0/24"]`
the first call leaves only the /16 bucket `0x01020000 ↦ 0xFFFFFF00`; the
second call, reading the now-raised bucket mask in its per-group refine
pass, adds the key `0x01020300`. -/
theorem c7_ipres_counterexample :
    ipGet (genIpNetmaskMapFromIpResource []
        [⟨["1.2.3.4/16"]⟩, ⟨["1.2.0.0/24"]⟩]) 0x01020300 = 0
    ∧ ipGet (genIpNetmaskMapFromIpResource
        (genIpNetmaskMapFromIpResource [] [⟨["1.2.3.4/16"]⟩, ⟨["1.2.0.0/24"]⟩])
        [⟨["1.2.3.4/16"]⟩, ⟨["1.2.0.0/24"]⟩]) 0x01020300 = 0xffffff00 := by
  exact ⟨rfl, rfl⟩

/-- Amended claim C7: `GenerateIpNetmaskMap` (global seed pass, then
global refine pass) is idempotent on every reachable table: a second call
with the same platform input leaves the `ip_netmask` table point-wise
identical.  For `GenerateIpNetmaskMapFromIpResource` the passes are
interleaved per group and a second call can add keys (see the
counterexample). -/
theorem c7_genIpNetmaskMap_idempotent (m : IpMap) (ps : List PlatformData)
    (h : ReachableIpMap m) :
    ∀ k, ipGet (genIpNetmaskMap (genIpNetmaskMap m ps) ps) k
      = ipGet (genIpNetmaskMap m ps) k := by
  intro k
  have hInv : InvIpMap m := reachable_inv m h
  have hInvSeed : InvIpMap (seedPass (makeIpNetmaskMap m) (ps.flatMap (·.Ips))) :=
    seedPass_inv _ _ (makeIp_inv m hInv)
  have hpost : genIpNetmaskMap m ps =
      refinePass (seedPass (makeIpNetmaskMap m) (ps.flatMap (·.Ips))) (ps.flatMap (·.Ips)) :=
    genIpNetmaskMap_eq_passes m ps
  have hInvPost : InvIpMap (genIpNetmaskMap m ps) := genIpNetmaskMap_inv m ps hInv
  have hmk : ∀ k2, ipGet (makeIpNetmaskMap (genIpNetmaskMap m ps)) k2
      = ipGet (genIpNetmaskMap m ps) k2 := makeIp_get _ hInvPost.1
  have hseedsat : ∀ x ∈ ps.flatMap (·.Ips), 0xffff0000 ≤ maskOfNetmask x.Netmask →
      maskOfNetmask x.Netmask ≤ ipGet (genIpNetmaskMap m ps) (x.Ip &&& 0xffff0000) := by
    intro x hx hm
    rw [hpost]
    exact le_trans (seedPass_sat _ _ x hx hm) (refinePass_mono _ _ _)
  have hseednoop : seedPass (makeIpNetmaskMap (genIpNetmaskMap m ps)) (ps.flatMap (·.Ips))
      = makeIpNetmaskMap (genIpNetmaskMap m ps) := by
    apply seedPass_noop
    intro x hx hcontra
    rw [hmk] at hcontra
    exact absurd hcontra.2 (not_lt.mpr (hseedsat x hx hcontra.1))
  have hrefsat : ∀ x ∈ ps.flatMap (·.Ips),
      ipGet (genIpNetmaskMap m ps) (x.Ip &&& 0xffff0000) ≤
        ipGet (genIpNetmaskMap m ps)
          (x.Ip &&& ipGet (genIpNetmaskMap m ps) (x.Ip &&& 0xffff0000)) := by
    intro x hx
    rw [hpost]
    exact refinePass_sat _ _ hInvSeed x hx
  have hrefnoop : refinePass (makeIpNetmaskMap (genIpNetmaskMap m ps)) (ps.flatMap (·.Ips))
      = makeIpNetmaskMap (genIpNetmaskMap m ps) := by
    apply refinePass_noop
    intro x hx hcontra
    simp only [hmk] at hcontra
    exact absurd hcontra (not_lt.mpr (hrefsat x hx))
  calc ipGet (genIpNetmaskMap (genIpNetmaskMap m ps) ps) k
      = ipGet (refinePass (seedPass (makeIpNetmaskMap (genIpNetmaskMap m ps))
          (ps.flatMap (·.Ips))) (ps.flatMap (·.Ips))) k := by
        rw [genIpNetmaskMap_eq_passes]
    _ = ipGet (genIpNetmaskMap m ps) k := by rw [hseednoop, hrefnoop, hmk]

/-- Witness for C7's amended claim on a concrete reachable table. -/
theorem c7_genIpNetmaskMap_idempotent_witness :
    ipGet (genIpNetmaskMap (genIpNetmaskMap [] [⟨0, [⟨0x0a000001, 24, 0⟩], 0, 0⟩])
        [⟨0, [⟨0x0a000001, 24, 0⟩], 0, 0⟩]) 0x0a000000
      = ipGet (genIpNetmaskMap [] [⟨0, [⟨0x0a000001, 24, 0⟩], 0, 0⟩]) 0x0a000000 :=
  c7_genIpNetmaskMap_idempotent [] [⟨0, [⟨0x0a000001, 24, 0⟩], 0, 0⟩]
    ReachableIpMap.empty 0x0a000000


/-! ## Lookup-key normalization lemmas -/

lemma getFastInterestKeys_fields (l : PolicyLabel) (q : LookupKey) :
    (getFastInterestKeys l q).Timestamp = q.Timestamp ∧
    (getFastInterestKeys l q).SrcMac = q.SrcMac ∧
    (getFastInterestKeys l q).DstMac = q.DstMac ∧
    (getFastInterestKeys l q).SrcIp = q.SrcIp ∧
    (getFastInterestKeys l q).DstIp = q.DstIp ∧
    (getFastInterestKeys l q).Vlan = q.Vlan ∧
    (getFastInterestKeys l q).Tap = q.Tap ∧
    (getFastInterestKeys l q).FastIndex = q.FastIndex ∧
    (getFastInterestKeys l q).SrcGroupIds = q.SrcGroupIds ∧
    (getFastInterestKeys l q).DstGroupIds = q.DstGroupIds := by
  unfold getFastInterestKeys
  dsimp only
  split <;> split <;> split <;> simp

lemma generateInterestKeys_fields (l : PolicyLabel) (e : EndpointData) (q : LookupKey) :
    (generateInterestKeys l e q).Timestamp = q.Timestamp ∧
    (generateInterestKeys l e q).SrcMac = q.SrcMac ∧
    (generateInterestKeys l e q).DstMac = q.DstMac ∧
    (generateInterestKeys l e q).SrcIp = q.SrcIp ∧
    (generateInterestKeys l e q).DstIp = q.DstIp ∧
    (generateInterestKeys l e q).Vlan = q.Vlan ∧
    (generateInterestKeys l e q).Tap = q.Tap ∧
    (generateInterestKeys l e q).FastIndex = q.FastIndex := by
  unfold generateInterestKeys
  dsimp only
  have h := getFastInterestKeys_fields l
    { q with
      SrcGroupIds := q.SrcGroupIds ++ e.SrcInfo.GroupIds.filter (l.InterestGroupMaps q.Tap)
        ++ (if e.SrcInfo.GroupIds.any
              (fun id => l.InterestGroupMaps q.Tap id && id == ANY_GROUP) then []
            else [ANY_GROUP])
      DstGroupIds := q.DstGroupIds ++ e.DstInfo.GroupIds.filter (l.InterestGroupMaps q.Tap)
        ++ (if e.DstInfo.GroupIds.any
              (fun id => l.InterestGroupMaps q.Tap id && id == ANY_GROUP) then []
            else [ANY_GROUP]) }
  exact ⟨h.1, h.2.1, h.2.2.1, h.2.2.2.1, h.2.2.2.2.1, h.2.2.2.2.2.1, h.2.2.2.2.2.2.1,
    h.2.2.2.2.2.2.2.1⟩

lemma getFastInterestKeys_idem (l : PolicyLabel) (q : LookupKey) :
    getFastInterestKeys l (getFastInterestKeys l q) = getFastInterestKeys l q := by
  unfold getFastInterestKeys
  dsimp only
  by_cases h1 : l.InterestPortMaps q.Tap q.SrcPort <;>
    by_cases h2 : l.InterestPortMaps q.Tap q.DstPort <;>
    by_cases h3 : l.InterestProtoMaps q.Tap q.Proto <;>
    by_cases h4 : l.InterestPortMaps q.Tap ANY_PORT <;>
    by_cases h5 : l.InterestProtoMaps q.Tap ANY_PROTO <;>
    simp [h1, h2, h3, h4, h5]

/-! ## Direction-tag lemmas for the search folds -/

lemma setDir_eq_self (d : DirectionType) (a : AclAction) (h : a.direction = d) :
    setDir d a = a := by
  cases a
  simp only at h
  simp [setDir, h]

lemma map_setDir_eq (d : DirectionType) (acts : List AclAction)
    (h : ∀ a ∈ acts, a.direction = d) : acts.map (setDir d) = acts := by
  induction acts with
  | nil => rfl
  | cons a rest ih =>
    rw [List.map_cons, setDir_eq_self d a (h a (List.mem_cons_self a rest)),
      ih (fun b hb => h b (List.mem_cons_of_mem a hb))]

lemma portSearch_dir (g : Nat → Option PolicyData) (keys : List Nat) (d : DirectionType) :
    ∀ a ∈ (portSearch g keys d).1.AclActions, a.direction = d := by
  unfold portSearch
  suffices h : ∀ acc : PolicyData × Bool, (∀ a ∈ acc.1.AclActions, a.direction = d) →
      ∀ a ∈ (keys.foldl (fun (acc : PolicyData × Bool) key =>
        match g key with
        | some policy => (acc.1.MergeDir policy.AclActions policy.ACLID d, true)
        | none => acc) acc).1.AclActions, a.direction = d by
    exact h (emptyPolicy, false) (by simp [emptyPolicy])
  induction keys with
  | nil => intro acc hacc; exact hacc
  | cons k rest ih =>
    intro acc hacc
    rw [List.foldl_cons]
    cases hg : g k with
    | none => exact ih acc hacc
    | some policy =>
      refine ih _ ?_
      intro a ha
      simp only [PolicyData.MergeDir, List.mem_append] at ha
      rcases ha with ha | ha
      · exact hacc a ha
      · obtain ⟨b, _, rfl⟩ := List.mem_map.mp ha
        rfl

namespace Lru

variable {α β : Type}

lemma maxEntries_add (c : Lru α) (k : Nat) (v : α) : (c.add k v).MaxEntries = c.MaxEntries := by
  unfold add
  split
  · rfl
  · rfl

lemma maxEntries_adjust (c : Lru α) (k : Nat) (fresh : α) (cr : Bool) (f : α → α × β) :
    ((c.adjust k fresh cr f).2).MaxEntries = c.MaxEntries := by
  unfold adjust
  cases hfind : c.entries.find? (fun p => p.1 == k) with
  | some p => rfl
  | none =>
    dsimp only
    split
    · exact maxEntries_add c k _
    · rfl

lemma find?_implies {P : α → Prop} (c : Lru α) (k : Nat) (v : α) (h : c.find? k = some v)
    (hall : ∀ kv ∈ c.entries, P kv.2) : P v := by
  unfold find? at h
  cases hfind : c.entries.find? (fun p => p.1 == k) with
  | none => rw [hfind] at h; simp at h
  | some p =>
    rw [hfind] at h
    obtain rfl : p.2 = v := by simpa using h
    exact hall p (List.mem_of_find?_eq_some hfind)

lemma add_head_two_swap (c : Lru α) (k1 k2 : Nat) (w v1 v2 : α) (rest : List (Nat × α))
    (hc : c.entries = (k2, v2) :: (k1, v1) :: rest) (hne : k1 ≠ k2) :
    (c.add k1 w).entries = (k1, w) :: (k2, v2) :: rest := by
  unfold add
  rw [hc]
  rw [List.find?_cons_of_neg _ (by simp; exact Ne.symm hne), List.find?_cons_of_pos _ (by simp)]
  simp only [Option.isSome_some, if_true]
  rw [List.eraseP_cons_of_neg (by simp; exact Ne.symm hne), List.eraseP_cons_of_pos (by simp)]

end Lru


/-! ## Equations for the seeding mutations -/

lemma vlanSeedForward_eq (e : EndpointData) (p : LookupKey) (pol : PolicyData)
    (M : VlanAndPortMap) :
    (vlanSeedForward e p pol M).1 =
      { M with
        macEpcMap := (M.macEpcMap.add p.SrcMac (epcId e.SrcInfo)).add p.DstMac (epcId e.DstInfo)
        vlanPolicyMap := M.vlanPolicyMap.add
          (fastVlanLookupKey p FORWARD (epcId e.SrcInfo) (epcId e.DstInfo))
          ⟨e, emptyPolicy.Merge pol.AclActions pol.ACLID, p.Timestamp⟩ } := by
  simp [vlanSeedForward, addEpcMap, fastVlanLookupKey]

lemma vlanSeedBackward_eq (e : EndpointData) (p : LookupKey) (pol : PolicyData)
    (M : VlanAndPortMap) :
    (vlanSeedBackward e p pol M).1 =
      { M with
        macEpcMap := (M.macEpcMap.add p.SrcMac (epcId e.SrcInfo)).add p.DstMac (epcId e.DstInfo)
        vlanPolicyMap := M.vlanPolicyMap.add
          (fastVlanLookupKey p BACKWARD (epcId e.SrcInfo) (epcId e.DstInfo))
          ⟨⟨e.DstInfo, e.SrcInfo⟩, emptyPolicy.MergeAndSwapDirection pol.AclActions pol.ACLID,
            p.Timestamp⟩ } := by
  simp [vlanSeedBackward, addEpcMap, fastVlanLookupKey]

lemma portSeed_forward_eq (e : EndpointData) (p : LookupKey) (pol : PolicyData)
    (M : VlanAndPortMap) :
    (portSeed e p pol FORWARD M).1 =
      { M with
        macEpcMap := (M.macEpcMap.add p.SrcMac (epcId e.SrcInfo)).add p.DstMac (epcId e.DstInfo)
        portPolicyMap := M.portPolicyMap.add
          (fastPortLookupKey p FORWARD (epcId e.SrcInfo) (epcId e.DstInfo))
          ⟨e, emptyPolicy.Merge pol.AclActions pol.ACLID, p.Timestamp⟩ } := by
  simp [portSeed, addEpcMap, fastPortLookupKey]

lemma portSeed_backward_eq (e : EndpointData) (p : LookupKey) (pol : PolicyData)
    (M : VlanAndPortMap) :
    (portSeed e p pol BACKWARD M).1 =
      { M with
        macEpcMap := (M.macEpcMap.add p.SrcMac (epcId e.SrcInfo)).add p.DstMac (epcId e.DstInfo)
        portPolicyMap := M.portPolicyMap.add
          (fastPortLookupKey p BACKWARD (epcId e.SrcInfo) (epcId e.DstInfo))
          ⟨⟨e.DstInfo, e.SrcInfo⟩, emptyPolicy.Merge pol.AclActions pol.ACLID, p.Timestamp⟩ } := by
  simp [portSeed, addEpcMap, fastPortLookupKey]

/-! ## MAC/EPC sub-map facts after seeding -/

lemma addEpc_two_facts (cm : Lru Nat) (src dst se de : Nat) (hne : src ≠ dst)
    (hmax : cm.MaxEntries = 0 ∨ 2 ≤ cm.MaxEntries) :
    (∃ rest, ((cm.add src se).add dst de).entries = (dst, de) :: (src, se) :: rest)
    ∧ ((cm.add src se).add dst de).MaxEntries = cm.MaxEntries := by
  obtain ⟨rest, hr⟩ := Lru.entries_add_head cm src se
  have hmax1 : (cm.add src se).MaxEntries = cm.MaxEntries := Lru.maxEntries_add cm src se
  obtain ⟨rest2, hr2⟩ := Lru.entries_add_head_two (cm.add src se) src dst se de rest hr
    hne (hmax1 ▸ hmax)
  exact ⟨⟨rest2, hr2⟩, by rw [Lru.maxEntries_add, hmax1]⟩

lemma addEpc_two_swap (cm : Lru Nat) (src dst se de : Nat) (rest : List (Nat × Nat))
    (hc : cm.entries = (dst, de) :: (src, se) :: rest) (hne : src ≠ dst) :
    ((cm.add src se).add dst de).entries = (dst, de) :: (src, se) :: rest := by
  have h1 : (cm.add src se).entries = (src, se) :: (dst, de) :: rest :=
    Lru.add_head_two_swap cm src dst se se de rest hc hne
  exact Lru.add_head_two_swap (cm.add src se) dst src de de se rest h1 (Ne.symm hne)


/-! ## Seeded-map content facts -/

lemma seededF_facts_vlan (e : EndpointData) (p : LookupKey) (polV polF : PolicyData)
    (M0 : VlanAndPortMap) (hGood : M0.macEpcMap.MaxEntries = 0 ∨ 2 ≤ M0.macEpcMap.MaxEntries)
    (hmac : p.SrcMac ≠ p.DstMac) :
    (∃ rest, ((portSeed e p polF FORWARD (vlanSeedForward e p polV M0).1).1).macEpcMap.entries
        = (p.DstMac, epcId e.DstInfo) :: (p.SrcMac, epcId e.SrcInfo) :: rest)
    ∧ ((portSeed e p polF FORWARD (vlanSeedForward e p polV M0).1).1).portPolicyMap.find?
        (fastPortLookupKey p FORWARD (epcId e.SrcInfo) (epcId e.DstInfo))
        = some ⟨e, emptyPolicy.Merge polF.AclActions polF.ACLID, p.Timestamp⟩
    ∧ ((portSeed e p polF FORWARD (vlanSeedForward e p polV M0).1).1).vlanPolicyMap.find?
        (fastVlanLookupKey p FORWARD (epcId e.SrcInfo) (epcId e.DstInfo))
        = some ⟨e, emptyPolicy.Merge polV.AclActions polV.ACLID, p.Timestamp⟩ := by
  rw [vlanSeedForward_eq, portSeed_forward_eq]
  refine ⟨?_, Lru.find?_add_self _ _ _, Lru.find?_add_self _ _ _⟩
  obtain ⟨⟨rest, hr⟩, _⟩ := addEpc_two_facts M0.macEpcMap p.SrcMac p.DstMac
    (epcId e.SrcInfo) (epcId e.DstInfo) hmac hGood
  exact ⟨rest, addEpc_two_swap _ _ _ _ _ rest hr hmac⟩

lemma seededB_facts_vlan (e : EndpointData) (p : LookupKey) (polV polB : PolicyData)
    (M0 : VlanAndPortMap) (hGood : M0.macEpcMap.MaxEntries = 0 ∨ 2 ≤ M0.macEpcMap.MaxEntries)
    (hmac : p.SrcMac ≠ p.DstMac) :
    (∃ rest, ((portSeed e p polB BACKWARD (vlanSeedBackward e p polV M0).1).1).macEpcMap.entries
        = (p.DstMac, epcId e.DstInfo) :: (p.SrcMac, epcId e.SrcInfo) :: rest)
    ∧ ((portSeed e p polB BACKWARD (vlanSeedBackward e p polV M0).1).1).portPolicyMap.find?
        (fastPortLookupKey p BACKWARD (epcId e.SrcInfo) (epcId e.DstInfo))
        = some ⟨⟨e.DstInfo, e.SrcInfo⟩, emptyPolicy.Merge polB.AclActions polB.ACLID,
            p.Timestamp⟩ := by
  rw [vlanSeedBackward_eq, portSeed_backward_eq]
  refine ⟨?_, Lru.find?_add_self _ _ _⟩
  obtain ⟨⟨rest, hr⟩, _⟩ := addEpc_two_facts M0.macEpcMap p.SrcMac p.DstMac
    (epcId e.SrcInfo) (epcId e.DstInfo) hmac hGood
  exact ⟨rest, addEpc_two_swap _ _ _ _ _ rest hr hmac⟩

lemma seededF_facts_novlan (e : EndpointData) (p : LookupKey) (polF : PolicyData)
    (M0 : VlanAndPortMap) (hGood : M0.macEpcMap.MaxEntries = 0 ∨ 2 ≤ M0.macEpcMap.MaxEntries)
    (hmac : p.SrcMac ≠ p.DstMac) :
    (∃ rest, ((portSeed e p polF FORWARD M0).1).macEpcMap.entries
        = (p.DstMac, epcId e.DstInfo) :: (p.SrcMac, epcId e.SrcInfo) :: rest)
    ∧ ((portSeed e p polF FORWARD M0).1).portPolicyMap.find?
        (fastPortLookupKey p FORWARD (epcId e.SrcInfo) (epcId e.DstInfo))
        = some ⟨e, emptyPolicy.Merge polF.AclActions polF.ACLID, p.Timestamp⟩ := by
  rw [portSeed_forward_eq]
  refine ⟨?_, Lru.find?_add_self _ _ _⟩
  exact (addEpc_two_facts M0.macEpcMap p.SrcMac p.DstMac
    (epcId e.SrcInfo) (epcId e.DstInfo) hmac hGood).1

lemma seededB_facts_novlan (e : EndpointData) (p : LookupKey) (polB : PolicyData)
    (M0 : VlanAndPortMap) (hGood : M0.macEpcMap.MaxEntries = 0 ∨ 2 ≤ M0.macEpcMap.MaxEntries)
    (hmac : p.SrcMac ≠ p.DstMac) :
    (∃ rest, ((portSeed e p polB BACKWARD M0).1).macEpcMap.entries
        = (p.DstMac, epcId e.DstInfo) :: (p.SrcMac, epcId e.SrcInfo) :: rest)
    ∧ ((portSeed e p polB BACKWARD M0).1).portPolicyMap.find?
        (fastPortLookupKey p BACKWARD (epcId e.SrcInfo) (epcId e.DstInfo))
        = some ⟨⟨e.DstInfo, e.SrcInfo⟩, emptyPolicy.Merge polB.AclActions polB.ACLID,
            p.Timestamp⟩ := by
  rw [portSeed_backward_eq]
  refine ⟨?_, Lru.find?_add_self _ _ _⟩
  exact (addEpc_two_facts M0.macEpcMap p.SrcMac p.DstMac
    (epcId e.SrcInfo) (epcId e.DstInfo) hmac hGood).1

/-! ## Good caches: fast-path maps with usable MAC sub-LRU capacity -/


lemma goodMap_new : GoodMap newVlanAndPortMap := by
  right
  norm_num [newVlanAndPortMap, Lru.new, FAST_PATH_EPC_MAP_SIZE_LIMIT]

lemma goodMap_vlanSeedForward (e : EndpointData) (p : LookupKey) (pol : PolicyData)
    (M : VlanAndPortMap) (h : GoodMap M) : GoodMap (vlanSeedForward e p pol M).1 := by
  rw [vlanSeedForward_eq]
  unfold GoodMap at h ⊢
  rwa [Lru.maxEntries_add, Lru.maxEntries_add]

lemma goodMap_vlanSeedBackward (e : EndpointData) (p : LookupKey) (pol : PolicyData)
    (M : VlanAndPortMap) (h : GoodMap M) : GoodMap (vlanSeedBackward e p pol M).1 := by
  rw [vlanSeedBackward_eq]
  unfold GoodMap at h ⊢
  rwa [Lru.maxEntries_add, Lru.maxEntries_add]

lemma goodMap_portSeed (e : EndpointData) (p : LookupKey) (pol : PolicyData)
    (d : DirectionType) (M : VlanAndPortMap) (h : GoodMap M) : GoodMap (portSeed e p pol d M).1 := by
  cases d
  · rw [portSeed_forward_eq]
    unfold GoodMap at h ⊢
    rwa [Lru.maxEntries_add, Lru.maxEntries_add]
  · rw [portSeed_backward_eq]
    unfold GoodMap at h ⊢
    rwa [Lru.maxEntries_add, Lru.maxEntries_add]


lemma Lru.mem_add {α : Type} (c : Lru α) (k : Nat) (v : α) :
    ∀ kv ∈ (c.add k v).entries, kv = (k, v) ∨ kv ∈ c.entries := by
  intro kv hkv
  unfold Lru.add at hkv
  split at hkv
  · rcases List.mem_cons.mp hkv with rfl | h
    · exact Or.inl rfl
    · exact Or.inr (List.mem_of_mem_eraseP h)
  · dsimp only at hkv
    split at hkv
    · have : kv ∈ (k, v) :: c.entries := (List.dropLast_sublist _).mem hkv
      rcases List.mem_cons.mp this with rfl | h
      · exact Or.inl rfl
      · exact Or.inr h
    · rcases List.mem_cons.mp hkv with rfl | h
      · exact Or.inl rfl
      · exact Or.inr h

lemma goodCache_add (c : Lru VlanAndPortMap) (k : Nat) (v : VlanAndPortMap)
    (hc : GoodCache c) (hv : GoodMap v) : GoodCache (c.add k v) := by
  intro kv hkv
  rcases Lru.mem_add c k v kv hkv with rfl | h
  · exact hv
  · exact hc kv h

lemma goodCache_adjust {β : Type} (c : Lru VlanAndPortMap) (k : Nat)
    (fresh : VlanAndPortMap) (cr : Bool) (f : VlanAndPortMap → VlanAndPortMap × β)
    (hc : GoodCache c) (hfresh : GoodMap fresh)
    (hf : ∀ M, GoodMap M → GoodMap (f M).1) : GoodCache (c.adjust k fresh cr f).2 := by
  unfold Lru.adjust
  cases hfind : c.entries.find? (fun p => p.1 == k) with
  | some p =>
    intro kv hkv
    rcases List.mem_cons.mp hkv with rfl | h
    · exact hf p.2 (hc p (List.mem_of_find?_eq_some hfind))
    · exact hc kv (List.mem_of_mem_eraseP h)
  | none =>
    dsimp only
    split
    · exact goodCache_add c k _ hc (hf fresh hfresh)
    · exact hc


/-! ## Cache-chain helper lemmas -/

lemma updFastMaps_self (l : PolicyLabel) (q t : Nat) (c : Lru VlanAndPortMap) :
    (updFastMaps l q t c).FastPolicyMaps q t = c := by
  simp [updFastMaps]

lemma getVlanAndPortMapKey_congr (l1 l2 : PolicyLabel) (p1 p2 : LookupKey)
    (d : DirectionType) (hm : l1.IpNetmaskMap = l2.IpNetmaskMap)
    (hs : p1.SrcIp = p2.SrcIp) (hd : p1.DstIp = p2.DstIp) :
    getVlanAndPortMapKey l1 p1 d = getVlanAndPortMapKey l2 p2 d := by
  unfold getVlanAndPortMapKey
  rw [hm, hs, hd]

lemma Lru.adjust_hit_first {α β : Type} (c : Lru α) (k k2 : Nat) (v v2 : α)
    (r : List (Nat × α)) (hent : c.entries = (k, v) :: (k2, v2) :: r)
    (fresh : α) (cr : Bool) (f : α → α × β) :
    c.adjust k fresh cr f
      = (some (f v).2, { c with entries := (k, (f v).1) :: (k2, v2) :: r }) := by
  have hf : c.find? k = some v := by
    unfold Lru.find?
    rw [hent, List.find?_cons_of_pos _ (by simp)]
    rfl
  rw [Lru.adjust_eq_of_find? c k fresh cr f v hf]
  have he : c.entries.eraseP (fun q => q.1 == k) = (k2, v2) :: r := by
    rw [hent, List.eraseP_cons_of_pos (by simp)]
  rw [he]

lemma Lru.adjust_hit_second {α β : Type} (c : Lru α) (k1 k2 : Nat) (v1 v2 : α)
    (r : List (Nat × α)) (hent : c.entries = (k2, v2) :: (k1, v1) :: r) (hne : k1 ≠ k2)
    (fresh : α) (cr : Bool) (f : α → α × β) :
    c.adjust k1 fresh cr f
      = (some (f v1).2,
         { c with entries := (k1, (f v1).1) :: (k2, v2) :: r }) := by
  have hf : c.find? k1 = some v1 := (Lru.find?_of_entries_head_two c k1 k2 v1 v2 r hent hne).1
  rw [Lru.adjust_eq_of_find? c k1 fresh cr f v1 hf]
  have he : c.entries.eraseP (fun q => q.1 == k1) = (k2, v2) :: r := by
    rw [hent, List.eraseP_cons_of_neg (by simp [Ne.symm hne]),
      List.eraseP_cons_of_pos (by simp)]
  rw [he]

lemma seedAdjust_facts (c : Lru VlanAndPortMap) (k : Nat)
    (f : VlanAndPortMap → VlanAndPortMap × Unit)
    (hgood : GoodCache c) (hf : ∀ M, GoodMap M → GoodMap (f M).1) :
    ∃ M0 r, GoodMap M0
      ∧ ((c.adjust k newVlanAndPortMap true f).2).entries = (k, (f M0).1) :: r
      ∧ GoodCache (c.adjust k newVlanAndPortMap true f).2
      ∧ ((c.adjust k newVlanAndPortMap true f).2).MaxEntries = c.MaxEntries := by
  have hgc : GoodCache (c.adjust k newVlanAndPortMap true f).2 :=
    goodCache_adjust c k newVlanAndPortMap true f hgood goodMap_new hf
  have hmax := Lru.maxEntries_adjust c k newVlanAndPortMap true f
  cases hfind : c.find? k with
  | some M0 =>
    refine ⟨M0, c.entries.eraseP (fun q => q.1 == k),
      Lru.find?_implies c k M0 hfind hgood, ?_, hgc, hmax⟩
    rw [Lru.adjust_eq_of_find? c k newVlanAndPortMap true f M0 hfind]
  | none =>
    obtain ⟨r, hr⟩ := Lru.entries_add_head c k ((f newVlanAndPortMap).1)
    refine ⟨newVlanAndPortMap, r, goodMap_new, ?_, hgc, hmax⟩
    rw [Lru.adjust_miss_create c k newVlanAndPortMap f hfind]
    exact hr

lemma seedAdjust_facts_head (c : Lru VlanAndPortMap) (k k' : Nat) (Mh : VlanAndPortMap)
    (r : List (Nat × VlanAndPortMap)) (hent : c.entries = (k', Mh) :: r) (hne : k' ≠ k)
    (hmax2 : c.MaxEntries = 0 ∨ 2 ≤ c.MaxEntries)
    (f : VlanAndPortMap → VlanAndPortMap × Unit)
    (hgood : GoodCache c) (hf : ∀ M, GoodMap M → GoodMap (f M).1) :
    ∃ M0 r2, GoodMap M0
      ∧ ((c.adjust k newVlanAndPortMap true f).2).entries = (k, (f M0).1) :: (k', Mh) :: r2
      ∧ GoodCache (c.adjust k newVlanAndPortMap true f).2
      ∧ ((c.adjust k newVlanAndPortMap true f).2).MaxEntries = c.MaxEntries := by
  have hgc : GoodCache (c.adjust k newVlanAndPortMap true f).2 :=
    goodCache_adjust c k newVlanAndPortMap true f hgood goodMap_new hf
  have hmax := Lru.maxEntries_adjust c k newVlanAndPortMap true f
  cases hfind : c.find? k with
  | some M0 =>
    refine ⟨M0, r.eraseP (fun q => q.1 == k),
      Lru.find?_implies c k M0 hfind hgood, ?_, hgc, hmax⟩
    rw [Lru.adjust_eq_of_find? c k newVlanAndPortMap true f M0 hfind]
    show { c with
        entries := (k, (f M0).1) :: c.entries.eraseP (fun q => q.1 == k) }.entries = _
    dsimp only
    rw [hent, List.eraseP_cons_of_neg (by simp [hne])]
  | none =>
    obtain ⟨r2, hr2⟩ := Lru.entries_add_head_two c k' k Mh ((f newVlanAndPortMap).1) r
      hent hne hmax2
    refine ⟨newVlanAndPortMap, r2, goodMap_new, ?_, hgc, hmax⟩
    rw [Lru.adjust_miss_create c k newVlanAndPortMap f hfind]
    exact hr2

lemma macEpc_two_get (cm : Lru Nat) (src dst se de : Nat) (r : List (Nat × Nat))
    (hent : cm.entries = (dst, de) :: (src, se) :: r) (hne : src ≠ dst) :
    ∃ m1 m2, cm.get src = (some se, m1) ∧ m1.get dst = (some de, m2)
      ∧ m2.entries = (dst, de) :: (src, se) :: r := by
  have h1 : cm.find? src = some se :=
    (Lru.find?_of_entries_head_two cm src dst se de r hent hne).1
  have hget1 := Lru.get_eq_of_find? cm src se h1
  have hm1 : ({ cm with
      entries := (src, se) :: cm.entries.eraseP (fun q => q.1 == src) } : Lru Nat).entries
      = (src, se) :: (dst, de) :: r := by
    dsimp only
    rw [hent, List.eraseP_cons_of_neg (by simp [Ne.symm hne]),
      List.eraseP_cons_of_pos (by simp)]
  have h2 : ({ cm with
      entries := (src, se) :: cm.entries.eraseP (fun q => q.1 == src) } : Lru Nat).find? dst
      = some de :=
    (Lru.find?_of_entries_head_two _ dst src de se r hm1 (Ne.symm hne)).1
  have hget2 := Lru.get_eq_of_find? _ dst de h2
  refine ⟨_, _, hget1, hget2, ?_⟩
  dsimp only
  have hinner : List.eraseP (fun q => q.1 == src) cm.entries = (dst, de) :: r := by
    rw [hent, List.eraseP_cons_of_neg (by simp [hne, Ne.symm hne]),
      List.eraseP_cons_of_pos (by simp)]
  rw [hinner, List.eraseP_cons_of_neg (by simp [hne, Ne.symm hne]),
    List.eraseP_cons_of_pos (by simp)]

lemma getFastInterestKeys_ports (l : PolicyLabel) (q : LookupKey) :
    (getFastInterestKeys l q).SrcPort
        = (if l.InterestPortMaps q.Tap q.SrcPort then q.SrcPort else ANY_PORT)
    ∧ (getFastInterestKeys l q).DstPort
        = (if l.InterestPortMaps q.Tap q.DstPort then q.DstPort else ANY_PORT)
    ∧ (getFastInterestKeys l q).Proto
        = (if l.InterestProtoMaps q.Tap q.Proto then q.Proto else ANY_PROTO) := by
  unfold getFastInterestKeys
  dsimp only
  split <;> split <;> split <;> simp_all


lemma getVlanAndPortMapKey_updFastMaps (l : PolicyLabel) (q t : Nat)
    (c : Lru VlanAndPortMap) (p : LookupKey) (d : DirectionType) :
    getVlanAndPortMapKey (updFastMaps l q t c) p d = getVlanAndPortMapKey l p d := rfl

/-- The four seeding adjusts of a `GetPolicyByFirstPath` call with
`vlan > 0`, on the direction cache. -/
lemma chainFour (c0 : Lru VlanAndPortMap) (kF kB : Nat) (e : EndpointData) (p' : LookupKey)
    (V F B : PolicyData) (hne : kF ≠ kB)
    (hmax : c0.MaxEntries = 0 ∨ 2 ≤ c0.MaxEntries) (hgood : GoodCache c0)
    (hmac : p'.SrcMac ≠ p'.DstMac) :
    ∃ M3 M4 rest,
      (((((c0.adjust kF newVlanAndPortMap true (vlanSeedForward e p' V)).2.adjust
          kB newVlanAndPortMap true (vlanSeedBackward e p' V)).2.adjust
          kF newVlanAndPortMap true (portSeed e p' F FORWARD)).2.adjust
          kB newVlanAndPortMap true (portSeed e p' B BACKWARD)).2).entries
        = (kB, M4) :: (kF, M3) :: rest
      ∧ (∃ r3, M3.macEpcMap.entries
          = (p'.DstMac, epcId e.DstInfo) :: (p'.SrcMac, epcId e.SrcInfo) :: r3)
      ∧ M3.portPolicyMap.find?
          (fastPortLookupKey p' FORWARD (epcId e.SrcInfo) (epcId e.DstInfo))
          = some ⟨e, emptyPolicy.Merge F.AclActions F.ACLID, p'.Timestamp⟩
      ∧ M3.vlanPolicyMap.find?
          (fastVlanLookupKey p' FORWARD (epcId e.SrcInfo) (epcId e.DstInfo))
          = some ⟨e, emptyPolicy.Merge V.AclActions V.ACLID, p'.Timestamp⟩
      ∧ (∃ r4, M4.macEpcMap.entries
          = (p'.DstMac, epcId e.DstInfo) :: (p'.SrcMac, epcId e.SrcInfo) :: r4)
      ∧ M4.portPolicyMap.find?
          (fastPortLookupKey p' BACKWARD (epcId e.SrcInfo) (epcId e.DstInfo))
          = some ⟨⟨e.DstInfo, e.SrcInfo⟩, emptyPolicy.Merge B.AclActions B.ACLID,
              p'.Timestamp⟩ := by
  obtain ⟨M0F, r1, hGF, hent1, hgood1, hmax1⟩ :=
    seedAdjust_facts c0 kF (vlanSeedForward e p' V) hgood (goodMap_vlanSeedForward e p' V)
  obtain ⟨M0B, r2, hGB, hent2, hgood2, hmax2⟩ :=
    seedAdjust_facts_head _ kB kF _ r1 hent1 hne (by rw [hmax1]; exact hmax)
      (vlanSeedBackward e p' V) hgood1 (goodMap_vlanSeedBackward e p' V)
  rw [Lru.adjust_hit_second _ kF kB _ _ r2 hent2 hne newVlanAndPortMap true
    (portSeed e p' F FORWARD)]
  rw [Lru.adjust_hit_second _ kB kF _ _ r2 rfl (Ne.symm hne) newVlanAndPortMap true
    (portSeed e p' B BACKWARD)]
  obtain ⟨hmac3, hport3, hvlan3⟩ := seededF_facts_vlan e p' V F M0F hGF hmac
  obtain ⟨hmac4, hport4⟩ := seededB_facts_vlan e p' V B M0B hGB hmac
  exact ⟨_, _, r2, rfl, hmac3, hport3, hvlan3, hmac4, hport4⟩

/-- The two seeding adjusts of a `GetPolicyByFirstPath` call with
`vlan = 0`. -/
lemma chainTwo (c0 : Lru VlanAndPortMap) (kF kB : Nat) (e : EndpointData) (p' : LookupKey)
    (F B : PolicyData) (hne : kF ≠ kB)
    (hmax : c0.MaxEntries = 0 ∨ 2 ≤ c0.MaxEntries) (hgood : GoodCache c0)
    (hmac : p'.SrcMac ≠ p'.DstMac) :
    ∃ M3 M4 rest,
      (((c0.adjust kF newVlanAndPortMap true (portSeed e p' F FORWARD)).2.adjust
          kB newVlanAndPortMap true (portSeed e p' B BACKWARD)).2).entries
        = (kB, M4) :: (kF, M3) :: rest
      ∧ (∃ r3, M3.macEpcMap.entries
          = (p'.DstMac, epcId e.DstInfo) :: (p'.SrcMac, epcId e.SrcInfo) :: r3)
      ∧ M3.portPolicyMap.find?
          (fastPortLookupKey p' FORWARD (epcId e.SrcInfo) (epcId e.DstInfo))
          = some ⟨e, emptyPolicy.Merge F.AclActions F.ACLID, p'.Timestamp⟩
      ∧ (∃ r4, M4.macEpcMap.entries
          = (p'.DstMac, epcId e.DstInfo) :: (p'.SrcMac, epcId e.SrcInfo) :: r4)
      ∧ M4.portPolicyMap.find?
          (fastPortLookupKey p' BACKWARD (epcId e.SrcInfo) (epcId e.DstInfo))
          = some ⟨⟨e.DstInfo, e.SrcInfo⟩, emptyPolicy.Merge B.AclActions B.ACLID,
              p'.Timestamp⟩ := by
  obtain ⟨M0F, r1, hGF, hent1, hgood1, hmax1⟩ :=
    seedAdjust_facts c0 kF (portSeed e p' F FORWARD) hgood
      (goodMap_portSeed e p' F FORWARD)
  obtain ⟨M0B, r2, hGB, hent2, hgood2, hmax2⟩ :=
    seedAdjust_facts_head _ kB kF _ r1 hent1 hne (by rw [hmax1]; exact hmax)
      (portSeed e p' B BACKWARD) hgood1 (goodMap_portSeed e p' B BACKWARD)
  obtain ⟨hmac3, hport3⟩ := seededF_facts_novlan e p' F M0F hGF hmac
  obtain ⟨hmac4, hport4⟩ := seededB_facts_novlan e p' B M0B hGB hmac
  exact ⟨_, _, r2, hent2, hmac3, hport3, hmac4, hport4⟩

/-- `GetPolicyByFirstPath` only mutates the fast-path caches and the hit
counters, and returns the interest-filtered key. -/
lemma firstPath_frame (l : PolicyLabel) (e : EndpointData) (p : LookupKey) :
    ((GetPolicyByFirstPath l e p).2.2).FastPathDisable = l.FastPathDisable
    ∧ ((GetPolicyByFirstPath l e p).2.2).IpNetmaskMap = l.IpNetmaskMap
    ∧ ((GetPolicyByFirstPath l e p).2.2).InterestPortMaps = l.InterestPortMaps
    ∧ ((GetPolicyByFirstPath l e p).2.2).InterestProtoMaps = l.InterestProtoMaps
    ∧ (GetPolicyByFirstPath l e p).2.1 = generateInterestKeys l e p := by
  unfold GetPolicyByFirstPath addVlanFastPolicy addPortFastPolicy updFastMaps
  dsimp only
  split <;> exact ⟨rfl, rfl, rfl, rfl, rfl⟩


/-- After any `GetPolicyByFirstPath` call the direction cache holds the
backward and forward `VlanAndPortMap`s at its two most recent slots, each
seeded with both MAC→EPC entries, the direction's port policy, and (when
`vlan > 0`) the forward vlan policy. -/
lemma firstPath_cache (l : PolicyLabel) (e : EndpointData) (p p' : LookupKey)
    (hp' : generateInterestKeys l e p = p')
    (hmax : (l.FastPolicyMaps p'.FastIndex p'.Tap).MaxEntries = 0
      ∨ 2 ≤ (l.FastPolicyMaps p'.FastIndex p'.Tap).MaxEntries)
    (hgood : GoodCache (l.FastPolicyMaps p'.FastIndex p'.Tap))
    (hne : getVlanAndPortMapKey l p' FORWARD ≠ getVlanAndPortMapKey l p' BACKWARD)
    (hmac : p'.SrcMac ≠ p'.DstMac) :
    ∃ M3 M4 rest,
      ((((GetPolicyByFirstPath l e p).2.2).FastPolicyMaps p'.FastIndex p'.Tap).entries
        = (getVlanAndPortMapKey l p' BACKWARD, M4)
          :: (getVlanAndPortMapKey l p' FORWARD, M3) :: rest)
      ∧ (∃ r3, M3.macEpcMap.entries
          = (p'.DstMac, epcId e.DstInfo) :: (p'.SrcMac, epcId e.SrcInfo) :: r3)
      ∧ M3.portPolicyMap.find?
          (fastPortLookupKey p' FORWARD (epcId e.SrcInfo) (epcId e.DstInfo))
          = some ⟨e, emptyPolicy.Merge
              (portSearch (l.GroupPortPolicyMaps p'.Tap)
                (generateSearchPortKeys p'.SrcGroupIds p'.DstGroupIds p'.DstPort p'.Proto)
                FORWARD).1.AclActions
              (portSearch (l.GroupPortPolicyMaps p'.Tap)
                (generateSearchPortKeys p'.SrcGroupIds p'.DstGroupIds p'.DstPort p'.Proto)
                FORWARD).1.ACLID, p'.Timestamp⟩
      ∧ (p'.Vlan > 0 → M3.vlanPolicyMap.find?
          (fastVlanLookupKey p' FORWARD (epcId e.SrcInfo) (epcId e.DstInfo))
          = some ⟨e, emptyPolicy.Merge
              (vlanSearch (l.GroupVlanPolicyMaps p'.Tap)
                (generateGroupVlanKeys p'.SrcGroupIds p'.DstGroupIds p'.Vlan)).1.AclActions
              (vlanSearch (l.GroupVlanPolicyMaps p'.Tap)
                (generateGroupVlanKeys p'.SrcGroupIds p'.DstGroupIds p'.Vlan)).1.ACLID,
              p'.Timestamp⟩)
      ∧ (∃ r4, M4.macEpcMap.entries
          = (p'.DstMac, epcId e.DstInfo) :: (p'.SrcMac, epcId e.SrcInfo) :: r4)
      ∧ M4.portPolicyMap.find?
          (fastPortLookupKey p' BACKWARD (epcId e.SrcInfo) (epcId e.DstInfo))
          = some ⟨⟨e.DstInfo, e.SrcInfo⟩, emptyPolicy.Merge
              (portSearch (l.GroupPortPolicyMaps p'.Tap)
                (generateSearchPortKeys p'.DstGroupIds p'.SrcGroupIds p'.SrcPort p'.Proto)
                BACKWARD).1.AclActions
              (portSearch (l.GroupPortPolicyMaps p'.Tap)
                (generateSearchPortKeys p'.DstGroupIds p'.SrcGroupIds p'.SrcPort p'.Proto)
                BACKWARD).1.ACLID, p'.Timestamp⟩ := by
  unfold GetPolicyByFirstPath addVlanFastPolicy addPortFastPolicy
  dsimp only
  rw [hp']
  by_cases hv : p'.Vlan > 0
  · rw [if_pos hv]
    dsimp only
    simp only [getVlanAndPortMapKey_updFastMaps, updFastMaps_self]
    obtain ⟨M3, M4, rest, hent, h1, h2, h3, h4, h5⟩ :=
      chainFour (l.FastPolicyMaps p'.FastIndex p'.Tap)
        (getVlanAndPortMapKey l p' FORWARD) (getVlanAndPortMapKey l p' BACKWARD) e p'
        (vlanSearch (l.GroupVlanPolicyMaps p'.Tap)
          (generateGroupVlanKeys p'.SrcGroupIds p'.DstGroupIds p'.Vlan)).1
        (portSearch (l.GroupPortPolicyMaps p'.Tap)
          (generateSearchPortKeys p'.SrcGroupIds p'.DstGroupIds p'.DstPort p'.Proto)
          FORWARD).1
        (portSearch (l.GroupPortPolicyMaps p'.Tap)
          (generateSearchPortKeys p'.DstGroupIds p'.SrcGroupIds p'.SrcPort p'.Proto)
          BACKWARD).1
        hne hmax hgood hmac
    exact ⟨M3, M4, rest, hent, h1, h2, fun _ => h3, h4, h5⟩
  · rw [if_neg hv]
    dsimp only
    simp only [getVlanAndPortMapKey_updFastMaps, updFastMaps_self]
    obtain ⟨M3, M4, rest, hent, h1, h2, h4, h5⟩ :=
      chainTwo (l.FastPolicyMaps p'.FastIndex p'.Tap)
        (getVlanAndPortMapKey l p' FORWARD) (getVlanAndPortMapKey l p' BACKWARD) e p'
        (portSearch (l.GroupPortPolicyMaps p'.Tap)
          (generateSearchPortKeys p'.SrcGroupIds p'.DstGroupIds p'.DstPort p'.Proto)
          FORWARD).1
        (portSearch (l.GroupPortPolicyMaps p'.Tap)
          (generateSearchPortKeys p'.DstGroupIds p'.SrcGroupIds p'.SrcPort p'.Proto)
          BACKWARD).1
        hne hmax hgood hmac
    exact ⟨M3, M4, rest, hent, h1, h2, fun hvv => absurd hvv hv, h4, h5⟩


/-! ## Evaluating the fast-path direction step on a freshly seeded map -/

lemma fastPathDirStep_forward_vlan (pk : LookupKey) (M : VlanAndPortMap)
    (se de : Nat) (r : List (Nat × Nat)) (eV eF : EndpointData) (PV PF : PolicyData)
    (pol0 : PolicyData) (ep0 : Option EndpointData) (pff pbf vf : Bool)
    (hmac : pk.SrcMac ≠ pk.DstMac)
    (hent : M.macEpcMap.entries = (pk.DstMac, de) :: (pk.SrcMac, se) :: r)
    (hv : pk.Vlan > 0)
    (hvlan : M.vlanPolicyMap.find? (fastVlanLookupKey pk FORWARD se de)
      = some ⟨eV, PV, pk.Timestamp⟩)
    (hport : M.portPolicyMap.find? (fastPortLookupKey pk FORWARD se de)
      = some ⟨eF, PF, pk.Timestamp⟩) :
    (fastPathDirStep pk FORWARD (pol0, ep0, pff, pbf, vf) M).2
      = ((pol0.Merge PV.AclActions PV.ACLID).MergeDir PF.AclActions PF.ACLID FORWARD,
         some eF, true, pbf, true) := by
  obtain ⟨m1, m2, hg1, hg2, hm2⟩ :=
    macEpc_two_get M.macEpcMap pk.SrcMac pk.DstMac se de r hent hmac
  obtain ⟨m1x, m2x, hg1x, hg2x, hm2x⟩ :=
    macEpc_two_get m2 pk.SrcMac pk.DstMac se de r hm2 hmac
  have hvget := Lru.get_eq_of_find? M.vlanPolicyMap _ _ hvlan
  have hpget := Lru.get_eq_of_find? M.portPolicyMap _ _ hport
  simp only [fastVlanLookupKey, fastPortLookupKey] at hvget hpget
  simp only [reduceCtorEq, if_false] at hvget hpget
  unfold fastPathDirStep getFastVlanPolicy getFastPortPolicy
  simp [hv, hg1, hg2, hg1x, hg2x, hvget, hpget]

lemma fastPathDirStep_forward_novlan (pk : LookupKey) (M : VlanAndPortMap)
    (se de : Nat) (r : List (Nat × Nat)) (eF : EndpointData) (PF : PolicyData)
    (pol0 : PolicyData) (ep0 : Option EndpointData) (pff pbf vf : Bool)
    (hmac : pk.SrcMac ≠ pk.DstMac)
    (hent : M.macEpcMap.entries = (pk.DstMac, de) :: (pk.SrcMac, se) :: r)
    (hv : ¬pk.Vlan > 0)
    (hport : M.portPolicyMap.find? (fastPortLookupKey pk FORWARD se de)
      = some ⟨eF, PF, pk.Timestamp⟩) :
    (fastPathDirStep pk FORWARD (pol0, ep0, pff, pbf, vf) M).2
      = (pol0.MergeDir PF.AclActions PF.ACLID FORWARD, some eF, true, pbf, vf) := by
  obtain ⟨m1, m2, hg1, hg2, hm2⟩ :=
    macEpc_two_get M.macEpcMap pk.SrcMac pk.DstMac se de r hent hmac
  have hpget := Lru.get_eq_of_find? M.portPolicyMap _ _ hport
  simp only [fastPortLookupKey] at hpget
  simp only [reduceCtorEq, if_false] at hpget
  unfold fastPathDirStep getFastPortPolicy
  simp [hv, hg1, hg2, hpget]

lemma fastPathDirStep_backward (pk : LookupKey) (M : VlanAndPortMap)
    (se de : Nat) (r : List (Nat × Nat)) (eB : EndpointData) (PB : PolicyData)
    (pol0 : PolicyData) (ep0 : Option EndpointData) (pff pbf vf : Bool)
    (hmac : pk.SrcMac ≠ pk.DstMac)
    (hent : M.macEpcMap.entries = (pk.DstMac, de) :: (pk.SrcMac, se) :: r)
    (hport : M.portPolicyMap.find? (fastPortLookupKey pk BACKWARD se de)
      = some ⟨eB, PB, pk.Timestamp⟩) :
    (fastPathDirStep pk BACKWARD (pol0, ep0, pff, pbf, vf) M).2
      = (pol0.MergeDir PB.AclActions PB.ACLID BACKWARD,
         some ⟨eB.DstInfo, eB.SrcInfo⟩, pff, true, vf) := by
  obtain ⟨m1, m2, hg1, hg2, hm2⟩ :=
    macEpc_two_get M.macEpcMap pk.SrcMac pk.DstMac se de r hent hmac
  have hpget := Lru.get_eq_of_find? M.portPolicyMap _ _ hport
  simp only [fastPortLookupKey, if_pos] at hpget
  unfold fastPathDirStep getFastPortPolicy
  simp [hg1, hg2, hpget]


lemma fastPathStep_hit_second (pk : LookupKey)
    (st : PolicyData × Option EndpointData × Bool × Bool × Bool) (L : PolicyLabel)
    (d : DirectionType) (k2 : Nat) (M2 M1 : VlanAndPortMap)
    (r : List (Nat × VlanAndPortMap))
    (hent : (L.FastPolicyMaps pk.FastIndex pk.Tap).entries
        = (k2, M2) :: (getVlanAndPortMapKey L pk d, M1) :: r)
    (hne : getVlanAndPortMapKey L pk d ≠ k2) :
    fastPathStep pk (st, L) d
      = ((fastPathDirStep pk d st M1).2,
         updFastMaps L pk.FastIndex pk.Tap
           { L.FastPolicyMaps pk.FastIndex pk.Tap with
             entries := (getVlanAndPortMapKey L pk d, (fastPathDirStep pk d st M1).1)
               :: (k2, M2) :: r }) := by
  unfold fastPathStep
  dsimp only
  rw [Lru.adjust_hit_second (L.FastPolicyMaps pk.FastIndex pk.Tap)
    (getVlanAndPortMapKey L pk d) k2 M1 M2 r hent hne newVlanAndPortMap false
    (fun maps => fastPathDirStep pk d st maps)]


lemma updFastMaps_updFastMaps (l : PolicyLabel) (q t : Nat) (c1 c2 : Lru VlanAndPortMap) :
    updFastMaps (updFastMaps l q t c1) q t c2 = updFastMaps l q t c2 := by
  unfold updFastMaps
  dsimp only
  congr 1
  funext q' t'
  by_cases h : q' = q ∧ t' = t
  · rw [if_pos h, if_pos h]
  · rw [if_neg h, if_neg h, if_neg h]

lemma fastPathStep_hit_second_upd (pk : LookupKey)
    (st : PolicyData × Option EndpointData × Bool × Bool × Bool) (L : PolicyLabel)
    (d : DirectionType) (C : Lru VlanAndPortMap) (k2 : Nat) (M2 M1 : VlanAndPortMap)
    (r : List (Nat × VlanAndPortMap))
    (hent : C.entries = (k2, M2) :: (getVlanAndPortMapKey L pk d, M1) :: r)
    (hne : getVlanAndPortMapKey L pk d ≠ k2) :
    fastPathStep pk (st, updFastMaps L pk.FastIndex pk.Tap C) d
      = ((fastPathDirStep pk d st M1).2,
         updFastMaps L pk.FastIndex pk.Tap
           { C with entries := (getVlanAndPortMapKey L pk d, (fastPathDirStep pk d st M1).1)
               :: (k2, M2) :: r }) := by
  rw [fastPathStep_hit_second pk st (updFastMaps L pk.FastIndex pk.Tap C) d k2 M2 M1 r
    (by rw [updFastMaps_self, getVlanAndPortMapKey_updFastMaps]; exact hent)
    (by rw [getVlanAndPortMapKey_updFastMaps]; exact hne),
    updFastMaps_updFastMaps, updFastMaps_self, getVlanAndPortMapKey_updFastMaps]


/-- Evaluation of `GetPolicyByFastPath` on a state whose direction cache
holds freshly seeded forward and backward maps. -/
lemma fastPath_eval (L : PolicyLabel) (p pk : LookupKey)
    (hpk : getFastInterestKeys L p = pk)
    (hdis : L.FastPathDisable = false)
    (M3 M4 : VlanAndPortMap) (rest : List (Nat × VlanAndPortMap))
    (hne : getVlanAndPortMapKey L pk FORWARD ≠ getVlanAndPortMapKey L pk BACKWARD)
    (hent : (L.FastPolicyMaps pk.FastIndex pk.Tap).entries
        = (getVlanAndPortMapKey L pk BACKWARD, M4)
          :: (getVlanAndPortMapKey L pk FORWARD, M3) :: rest)
    (hmac : pk.SrcMac ≠ pk.DstMac)
    (se de : Nat) (r3 r4 : List (Nat × Nat)) (eV eF eB : EndpointData)
    (PV PF PB : PolicyData)
    (hm3 : M3.macEpcMap.entries = (pk.DstMac, de) :: (pk.SrcMac, se) :: r3)
    (hport3 : M3.portPolicyMap.find? (fastPortLookupKey pk FORWARD se de)
        = some ⟨eF, PF, pk.Timestamp⟩)
    (hvlan3 : pk.Vlan > 0 → M3.vlanPolicyMap.find? (fastVlanLookupKey pk FORWARD se de)
        = some ⟨eV, PV, pk.Timestamp⟩)
    (hm4 : M4.macEpcMap.entries = (pk.DstMac, de) :: (pk.SrcMac, se) :: r4)
    (hport4 : M4.portPolicyMap.find? (fastPortLookupKey pk BACKWARD se de)
        = some ⟨eB, PB, pk.Timestamp⟩) :
    (GetPolicyByFastPath L p).1
      = (some ⟨eB.DstInfo, eB.SrcInfo⟩,
         some (((if pk.Vlan > 0 then emptyPolicy.Merge PV.AclActions PV.ACLID
               else emptyPolicy).MergeDir PF.AclActions PF.ACLID FORWARD).MergeDir
             PB.AclActions PB.ACLID BACKWARD)) := by
  unfold GetPolicyByFastPath
  rw [hdis, if_neg Bool.false_ne_true]
  dsimp only
  rw [hpk]
  simp only [List.foldl_cons, List.foldl_nil]
  rw [fastPathStep_hit_second pk (emptyPolicy, none, false, false, true) L FORWARD
    (getVlanAndPortMapKey L pk BACKWARD) M4 M3 rest hent hne]
  by_cases hv : pk.Vlan > 0
  · rw [if_pos hv,
      fastPathDirStep_forward_vlan pk M3 se de r3 eV eF PV PF emptyPolicy none false false true
        hmac hm3 hv (hvlan3 hv) hport3,
      fastPathStep_hit_second_upd pk
        ((emptyPolicy.Merge PV.AclActions PV.ACLID).MergeDir PF.AclActions PF.ACLID FORWARD,
         some eF, true, false, true)
        L BACKWARD
        { L.FastPolicyMaps pk.FastIndex pk.Tap with
          entries := (getVlanAndPortMapKey L pk FORWARD,
              (fastPathDirStep pk FORWARD (emptyPolicy, none, false, false, true) M3).1)
            :: (getVlanAndPortMapKey L pk BACKWARD, M4) :: rest }
        (getVlanAndPortMapKey L pk FORWARD)
        (fastPathDirStep pk FORWARD (emptyPolicy, none, false, false, true) M3).1 M4 rest
        rfl (Ne.symm hne),
      fastPathDirStep_backward pk M4 se de r4 eB PB
        ((emptyPolicy.Merge PV.AclActions PV.ACLID).MergeDir PF.AclActions PF.ACLID FORWARD)
        (some eF) true false true hmac hm4 hport4]
    rfl
  · rw [if_neg hv,
      fastPathDirStep_forward_novlan pk M3 se de r3 eF PF emptyPolicy none false false true
        hmac hm3 hv hport3,
      fastPathStep_hit_second_upd pk
        (emptyPolicy.MergeDir PF.AclActions PF.ACLID FORWARD, some eF, true, false, true)
        L BACKWARD
        { L.FastPolicyMaps pk.FastIndex pk.Tap with
          entries := (getVlanAndPortMapKey L pk FORWARD,
              (fastPathDirStep pk FORWARD (emptyPolicy, none, false, false, true) M3).1)
            :: (getVlanAndPortMapKey L pk BACKWARD, M4) :: rest }
        (getVlanAndPortMapKey L pk FORWARD)
        (fastPathDirStep pk FORWARD (emptyPolicy, none, false, false, true) M3).1 M4 rest
        rfl (Ne.symm hne),
      fastPathDirStep_backward pk M4 se de r4 eB PB
        (emptyPolicy.MergeDir PF.AclActions PF.ACLID FORWARD)
        (some eF) true false true hmac hm4 hport4]
    rfl


lemma fastPortLookupKey_congr (q1 q2 : LookupKey) (d : DirectionType) (se de : Nat)
    (h1 : q1.Proto = q2.Proto) (h2 : q1.SrcPort = q2.SrcPort) (h3 : q1.DstPort = q2.DstPort) :
    fastPortLookupKey q1 d se de = fastPortLookupKey q2 d se de := by
  unfold fastPortLookupKey fastPortKey
  rw [h1, h2, h3]

lemma fastVlanLookupKey_congr (q1 q2 : LookupKey) (d : DirectionType) (se de : Nat)
    (h : q1.Vlan = q2.Vlan) :
    fastVlanLookupKey q1 d se de = fastVlanLookupKey q2 d se de := by
  unfold fastVlanLookupKey fastVlanKey
  rw [h]

/-- The interest filter applied by `GetPolicyByFastPath` agrees with the
one applied by `generateInterestKeys` on the port and proto fields, as
long as the interest maps did not change in between. -/
lemma fastKey_fields_agree (l L : PolicyLabel) (e : EndpointData) (p : LookupKey)
    (hP : L.InterestPortMaps = l.InterestPortMaps)
    (hQ : L.InterestProtoMaps = l.InterestProtoMaps) :
    (getFastInterestKeys L p).SrcPort = (generateInterestKeys l e p).SrcPort
    ∧ (getFastInterestKeys L p).DstPort = (generateInterestKeys l e p).DstPort
    ∧ (getFastInterestKeys L p).Proto = (generateInterestKeys l e p).Proto := by
  obtain ⟨ha, hb, hc⟩ := getFastInterestKeys_ports L p
  unfold generateInterestKeys
  dsimp only
  obtain ⟨ha2, hb2, hc2⟩ := getFastInterestKeys_ports l
    { p with
      SrcGroupIds := p.SrcGroupIds ++ e.SrcInfo.GroupIds.filter (l.InterestGroupMaps p.Tap)
        ++ (if e.SrcInfo.GroupIds.any
              (fun id => l.InterestGroupMaps p.Tap id && id == ANY_GROUP) then []
            else [ANY_GROUP])
      DstGroupIds := p.DstGroupIds ++ e.DstInfo.GroupIds.filter (l.InterestGroupMaps p.Tap)
        ++ (if e.DstInfo.GroupIds.any
              (fun id => l.InterestGroupMaps p.Tap id && id == ANY_GROUP) then []
            else [ANY_GROUP]) }
  refine ⟨?_, ?_, ?_⟩
  · rw [ha, ha2, hP]
  · rw [hb, hb2, hP]
  · rw [hc, hc2, hQ]

lemma mergeDir_cond_acts (q F : PolicyData) (d : DirectionType) :
    (if F.AclActions.length > 0 then q.MergeDir F.AclActions F.ACLID d else q).AclActions
      = q.AclActions ++ F.AclActions.map (setDir d) := by
  split
  · rfl
  · rename_i h
    have hF : F.AclActions = [] := by
      cases hc : F.AclActions with
      | nil => rfl
      | cons a t => rw [hc] at h; simp at h
    rw [hF]
    simp

/-- The action list of a non-`INVALID` `GetPolicyByFirstPath` result. -/
lemma firstPath_policy (l : PolicyLabel) (e : EndpointData) (p p' : LookupKey)
    (P : PolicyData) (hp' : generateInterestKeys l e p = p')
    (hsome : (GetPolicyByFirstPath l e p).1 = some P) :
    P.AclActions
      = (if p'.Vlan > 0 then
          (vlanSearch (l.GroupVlanPolicyMaps p'.Tap)
            (generateGroupVlanKeys p'.SrcGroupIds p'.DstGroupIds p'.Vlan)).1.AclActions
         else [])
        ++ ((portSearch (l.GroupPortPolicyMaps p'.Tap)
            (generateSearchPortKeys p'.SrcGroupIds p'.DstGroupIds p'.DstPort p'.Proto)
            FORWARD).1.AclActions.map (setDir FORWARD))
        ++ ((portSearch (l.GroupPortPolicyMaps p'.Tap)
            (generateSearchPortKeys p'.DstGroupIds p'.SrcGroupIds p'.SrcPort p'.Proto)
            BACKWARD).1.AclActions.map (setDir BACKWARD)) := by
  unfold GetPolicyByFirstPath at hsome
  dsimp only at hsome
  rw [hp'] at hsome
  by_cases hv : p'.Vlan > 0
  · rw [if_pos hv] at hsome
    rw [if_pos hv]
    dsimp only at hsome
    split at hsome
    · exact absurd hsome (by simp)
    · replace hsome := Option.some.inj hsome
      subst hsome
      rw [mergeDir_cond_acts, mergeDir_cond_acts]
  · rw [if_neg hv] at hsome
    rw [if_neg hv]
    dsimp only at hsome
    split at hsome
    · exact absurd hsome (by simp)
    · replace hsome := Option.some.inj hsome
      subst hsome
      rw [mergeDir_cond_acts, mergeDir_cond_acts]
      simp [emptyPolicy]


/-- Claim C1 (corrected): tier consistency holds for the fast path run
immediately after a first-path call that returned a policy, provided the
fast path is not disabled, the per-direction cache can hold at least two
entries (and so can the MAC sub-caches it stores), the two MACs differ and
the two subnet keys differ.  The fast-path policy then carries exactly the
first-path policy's action list, direction tags included. -/
theorem c1_tier_consistency_amended (l : PolicyLabel) (e : EndpointData) (p : LookupKey)
    (P : PolicyData)
    (h1 : l.FastPathDisable = false)
    (h2 : (l.FastPolicyMaps p.FastIndex p.Tap).MaxEntries = 0
      ∨ 2 ≤ (l.FastPolicyMaps p.FastIndex p.Tap).MaxEntries)
    (h3 : GoodCache (l.FastPolicyMaps p.FastIndex p.Tap))
    (h4 : p.SrcMac ≠ p.DstMac)
    (h5 : getVlanAndPortMapKey l p FORWARD ≠ getVlanAndPortMapKey l p BACKWARD)
    (h6 : (GetPolicyByFirstPath l e p).1 = some P) :
    ∃ ep P',
      (GetPolicyByFastPath (GetPolicyByFirstPath l e p).2.2 p).1 = (some ep, some P')
      ∧ P'.AclActions = P.AclActions := by
  obtain ⟨pT, pSM, pDM, pSI, pDI, pV, pTap, pFI⟩ := generateInterestKeys_fields l e p
  have hkeyF : getVlanAndPortMapKey l (generateInterestKeys l e p) FORWARD
      = getVlanAndPortMapKey l p FORWARD :=
    getVlanAndPortMapKey_congr l l _ p FORWARD rfl pSI pDI
  have hkeyB : getVlanAndPortMapKey l (generateInterestKeys l e p) BACKWARD
      = getVlanAndPortMapKey l p BACKWARD :=
    getVlanAndPortMapKey_congr l l _ p BACKWARD rfl pSI pDI
  have hmax' : (l.FastPolicyMaps (generateInterestKeys l e p).FastIndex
        (generateInterestKeys l e p).Tap).MaxEntries = 0
      ∨ 2 ≤ (l.FastPolicyMaps (generateInterestKeys l e p).FastIndex
        (generateInterestKeys l e p).Tap).MaxEntries := by
    rw [pFI, pTap]
    exact h2
  have hgood' : GoodCache (l.FastPolicyMaps (generateInterestKeys l e p).FastIndex
      (generateInterestKeys l e p).Tap) := by
    rw [pFI, pTap]
    exact h3
  have hne' : getVlanAndPortMapKey l (generateInterestKeys l e p) FORWARD
      ≠ getVlanAndPortMapKey l (generateInterestKeys l e p) BACKWARD := by
    rw [hkeyF, hkeyB]
    exact h5
  have hmac' : (generateInterestKeys l e p).SrcMac ≠ (generateInterestKeys l e p).DstMac := by
    rw [pSM, pDM]
    exact h4
  obtain ⟨M3, M4, rest, hent, hm3ex, hport3, hvlan3, hm4ex, hport4⟩ :=
    firstPath_cache l e p (generateInterestKeys l e p) rfl hmax' hgood' hne' hmac'
  obtain ⟨r3, hm3⟩ := hm3ex
  obtain ⟨r4, hm4⟩ := hm4ex
  obtain ⟨hLd, hLip, hLP, hLQ, hLret⟩ := firstPath_frame l e p
  obtain ⟨kT, kSM, kDM, kSI, kDI, kV, kTap, kFI, _, _⟩ :=
    getFastInterestKeys_fields (GetPolicyByFirstPath l e p).2.2 p
  obtain ⟨kSP, kDP, kPr⟩ :=
    fastKey_fields_agree l (GetPolicyByFirstPath l e p).2.2 e p hLP hLQ
  have hKd : ∀ d, getVlanAndPortMapKey (GetPolicyByFirstPath l e p).2.2
      (getFastInterestKeys (GetPolicyByFirstPath l e p).2.2 p) d
      = getVlanAndPortMapKey l (generateInterestKeys l e p) d := by
    intro d
    exact getVlanAndPortMapKey_congr _ l _ _ d hLip (by rw [kSI, pSI]) (by rw [kDI, pDI])
  rw [pFI, pTap] at hent
  have hentK : (((GetPolicyByFirstPath l e p).2.2).FastPolicyMaps
      (getFastInterestKeys (GetPolicyByFirstPath l e p).2.2 p).FastIndex
      (getFastInterestKeys (GetPolicyByFirstPath l e p).2.2 p).Tap).entries
      = (getVlanAndPortMapKey (GetPolicyByFirstPath l e p).2.2
          (getFastInterestKeys (GetPolicyByFirstPath l e p).2.2 p) BACKWARD, M4)
        :: (getVlanAndPortMapKey (GetPolicyByFirstPath l e p).2.2
          (getFastInterestKeys (GetPolicyByFirstPath l e p).2.2 p) FORWARD, M3) :: rest := by
    rw [kFI, kTap, hKd FORWARD, hKd BACKWARD]
    exact hent
  have hneK : getVlanAndPortMapKey (GetPolicyByFirstPath l e p).2.2
      (getFastInterestKeys (GetPolicyByFirstPath l e p).2.2 p) FORWARD
      ≠ getVlanAndPortMapKey (GetPolicyByFirstPath l e p).2.2
        (getFastInterestKeys (GetPolicyByFirstPath l e p).2.2 p) BACKWARD := by
    rw [hKd FORWARD, hKd BACKWARD, hkeyF, hkeyB]
    exact h5
  have hmacK : (getFastInterestKeys (GetPolicyByFirstPath l e p).2.2 p).SrcMac
      ≠ (getFastInterestKeys (GetPolicyByFirstPath l e p).2.2 p).DstMac := by
    rw [kSM, kDM]
    exact h4
  have hm3K : M3.macEpcMap.entries
      = ((getFastInterestKeys (GetPolicyByFirstPath l e p).2.2 p).DstMac, epcId e.DstInfo)
        :: ((getFastInterestKeys (GetPolicyByFirstPath l e p).2.2 p).SrcMac,
            epcId e.SrcInfo) :: r3 := by
    rw [kSM, kDM, ← pSM, ← pDM]
    exact hm3
  have hm4K : M4.macEpcMap.entries
      = ((getFastInterestKeys (GetPolicyByFirstPath l e p).2.2 p).DstMac, epcId e.DstInfo)
        :: ((getFastInterestKeys (GetPolicyByFirstPath l e p).2.2 p).SrcMac,
            epcId e.SrcInfo) :: r4 := by
    rw [kSM, kDM, ← pSM, ← pDM]
    exact hm4
  have hpkey : ∀ d, fastPortLookupKey
      (getFastInterestKeys (GetPolicyByFirstPath l e p).2.2 p) d
        (epcId e.SrcInfo) (epcId e.DstInfo)
      = fastPortLookupKey (generateInterestKeys l e p) d
        (epcId e.SrcInfo) (epcId e.DstInfo) := by
    intro d
    exact fastPortLookupKey_congr _ _ d _ _ kPr kSP kDP
  have hTs : (getFastInterestKeys (GetPolicyByFirstPath l e p).2.2 p).Timestamp
      = (generateInterestKeys l e p).Timestamp := by
    rw [kT, pT]
  have hport3K : M3.portPolicyMap.find? (fastPortLookupKey
      (getFastInterestKeys (GetPolicyByFirstPath l e p).2.2 p) FORWARD
        (epcId e.SrcInfo) (epcId e.DstInfo))
      = some ⟨e, emptyPolicy.Merge
          (portSearch (l.GroupPortPolicyMaps (generateInterestKeys l e p).Tap)
            (generateSearchPortKeys (generateInterestKeys l e p).SrcGroupIds
              (generateInterestKeys l e p).DstGroupIds
              (generateInterestKeys l e p).DstPort (generateInterestKeys l e p).Proto)
            FORWARD).1.AclActions
          (portSearch (l.GroupPortPolicyMaps (generateInterestKeys l e p).Tap)
            (generateSearchPortKeys (generateInterestKeys l e p).SrcGroupIds
              (generateInterestKeys l e p).DstGroupIds
              (generateInterestKeys l e p).DstPort (generateInterestKeys l e p).Proto)
            FORWARD).1.ACLID,
          (getFastInterestKeys (GetPolicyByFirstPath l e p).2.2 p).Timestamp⟩ := by
    rw [hpkey FORWARD, hTs]
    exact hport3
  have hport4K : M4.portPolicyMap.find? (fastPortLookupKey
      (getFastInterestKeys (GetPolicyByFirstPath l e p).2.2 p) BACKWARD
        (epcId e.SrcInfo) (epcId e.DstInfo))
      = some ⟨⟨e.DstInfo, e.SrcInfo⟩, emptyPolicy.Merge
          (portSearch (l.GroupPortPolicyMaps (generateInterestKeys l e p).Tap)
            (generateSearchPortKeys (generateInterestKeys l e p).DstGroupIds
              (generateInterestKeys l e p).SrcGroupIds
              (generateInterestKeys l e p).SrcPort (generateInterestKeys l e p).Proto)
            BACKWARD).1.AclActions
          (portSearch (l.GroupPortPolicyMaps (generateInterestKeys l e p).Tap)
            (generateSearchPortKeys (generateInterestKeys l e p).DstGroupIds
              (generateInterestKeys l e p).SrcGroupIds
              (generateInterestKeys l e p).SrcPort (generateInterestKeys l e p).Proto)
            BACKWARD).1.ACLID,
          (getFastInterestKeys (GetPolicyByFirstPath l e p).2.2 p).Timestamp⟩ := by
    rw [hpkey BACKWARD, hTs]
    exact hport4
  have hvlan3K : (getFastInterestKeys (GetPolicyByFirstPath l e p).2.2 p).Vlan > 0 →
      M3.vlanPolicyMap.find? (fastVlanLookupKey
        (getFastInterestKeys (GetPolicyByFirstPath l e p).2.2 p) FORWARD
          (epcId e.SrcInfo) (epcId e.DstInfo))
      = some ⟨e, emptyPolicy.Merge
          (vlanSearch (l.GroupVlanPolicyMaps (generateInterestKeys l e p).Tap)
            (generateGroupVlanKeys (generateInterestKeys l e p).SrcGroupIds
              (generateInterestKeys l e p).DstGroupIds
              (generateInterestKeys l e p).Vlan)).1.AclActions
          (vlanSearch (l.GroupVlanPolicyMaps (generateInterestKeys l e p).Tap)
            (generateGroupVlanKeys (generateInterestKeys l e p).SrcGroupIds
              (generateInterestKeys l e p).DstGroupIds
              (generateInterestKeys l e p).Vlan)).1.ACLID,
          (getFastInterestKeys (GetPolicyByFirstPath l e p).2.2 p).Timestamp⟩ := by
    intro hv
    rw [fastVlanLookupKey_congr _ (generateInterestKeys l e p) FORWARD
      (epcId e.SrcInfo) (epcId e.DstInfo) (by rw [kV, pV]), hTs]
    exact hvlan3 (by rw [pV, ← kV]; exact hv)
  have hdisK : ((GetPolicyByFirstPath l e p).2.2).FastPathDisable = false := by
    rw [hLd]
    exact h1
  have heval := fastPath_eval (GetPolicyByFirstPath l e p).2.2 p
    (getFastInterestKeys (GetPolicyByFirstPath l e p).2.2 p) rfl hdisK M3 M4 rest
    hneK hentK hmacK (epcId e.SrcInfo) (epcId e.DstInfo) r3 r4 _ _ _ _ _ _
    hm3K hport3K hvlan3K hm4K hport4K
  refine ⟨_, _, heval, ?_⟩
  rw [firstPath_policy l e p (generateInterestKeys l e p) P rfl h6]
  simp only [PolicyData.MergeDir, PolicyData.Merge, emptyPolicy,
    apply_ite PolicyData.AclActions, kV, pV, List.nil_append]


/-! ## Concrete instances for claims C1 and C3 -/






/-- Claim C1 counterexample: with `fastPathDisable` set (a supported
configuration), `GetPolicyByFirstPath` returns a real policy but the
immediately following `GetPolicyByFastPath` on the same worker with the
same key returns the `(nil, INVALID_POLICY_DATA)` sentinel, not that
policy.  The claim as stated is therefore false. -/
theorem c1_tier_consistency_counterexample :
    (GetPolicyByFirstPath c1L c1E c1P).1
      = some ⟨7, [⟨5, FORWARD⟩, ⟨5, BACKWARD⟩]⟩
    ∧ (GetPolicyByFastPath (GetPolicyByFirstPath c1L c1E c1P).2.2 c1P).1
      = (none, none) := by
  exact ⟨by decide, by decide⟩


/-- Witness for the corrected claim C1 at a concrete input. -/
theorem c1_tier_consistency_witness :
    c1Lw.FastPathDisable = false
    ∧ ((c1Lw.FastPolicyMaps c1P.FastIndex c1P.Tap).MaxEntries = 0
        ∨ 2 ≤ (c1Lw.FastPolicyMaps c1P.FastIndex c1P.Tap).MaxEntries)
    ∧ GoodCache (c1Lw.FastPolicyMaps c1P.FastIndex c1P.Tap)
    ∧ c1P.SrcMac ≠ c1P.DstMac
    ∧ getVlanAndPortMapKey c1Lw c1P FORWARD ≠ getVlanAndPortMapKey c1Lw c1P BACKWARD
    ∧ (GetPolicyByFirstPath c1Lw c1E c1P).1 = some ⟨7, [⟨5, FORWARD⟩, ⟨5, BACKWARD⟩]⟩
    ∧ ∃ ep P',
        (GetPolicyByFastPath (GetPolicyByFirstPath c1Lw c1E c1P).2.2 c1P).1
          = (some ep, some P')
        ∧ P'.AclActions = (⟨7, [⟨5, FORWARD⟩, ⟨5, BACKWARD⟩]⟩ : PolicyData).AclActions :=
  ⟨rfl, Or.inr (by decide),
   by intro kv hkv; simp [c1Lw, NewPolicyLabel, Lru.new] at hkv,
   by decide, by decide, by decide,
   c1_tier_consistency_amended c1Lw c1E c1P ⟨7, [⟨5, FORWARD⟩, ⟨5, BACKWARD⟩]⟩ rfl
     (Or.inr (by decide))
     (by intro kv hkv; simp [c1Lw, NewPolicyLabel, Lru.new] at hkv)
     (by decide) (by decide) (by decide)⟩


end DeepflowPolicy
